import Mathlib

/-!
# go-ora `v2/configurations/database_info.go`

A shallow embedding of the connection-descriptor parser and of the failover
cursor of `database_info.go`, together with the properties proved about them.

Go strings are modelled as Lean `String`s (sequences of runes, that is valid
UTF-8 texts); the text processing itself works on `List Char`.  Go `int` is the
64-bit signed integer type: integers are modelled by `Int`, with the range
check of `strconv.Atoi` and the wrap-around of `serverIndex++` made explicit.
A call either returns or panics on an index out of range (`Run`).

The four regular expressions of the file are written as syntax trees of type
`Re`, group by group as in the source literals, and are run by a backtracking
matcher with the leftmost-first, greedy semantics of Go's `regexp` package:
a capture group keeps the text of its last participation, a group that never
participated reads as the empty string.
-/

namespace Configurations

/-! ## Runes and strings -/

/-- The Perl class `\s` of Go's `regexp`: tab, line feed, form feed, carriage return, space. -/
def isSpace (c : Char) : Bool :=
  c.toNat == 9 || c.toNat == 10 || c.toNat == 12 || c.toNat == 13 || c.toNat == 32

/-- ASCII decimal digit, the class `[0-9]`. -/
def isDigit (c : Char) : Bool :=
  48 ≤ c.toNat && c.toNat ≤ 57

/-- The Perl class `\w` without case folding: `[0-9A-Za-z_]`. -/
def isWord (c : Char) : Bool :=
  isDigit c || (65 ≤ c.toNat && c.toNat ≤ 90) || c.toNat == 95 || (97 ≤ c.toNat && c.toNat ≤ 122)

/-- The class `\w` under the flag `(?i)`: Go closes a class under simple case folding, which
adds U+017F (long s, folds with `s`) and U+212A (Kelvin sign, folds with `k`). -/
def isWordFold (c : Char) : Bool :=
  isWord c || c.toNat == 0x17F || c.toNat == 0x212A

/-- The class `[\w\.\-\:]` under `(?i)`: the runes of a HOST value. -/
def isHostRune (c : Char) : Bool :=
  isWordFold c || c.toNat == 46 || c.toNat == 45 || c.toNat == 58

/-- The class `[\w.-]` under `(?i)`: the runes of a COMMUNITY or identity value. -/
def isNameRune (c : Char) : Bool :=
  isWordFold c || c.toNat == 46 || c.toNat == 45

/-- A literal rune of a pattern under `(?i)`: the rune itself, for an ASCII letter also its other
case, and the two non-ASCII runes that fold to `S` and `K`. -/
def foldMatches (l c : Char) : Bool :=
  c == l ||
  (65 ≤ l.toNat && l.toNat ≤ 90 && c.toNat == l.toNat + 32) ||
  (97 ≤ l.toNat && l.toNat ≤ 122 && c.toNat + 32 == l.toNat) ||
  ((l.toNat == 83 || l.toNat == 115) && c.toNat == 0x17F) ||
  ((l.toNat == 75 || l.toNat == 107) && c.toNat == 0x212A)

/-! ## The case tables of package `unicode`

Runes are mapped through their code points.  A table is a sequence of runs
`lo, lo + step, ..., hi` of code points that are shifted by the same amount;
it is written as a function, block by block, so that the mapping of a rune is
computed by comparisons only. -/

/-- Membership in a run of a case table: `lo ≤ n ≤ hi` and `n - lo` is a multiple of `step`. -/
def inRun (lo hi step n : Nat) : Bool :=
  Nat.ble lo n && (Nat.ble n hi && Nat.beq ((n - lo) % step) 0)

/-- One entry of a case table: a code point of the run `lo, lo + step, ..., hi` is mapped to
itself plus `plus` minus `minus`, any other code point to `rest`. -/
def caseRun (lo hi step plus minus n rest : Nat) : Nat :=
  bif inRun lo hi step n then n + plus - minus else rest

/-- Upper-case mappings of `unicode.CaseRanges`, runes U+00B5 to U+0188. -/
def upperBlock0 (n : Nat) : Nat :=
  caseRun 0xB5 0xB5 1 743 0 n <|
  caseRun 0xE0 0xF6 1 0 32 n <|
  caseRun 0xF8 0xFE 1 0 32 n <|
  caseRun 0xFF 0xFF 1 121 0 n <|
  caseRun 0x101 0x12F 2 0 1 n <|
  caseRun 0x131 0x131 1 0 232 n <|
  caseRun 0x133 0x137 2 0 1 n <|
  caseRun 0x13A 0x148 2 0 1 n <|
  caseRun 0x14B 0x177 2 0 1 n <|
  caseRun 0x17A 0x17E 2 0 1 n <|
  caseRun 0x17F 0x17F 1 0 300 n <|
  caseRun 0x180 0x180 1 195 0 n <|
  caseRun 0x183 0x185 2 0 1 n <|
  caseRun 0x188 0x188 1 0 1 n <|
  n

/-- Upper-case mappings of `unicode.CaseRanges`, runes U+018C to U+01BF. -/
def upperBlock1 (n : Nat) : Nat :=
  caseRun 0x18C 0x18C 1 0 1 n <|
  caseRun 0x192 0x192 1 0 1 n <|
  caseRun 0x195 0x195 1 97 0 n <|
  caseRun 0x199 0x199 1 0 1 n <|
  caseRun 0x19A 0x19A 1 163 0 n <|
  caseRun 0x19E 0x19E 1 130 0 n <|
  caseRun 0x1A1 0x1A5 2 0 1 n <|
  caseRun 0x1A8 0x1A8 1 0 1 n <|
  caseRun 0x1AD 0x1AD 1 0 1 n <|
  caseRun 0x1B0 0x1B0 1 0 1 n <|
  caseRun 0x1B4 0x1B6 2 0 1 n <|
  caseRun 0x1B9 0x1B9 1 0 1 n <|
  caseRun 0x1BD 0x1BD 1 0 1 n <|
  caseRun 0x1BF 0x1BF 1 56 0 n <|
  n

/-- Upper-case mappings of `unicode.CaseRanges`, runes U+01C5 to U+0233. -/
def upperBlock2 (n : Nat) : Nat :=
  caseRun 0x1C5 0x1C5 1 0 1 n <|
  caseRun 0x1C6 0x1C6 1 0 2 n <|
  caseRun 0x1C8 0x1C8 1 0 1 n <|
  caseRun 0x1C9 0x1C9 1 0 2 n <|
  caseRun 0x1CB 0x1CB 1 0 1 n <|
  caseRun 0x1CC 0x1CC 1 0 2 n <|
  caseRun 0x1CE 0x1DC 2 0 1 n <|
  caseRun 0x1DD 0x1DD 1 0 79 n <|
  caseRun 0x1DF 0x1EF 2 0 1 n <|
  caseRun 0x1F2 0x1F2 1 0 1 n <|
  caseRun 0x1F3 0x1F3 1 0 2 n <|
  caseRun 0x1F5 0x1F5 1 0 1 n <|
  caseRun 0x1F9 0x21F 2 0 1 n <|
  caseRun 0x223 0x233 2 0 1 n <|
  n

/-- Upper-case mappings of `unicode.CaseRanges`, runes U+023C to U+0260. -/
def upperBlock3 (n : Nat) : Nat :=
  caseRun 0x23C 0x23C 1 0 1 n <|
  caseRun 0x23F 0x240 1 10815 0 n <|
  caseRun 0x242 0x242 1 0 1 n <|
  caseRun 0x247 0x24F 2 0 1 n <|
  caseRun 0x250 0x250 1 10783 0 n <|
  caseRun 0x251 0x251 1 10780 0 n <|
  caseRun 0x252 0x252 1 10782 0 n <|
  caseRun 0x253 0x253 1 0 210 n <|
  caseRun 0x254 0x254 1 0 206 n <|
  caseRun 0x256 0x257 1 0 205 n <|
  caseRun 0x259 0x259 1 0 202 n <|
  caseRun 0x25B 0x25B 1 0 203 n <|
  caseRun 0x25C 0x25C 1 42319 0 n <|
  caseRun 0x260 0x260 1 0 205 n <|
  n

/-- Upper-case mappings of `unicode.CaseRanges`, runes U+0261 to U+027D. -/
def upperBlock4 (n : Nat) : Nat :=
  caseRun 0x261 0x261 1 42315 0 n <|
  caseRun 0x263 0x263 1 0 207 n <|
  caseRun 0x265 0x265 1 42280 0 n <|
  caseRun 0x266 0x266 1 42308 0 n <|
  caseRun 0x268 0x268 1 0 209 n <|
  caseRun 0x269 0x269 1 0 211 n <|
  caseRun 0x26A 0x26A 1 42308 0 n <|
  caseRun 0x26B 0x26B 1 10743 0 n <|
  caseRun 0x26C 0x26C 1 42305 0 n <|
  caseRun 0x26F 0x26F 1 0 211 n <|
  caseRun 0x271 0x271 1 10749 0 n <|
  caseRun 0x272 0x272 1 0 213 n <|
  caseRun 0x275 0x275 1 0 214 n <|
  caseRun 0x27D 0x27D 1 10727 0 n <|
  n

/-- Upper-case mappings of `unicode.CaseRanges`, runes U+0280 to U+0377. -/
def upperBlock5 (n : Nat) : Nat :=
  caseRun 0x280 0x280 1 0 218 n <|
  caseRun 0x282 0x282 1 42307 0 n <|
  caseRun 0x283 0x283 1 0 218 n <|
  caseRun 0x287 0x287 1 42282 0 n <|
  caseRun 0x288 0x288 1 0 218 n <|
  caseRun 0x289 0x289 1 0 69 n <|
  caseRun 0x28A 0x28B 1 0 217 n <|
  caseRun 0x28C 0x28C 1 0 71 n <|
  caseRun 0x292 0x292 1 0 219 n <|
  caseRun 0x29D 0x29D 1 42261 0 n <|
  caseRun 0x29E 0x29E 1 42258 0 n <|
  caseRun 0x345 0x345 1 84 0 n <|
  caseRun 0x371 0x373 2 0 1 n <|
  caseRun 0x377 0x377 1 0 1 n <|
  n

/-- Upper-case mappings of `unicode.CaseRanges`, runes U+037B to U+03EF. -/
def upperBlock6 (n : Nat) : Nat :=
  caseRun 0x37B 0x37D 1 130 0 n <|
  caseRun 0x3AC 0x3AC 1 0 38 n <|
  caseRun 0x3AD 0x3AF 1 0 37 n <|
  caseRun 0x3B1 0x3C1 1 0 32 n <|
  caseRun 0x3C2 0x3C2 1 0 31 n <|
  caseRun 0x3C3 0x3CB 1 0 32 n <|
  caseRun 0x3CC 0x3CC 1 0 64 n <|
  caseRun 0x3CD 0x3CE 1 0 63 n <|
  caseRun 0x3D0 0x3D0 1 0 62 n <|
  caseRun 0x3D1 0x3D1 1 0 57 n <|
  caseRun 0x3D5 0x3D5 1 0 47 n <|
  caseRun 0x3D6 0x3D6 1 0 54 n <|
  caseRun 0x3D7 0x3D7 1 0 8 n <|
  caseRun 0x3D9 0x3EF 2 0 1 n <|
  n

/-- Upper-case mappings of `unicode.CaseRanges`, runes U+03F0 to U+052F. -/
def upperBlock7 (n : Nat) : Nat :=
  caseRun 0x3F0 0x3F0 1 0 86 n <|
  caseRun 0x3F1 0x3F1 1 0 80 n <|
  caseRun 0x3F2 0x3F2 1 7 0 n <|
  caseRun 0x3F3 0x3F3 1 0 116 n <|
  caseRun 0x3F5 0x3F5 1 0 96 n <|
  caseRun 0x3F8 0x3F8 1 0 1 n <|
  caseRun 0x3FB 0x3FB 1 0 1 n <|
  caseRun 0x430 0x44F 1 0 32 n <|
  caseRun 0x450 0x45F 1 0 80 n <|
  caseRun 0x461 0x481 2 0 1 n <|
  caseRun 0x48B 0x4BF 2 0 1 n <|
  caseRun 0x4C2 0x4CE 2 0 1 n <|
  caseRun 0x4CF 0x4CF 1 0 15 n <|
  caseRun 0x4D1 0x52F 2 0 1 n <|
  n

/-- Upper-case mappings of `unicode.CaseRanges`, runes U+0561 to U+1D7D. -/
def upperBlock8 (n : Nat) : Nat :=
  caseRun 0x561 0x586 1 0 48 n <|
  caseRun 0x10D0 0x10FA 1 3008 0 n <|
  caseRun 0x10FD 0x10FF 1 3008 0 n <|
  caseRun 0x13F8 0x13FD 1 0 8 n <|
  caseRun 0x1C80 0x1C80 1 0 6254 n <|
  caseRun 0x1C81 0x1C81 1 0 6253 n <|
  caseRun 0x1C82 0x1C82 1 0 6244 n <|
  caseRun 0x1C83 0x1C84 1 0 6242 n <|
  caseRun 0x1C85 0x1C85 1 0 6243 n <|
  caseRun 0x1C86 0x1C86 1 0 6236 n <|
  caseRun 0x1C87 0x1C87 1 0 6181 n <|
  caseRun 0x1C88 0x1C88 1 35266 0 n <|
  caseRun 0x1D79 0x1D79 1 35332 0 n <|
  caseRun 0x1D7D 0x1D7D 1 3814 0 n <|
  n

/-- Upper-case mappings of `unicode.CaseRanges`, runes U+1D8E to U+1F77. -/
def upperBlock9 (n : Nat) : Nat :=
  caseRun 0x1D8E 0x1D8E 1 35384 0 n <|
  caseRun 0x1E01 0x1E95 2 0 1 n <|
  caseRun 0x1E9B 0x1E9B 1 0 59 n <|
  caseRun 0x1EA1 0x1EFF 2 0 1 n <|
  caseRun 0x1F00 0x1F07 1 8 0 n <|
  caseRun 0x1F10 0x1F15 1 8 0 n <|
  caseRun 0x1F20 0x1F27 1 8 0 n <|
  caseRun 0x1F30 0x1F37 1 8 0 n <|
  caseRun 0x1F40 0x1F45 1 8 0 n <|
  caseRun 0x1F51 0x1F57 2 8 0 n <|
  caseRun 0x1F60 0x1F67 1 8 0 n <|
  caseRun 0x1F70 0x1F71 1 74 0 n <|
  caseRun 0x1F72 0x1F75 1 86 0 n <|
  caseRun 0x1F76 0x1F77 1 100 0 n <|
  n

/-- Upper-case mappings of `unicode.CaseRanges`, runes U+1F78 to U+1FF3. -/
def upperBlock10 (n : Nat) : Nat :=
  caseRun 0x1F78 0x1F79 1 128 0 n <|
  caseRun 0x1F7A 0x1F7B 1 112 0 n <|
  caseRun 0x1F7C 0x1F7D 1 126 0 n <|
  caseRun 0x1F80 0x1F87 1 8 0 n <|
  caseRun 0x1F90 0x1F97 1 8 0 n <|
  caseRun 0x1FA0 0x1FA7 1 8 0 n <|
  caseRun 0x1FB0 0x1FB1 1 8 0 n <|
  caseRun 0x1FB3 0x1FB3 1 9 0 n <|
  caseRun 0x1FBE 0x1FBE 1 0 7205 n <|
  caseRun 0x1FC3 0x1FC3 1 9 0 n <|
  caseRun 0x1FD0 0x1FD1 1 8 0 n <|
  caseRun 0x1FE0 0x1FE1 1 8 0 n <|
  caseRun 0x1FE5 0x1FE5 1 7 0 n <|
  caseRun 0x1FF3 0x1FF3 1 9 0 n <|
  n

/-- Upper-case mappings of `unicode.CaseRanges`, runes U+214E to U+2CF3. -/
def upperBlock11 (n : Nat) : Nat :=
  caseRun 0x214E 0x214E 1 0 28 n <|
  caseRun 0x2170 0x217F 1 0 16 n <|
  caseRun 0x2184 0x2184 1 0 1 n <|
  caseRun 0x24D0 0x24E9 1 0 26 n <|
  caseRun 0x2C30 0x2C5F 1 0 48 n <|
  caseRun 0x2C61 0x2C61 1 0 1 n <|
  caseRun 0x2C65 0x2C65 1 0 10795 n <|
  caseRun 0x2C66 0x2C66 1 0 10792 n <|
  caseRun 0x2C68 0x2C6C 2 0 1 n <|
  caseRun 0x2C73 0x2C73 1 0 1 n <|
  caseRun 0x2C76 0x2C76 1 0 1 n <|
  caseRun 0x2C81 0x2CE3 2 0 1 n <|
  caseRun 0x2CEC 0x2CEE 2 0 1 n <|
  caseRun 0x2CF3 0x2CF3 1 0 1 n <|
  n

/-- Upper-case mappings of `unicode.CaseRanges`, runes U+2D00 to U+A7C3. -/
def upperBlock12 (n : Nat) : Nat :=
  caseRun 0x2D00 0x2D25 1 0 7264 n <|
  caseRun 0x2D27 0x2D27 1 0 7264 n <|
  caseRun 0x2D2D 0x2D2D 1 0 7264 n <|
  caseRun 0xA641 0xA66D 2 0 1 n <|
  caseRun 0xA681 0xA69B 2 0 1 n <|
  caseRun 0xA723 0xA72F 2 0 1 n <|
  caseRun 0xA733 0xA76F 2 0 1 n <|
  caseRun 0xA77A 0xA77C 2 0 1 n <|
  caseRun 0xA77F 0xA787 2 0 1 n <|
  caseRun 0xA78C 0xA78C 1 0 1 n <|
  caseRun 0xA791 0xA793 2 0 1 n <|
  caseRun 0xA794 0xA794 1 48 0 n <|
  caseRun 0xA797 0xA7A9 2 0 1 n <|
  caseRun 0xA7B5 0xA7C3 2 0 1 n <|
  n

/-- Upper-case mappings of `unicode.CaseRanges`, runes U+A7C8 to U+105BC. -/
def upperBlock13 (n : Nat) : Nat :=
  caseRun 0xA7C8 0xA7CA 2 0 1 n <|
  caseRun 0xA7D1 0xA7D1 1 0 1 n <|
  caseRun 0xA7D7 0xA7D9 2 0 1 n <|
  caseRun 0xA7F6 0xA7F6 1 0 1 n <|
  caseRun 0xAB53 0xAB53 1 0 928 n <|
  caseRun 0xAB70 0xABBF 1 0 38864 n <|
  caseRun 0xFF41 0xFF5A 1 0 32 n <|
  caseRun 0x10428 0x1044F 1 0 40 n <|
  caseRun 0x104D8 0x104FB 1 0 40 n <|
  caseRun 0x10597 0x105BB 2 0 39 n <|
  caseRun 0x10598 0x105A1 1 0 39 n <|
  caseRun 0x105A4 0x105B1 1 0 39 n <|
  caseRun 0x105B4 0x105B9 1 0 39 n <|
  caseRun 0x105BC 0x105BC 1 0 39 n <|
  n

/-- Upper-case mappings of `unicode.CaseRanges`, runes U+10CC0 to U+1E943. -/
def upperBlock14 (n : Nat) : Nat :=
  caseRun 0x10CC0 0x10CF2 1 0 64 n <|
  caseRun 0x118C0 0x118DF 1 0 32 n <|
  caseRun 0x16E60 0x16E7F 1 0 32 n <|
  caseRun 0x1E922 0x1E943 1 0 34 n <|
  n

/-- The function `unicode.To(UpperCase, r)` beyond ASCII: the simple upper-case mapping of
Unicode 15.0.0, the version of the tables of Go 1.21, block by block. -/
def upperTail (n : Nat) : Nat :=
  bif Nat.ble n 0x188 then upperBlock0 n else
  bif Nat.ble n 0x1BF then upperBlock1 n else
  bif Nat.ble n 0x233 then upperBlock2 n else
  bif Nat.ble n 0x260 then upperBlock3 n else
  bif Nat.ble n 0x27D then upperBlock4 n else
  bif Nat.ble n 0x377 then upperBlock5 n else
  bif Nat.ble n 0x3EF then upperBlock6 n else
  bif Nat.ble n 0x52F then upperBlock7 n else
  bif Nat.ble n 0x1D7D then upperBlock8 n else
  bif Nat.ble n 0x1F77 then upperBlock9 n else
  bif Nat.ble n 0x1FF3 then upperBlock10 n else
  bif Nat.ble n 0x2CF3 then upperBlock11 n else
  bif Nat.ble n 0xA7C3 then upperBlock12 n else
  bif Nat.ble n 0x105BC then upperBlock13 n else
  bif Nat.ble n 0x1E943 then upperBlock14 n else
  n

/-- Folding orbits of `unicode.SimpleFold`, runes U+00E0 to U+0199. -/
def orbitBlock0 (n : Nat) : Nat :=
  caseRun 0xE0 0xF6 1 0 32 n <|
  caseRun 0xF8 0xFE 1 0 32 n <|
  caseRun 0x101 0x12F 2 0 1 n <|
  caseRun 0x133 0x137 2 0 1 n <|
  caseRun 0x13A 0x148 2 0 1 n <|
  caseRun 0x14B 0x177 2 0 1 n <|
  caseRun 0x178 0x178 1 0 121 n <|
  caseRun 0x17A 0x17E 2 0 1 n <|
  caseRun 0x17F 0x17F 1 0 300 n <|
  caseRun 0x183 0x185 2 0 1 n <|
  caseRun 0x188 0x188 1 0 1 n <|
  caseRun 0x18C 0x18C 1 0 1 n <|
  caseRun 0x192 0x192 1 0 1 n <|
  caseRun 0x199 0x199 1 0 1 n <|
  n

/-- Folding orbits of `unicode.SimpleFold`, runes U+01A1 to U+01DC. -/
def orbitBlock1 (n : Nat) : Nat :=
  caseRun 0x1A1 0x1A5 2 0 1 n <|
  caseRun 0x1A8 0x1A8 1 0 1 n <|
  caseRun 0x1AD 0x1AD 1 0 1 n <|
  caseRun 0x1B0 0x1B0 1 0 1 n <|
  caseRun 0x1B4 0x1B6 2 0 1 n <|
  caseRun 0x1B9 0x1B9 1 0 1 n <|
  caseRun 0x1BD 0x1BD 1 0 1 n <|
  caseRun 0x1C5 0x1C5 1 0 1 n <|
  caseRun 0x1C6 0x1C6 1 0 2 n <|
  caseRun 0x1C8 0x1C8 1 0 1 n <|
  caseRun 0x1C9 0x1C9 1 0 2 n <|
  caseRun 0x1CB 0x1CB 1 0 1 n <|
  caseRun 0x1CC 0x1CC 1 0 2 n <|
  caseRun 0x1CE 0x1DC 2 0 1 n <|
  n

/-- Folding orbits of `unicode.SimpleFold`, runes U+01DD to U+0243. -/
def orbitBlock2 (n : Nat) : Nat :=
  caseRun 0x1DD 0x1DD 1 0 79 n <|
  caseRun 0x1DF 0x1EF 2 0 1 n <|
  caseRun 0x1F2 0x1F2 1 0 1 n <|
  caseRun 0x1F3 0x1F3 1 0 2 n <|
  caseRun 0x1F5 0x1F5 1 0 1 n <|
  caseRun 0x1F6 0x1F6 1 0 97 n <|
  caseRun 0x1F7 0x1F7 1 0 56 n <|
  caseRun 0x1F9 0x21F 2 0 1 n <|
  caseRun 0x220 0x220 1 0 130 n <|
  caseRun 0x223 0x233 2 0 1 n <|
  caseRun 0x23C 0x23C 1 0 1 n <|
  caseRun 0x23D 0x23D 1 0 163 n <|
  caseRun 0x242 0x242 1 0 1 n <|
  caseRun 0x243 0x243 1 0 195 n <|
  n

/-- Folding orbits of `unicode.SimpleFold`, runes U+0247 to U+0280. -/
def orbitBlock3 (n : Nat) : Nat :=
  caseRun 0x247 0x24F 2 0 1 n <|
  caseRun 0x253 0x253 1 0 210 n <|
  caseRun 0x254 0x254 1 0 206 n <|
  caseRun 0x256 0x257 1 0 205 n <|
  caseRun 0x259 0x259 1 0 202 n <|
  caseRun 0x25B 0x25B 1 0 203 n <|
  caseRun 0x260 0x260 1 0 205 n <|
  caseRun 0x263 0x263 1 0 207 n <|
  caseRun 0x268 0x268 1 0 209 n <|
  caseRun 0x269 0x269 1 0 211 n <|
  caseRun 0x26F 0x26F 1 0 211 n <|
  caseRun 0x272 0x272 1 0 213 n <|
  caseRun 0x275 0x275 1 0 214 n <|
  caseRun 0x280 0x280 1 0 218 n <|
  n

/-- Folding orbits of `unicode.SimpleFold`, runes U+0283 to U+03B9. -/
def orbitBlock4 (n : Nat) : Nat :=
  caseRun 0x283 0x283 1 0 218 n <|
  caseRun 0x288 0x288 1 0 218 n <|
  caseRun 0x289 0x289 1 0 69 n <|
  caseRun 0x28A 0x28B 1 0 217 n <|
  caseRun 0x28C 0x28C 1 0 71 n <|
  caseRun 0x292 0x292 1 0 219 n <|
  caseRun 0x371 0x373 2 0 1 n <|
  caseRun 0x377 0x377 1 0 1 n <|
  caseRun 0x399 0x399 1 0 84 n <|
  caseRun 0x39C 0x39C 1 0 743 n <|
  caseRun 0x3AC 0x3AC 1 0 38 n <|
  caseRun 0x3AD 0x3AF 1 0 37 n <|
  caseRun 0x3B1 0x3B8 1 0 32 n <|
  caseRun 0x3B9 0x3B9 1 0 116 n <|
  n

/-- Folding orbits of `unicode.SimpleFold`, runes U+03BA to U+03EF. -/
def orbitBlock5 (n : Nat) : Nat :=
  caseRun 0x3BA 0x3BB 1 0 32 n <|
  caseRun 0x3BC 0x3BC 1 0 775 n <|
  caseRun 0x3BD 0x3CB 2 0 32 n <|
  caseRun 0x3BE 0x3C1 1 0 32 n <|
  caseRun 0x3C2 0x3C2 1 0 31 n <|
  caseRun 0x3C4 0x3CB 1 0 32 n <|
  caseRun 0x3CC 0x3CC 1 0 64 n <|
  caseRun 0x3CD 0x3CE 1 0 63 n <|
  caseRun 0x3D0 0x3D0 1 0 62 n <|
  caseRun 0x3D1 0x3D1 1 0 57 n <|
  caseRun 0x3D5 0x3D5 1 0 47 n <|
  caseRun 0x3D6 0x3D6 1 0 54 n <|
  caseRun 0x3D7 0x3D7 1 0 8 n <|
  caseRun 0x3D9 0x3EF 2 0 1 n <|
  n

/-- Folding orbits of `unicode.SimpleFold`, runes U+03F0 to U+04CE. -/
def orbitBlock6 (n : Nat) : Nat :=
  caseRun 0x3F0 0x3F0 1 0 86 n <|
  caseRun 0x3F1 0x3F1 1 0 80 n <|
  caseRun 0x3F3 0x3F3 1 0 116 n <|
  caseRun 0x3F4 0x3F4 1 0 92 n <|
  caseRun 0x3F5 0x3F5 1 0 96 n <|
  caseRun 0x3F8 0x3F8 1 0 1 n <|
  caseRun 0x3F9 0x3F9 1 0 7 n <|
  caseRun 0x3FB 0x3FB 1 0 1 n <|
  caseRun 0x3FD 0x3FF 1 0 130 n <|
  caseRun 0x430 0x44F 1 0 32 n <|
  caseRun 0x450 0x45F 1 0 80 n <|
  caseRun 0x461 0x481 2 0 1 n <|
  caseRun 0x48B 0x4BF 2 0 1 n <|
  caseRun 0x4C2 0x4CE 2 0 1 n <|
  n

/-- Folding orbits of `unicode.SimpleFold`, runes U+04CF to U+1E95. -/
def orbitBlock7 (n : Nat) : Nat :=
  caseRun 0x4CF 0x4CF 1 0 15 n <|
  caseRun 0x4D1 0x52F 2 0 1 n <|
  caseRun 0x561 0x586 1 0 48 n <|
  caseRun 0x13F8 0x13FD 1 0 8 n <|
  caseRun 0x1C80 0x1C80 1 0 6254 n <|
  caseRun 0x1C81 0x1C81 1 0 6253 n <|
  caseRun 0x1C82 0x1C82 1 0 6244 n <|
  caseRun 0x1C83 0x1C84 1 0 6242 n <|
  caseRun 0x1C85 0x1C85 1 0 6243 n <|
  caseRun 0x1C86 0x1C86 1 0 6236 n <|
  caseRun 0x1C87 0x1C87 1 0 6181 n <|
  caseRun 0x1C90 0x1CBA 1 0 3008 n <|
  caseRun 0x1CBD 0x1CBF 1 0 3008 n <|
  caseRun 0x1E01 0x1E95 2 0 1 n <|
  n

/-- Folding orbits of `unicode.SimpleFold`, runes U+1E9B to U+1FB9. -/
def orbitBlock8 (n : Nat) : Nat :=
  caseRun 0x1E9B 0x1E9B 1 0 59 n <|
  caseRun 0x1E9E 0x1E9E 1 0 7615 n <|
  caseRun 0x1EA1 0x1EFF 2 0 1 n <|
  caseRun 0x1F08 0x1F0F 1 0 8 n <|
  caseRun 0x1F18 0x1F1D 1 0 8 n <|
  caseRun 0x1F28 0x1F2F 1 0 8 n <|
  caseRun 0x1F38 0x1F3F 1 0 8 n <|
  caseRun 0x1F48 0x1F4D 1 0 8 n <|
  caseRun 0x1F59 0x1F5F 2 0 8 n <|
  caseRun 0x1F68 0x1F6F 1 0 8 n <|
  caseRun 0x1F88 0x1F8F 1 0 8 n <|
  caseRun 0x1F98 0x1F9F 1 0 8 n <|
  caseRun 0x1FA8 0x1FAF 1 0 8 n <|
  caseRun 0x1FB8 0x1FB9 1 0 8 n <|
  n

/-- Folding orbits of `unicode.SimpleFold`, runes U+1FBA to U+2126. -/
def orbitBlock9 (n : Nat) : Nat :=
  caseRun 0x1FBA 0x1FBB 1 0 74 n <|
  caseRun 0x1FBC 0x1FBC 1 0 9 n <|
  caseRun 0x1FBE 0x1FBE 1 0 7289 n <|
  caseRun 0x1FC8 0x1FCB 1 0 86 n <|
  caseRun 0x1FCC 0x1FCC 1 0 9 n <|
  caseRun 0x1FD8 0x1FD9 1 0 8 n <|
  caseRun 0x1FDA 0x1FDB 1 0 100 n <|
  caseRun 0x1FE8 0x1FE9 1 0 8 n <|
  caseRun 0x1FEA 0x1FEB 1 0 112 n <|
  caseRun 0x1FEC 0x1FEC 1 0 7 n <|
  caseRun 0x1FF8 0x1FF9 1 0 128 n <|
  caseRun 0x1FFA 0x1FFB 1 0 126 n <|
  caseRun 0x1FFC 0x1FFC 1 0 9 n <|
  caseRun 0x2126 0x2126 1 0 7549 n <|
  n

/-- Folding orbits of `unicode.SimpleFold`, runes U+212A to U+2C6C. -/
def orbitBlock10 (n : Nat) : Nat :=
  caseRun 0x212A 0x212A 1 0 8415 n <|
  caseRun 0x212B 0x212B 1 0 8294 n <|
  caseRun 0x214E 0x214E 1 0 28 n <|
  caseRun 0x2170 0x217F 1 0 16 n <|
  caseRun 0x2184 0x2184 1 0 1 n <|
  caseRun 0x24D0 0x24E9 1 0 26 n <|
  caseRun 0x2C30 0x2C5F 1 0 48 n <|
  caseRun 0x2C61 0x2C61 1 0 1 n <|
  caseRun 0x2C62 0x2C62 1 0 10743 n <|
  caseRun 0x2C63 0x2C63 1 0 3814 n <|
  caseRun 0x2C64 0x2C64 1 0 10727 n <|
  caseRun 0x2C65 0x2C65 1 0 10795 n <|
  caseRun 0x2C66 0x2C66 1 0 10792 n <|
  caseRun 0x2C68 0x2C6C 2 0 1 n <|
  n

/-- Folding orbits of `unicode.SimpleFold`, runes U+2C6D to U+A649. -/
def orbitBlock11 (n : Nat) : Nat :=
  caseRun 0x2C6D 0x2C6D 1 0 10780 n <|
  caseRun 0x2C6E 0x2C6E 1 0 10749 n <|
  caseRun 0x2C6F 0x2C6F 1 0 10783 n <|
  caseRun 0x2C70 0x2C70 1 0 10782 n <|
  caseRun 0x2C73 0x2C73 1 0 1 n <|
  caseRun 0x2C76 0x2C76 1 0 1 n <|
  caseRun 0x2C7E 0x2C7F 1 0 10815 n <|
  caseRun 0x2C81 0x2CE3 2 0 1 n <|
  caseRun 0x2CEC 0x2CEE 2 0 1 n <|
  caseRun 0x2CF3 0x2CF3 1 0 1 n <|
  caseRun 0x2D00 0x2D25 1 0 7264 n <|
  caseRun 0x2D27 0x2D27 1 0 7264 n <|
  caseRun 0x2D2D 0x2D2D 1 0 7264 n <|
  caseRun 0xA641 0xA649 2 0 1 n <|
  n

/-- Folding orbits of `unicode.SimpleFold`, runes U+A64A to U+A7AA. -/
def orbitBlock12 (n : Nat) : Nat :=
  caseRun 0xA64A 0xA64A 1 0 35266 n <|
  caseRun 0xA64B 0xA64B 1 0 35267 n <|
  caseRun 0xA64D 0xA66D 2 0 1 n <|
  caseRun 0xA681 0xA69B 2 0 1 n <|
  caseRun 0xA723 0xA72F 2 0 1 n <|
  caseRun 0xA733 0xA76F 2 0 1 n <|
  caseRun 0xA77A 0xA77C 2 0 1 n <|
  caseRun 0xA77D 0xA77D 1 0 35332 n <|
  caseRun 0xA77F 0xA787 2 0 1 n <|
  caseRun 0xA78C 0xA78C 1 0 1 n <|
  caseRun 0xA78D 0xA78D 1 0 42280 n <|
  caseRun 0xA791 0xA793 2 0 1 n <|
  caseRun 0xA797 0xA7A9 2 0 1 n <|
  caseRun 0xA7AA 0xA7AA 1 0 42308 n <|
  n

/-- Folding orbits of `unicode.SimpleFold`, runes U+A7AB to U+A7D9. -/
def orbitBlock13 (n : Nat) : Nat :=
  caseRun 0xA7AB 0xA7AB 1 0 42319 n <|
  caseRun 0xA7AC 0xA7AC 1 0 42315 n <|
  caseRun 0xA7AD 0xA7AD 1 0 42305 n <|
  caseRun 0xA7AE 0xA7AE 1 0 42308 n <|
  caseRun 0xA7B0 0xA7B0 1 0 42258 n <|
  caseRun 0xA7B1 0xA7B1 1 0 42282 n <|
  caseRun 0xA7B2 0xA7B2 1 0 42261 n <|
  caseRun 0xA7B5 0xA7C3 2 0 1 n <|
  caseRun 0xA7C4 0xA7C4 1 0 48 n <|
  caseRun 0xA7C5 0xA7C5 1 0 42307 n <|
  caseRun 0xA7C6 0xA7C6 1 0 35384 n <|
  caseRun 0xA7C8 0xA7CA 2 0 1 n <|
  caseRun 0xA7D1 0xA7D1 1 0 1 n <|
  caseRun 0xA7D7 0xA7D9 2 0 1 n <|
  n

/-- Folding orbits of `unicode.SimpleFold`, runes U+A7F6 to U+16E7F. -/
def orbitBlock14 (n : Nat) : Nat :=
  caseRun 0xA7F6 0xA7F6 1 0 1 n <|
  caseRun 0xAB53 0xAB53 1 0 928 n <|
  caseRun 0xAB70 0xABBF 1 0 38864 n <|
  caseRun 0xFF41 0xFF5A 1 0 32 n <|
  caseRun 0x10428 0x1044F 1 0 40 n <|
  caseRun 0x104D8 0x104FB 1 0 40 n <|
  caseRun 0x10597 0x105BB 2 0 39 n <|
  caseRun 0x10598 0x105A1 1 0 39 n <|
  caseRun 0x105A4 0x105B1 1 0 39 n <|
  caseRun 0x105B4 0x105B9 1 0 39 n <|
  caseRun 0x105BC 0x105BC 1 0 39 n <|
  caseRun 0x10CC0 0x10CF2 1 0 64 n <|
  caseRun 0x118C0 0x118DF 1 0 32 n <|
  caseRun 0x16E60 0x16E7F 1 0 32 n <|
  n

/-- Folding orbits of `unicode.SimpleFold`, runes U+1E922 to U+1E943. -/
def orbitBlock15 (n : Nat) : Nat :=
  caseRun 0x1E922 0x1E943 1 0 34 n <|
  n

/-- The smallest rune of the orbit of a rune beyond ASCII under `unicode.SimpleFold` (Unicode
15.0.0): the rune itself when it has no smaller equivalent. -/
def orbitTail (n : Nat) : Nat :=
  bif Nat.ble n 0x199 then orbitBlock0 n else
  bif Nat.ble n 0x1DC then orbitBlock1 n else
  bif Nat.ble n 0x243 then orbitBlock2 n else
  bif Nat.ble n 0x280 then orbitBlock3 n else
  bif Nat.ble n 0x3B9 then orbitBlock4 n else
  bif Nat.ble n 0x3EF then orbitBlock5 n else
  bif Nat.ble n 0x4CE then orbitBlock6 n else
  bif Nat.ble n 0x1E95 then orbitBlock7 n else
  bif Nat.ble n 0x1FB9 then orbitBlock8 n else
  bif Nat.ble n 0x2126 then orbitBlock9 n else
  bif Nat.ble n 0x2C6C then orbitBlock10 n else
  bif Nat.ble n 0xA649 then orbitBlock11 n else
  bif Nat.ble n 0xA7AA then orbitBlock12 n else
  bif Nat.ble n 0xA7D9 then orbitBlock13 n else
  bif Nat.ble n 0x16E7F then orbitBlock14 n else
  bif Nat.ble n 0x1E943 then orbitBlock15 n else
  n

/-- Upper case of an ASCII code point: `a` to `z` become `A` to `Z`. -/
def asciiUpperCode (n : Nat) : Nat :=
  bif Nat.ble 97 n && Nat.ble n 122 then n - 32 else n

/-- The function `unicode.ToUpper` on code points: ASCII letters by arithmetic, as in the fast
path of the function, every other code point through the table. -/
def upperCode (n : Nat) : Nat :=
  bif Nat.ble n 127 then asciiUpperCode n else upperTail n

/-- The smallest code point equivalent to `n` under simple case folding, the one at which
`unicode.SimpleFold` wraps around: for an ASCII letter its upper case, since `K` and `S` are the
smallest runes of the orbits that hold U+212A and U+017F. -/
def foldCode (n : Nat) : Nat :=
  bif Nat.ble n 127 then asciiUpperCode n else orbitTail n

/-! ## Upper case and line breaks -/

/-- The rune mapping `unicode.ToUpper`: the simple upper-case mapping of Unicode. -/
def upperRune (c : Char) : Char :=
  Char.ofNat (upperCode c.toNat)

/-- The function `strings.ToUpper`: `unicode.ToUpper` on every rune. -/
def ToUpper (s : String) : String :=
  String.mk (s.data.map upperRune)

/-- The call `strings.ReplaceAll(s, old, "")` for a one-rune `old`: every occurrence is dropped. -/
def ReplaceAllEmpty (s : String) (old : Char) : String :=
  String.mk (s.data.filter (fun c => c != old))

/-! ## Regular expressions -/

/-- Syntax trees of the regular expressions of the file. -/
inductive Re where
  | cls (p : Char → Bool)
  | seq (a b : Re)
  | alt (a b : Re)
  | star (a : Re)
  | cap (i : Nat) (a : Re)

/-- Capture slots: slot `i` holds the text of group `i`, slot 0 the whole match. -/
abbrev Caps := List String

/-- Result of a match attempt: the capture slots and the input left after the match. -/
abbrev MatchResult := Caps × List Char

/-- Continuation of the matcher: what remains to be matched after a sub-expression. -/
abbrev Cont := List Char → Caps → Option MatchResult

/-- Greedy iteration: try one more round of the body, and only if every continuation of that fails
stop here.  A round must consume input, so `n` = length of the input is enough fuel. -/
def starLoop (m : List Char → Caps → Cont → Option MatchResult) :
    Nat → List Char → Caps → Cont → Option MatchResult
  | 0, s, c, k => k s c
  | n + 1, s, c, k =>
    match m s c (fun s1 c1 => if s1.length < s.length then starLoop m n s1 c1 k else none) with
    | some r => some r
    | none => k s c

/-- Backtracking matcher anchored at the start of `s`: the first alternative that leads to an
overall match wins (leftmost-first), iteration is greedy, a capture group records the text it
consumed each time it is left. -/
def Re.run : Re → List Char → Caps → Cont → Option MatchResult
  | .cls p, s, c, k =>
    match s with
    | [] => none
    | x :: t => if p x then k t c else none
  | .seq a b, s, c, k => a.run s c (fun s1 c1 => b.run s1 c1 k)
  | .alt a b, s, c, k =>
    match a.run s c k with
    | some r => some r
    | none => b.run s c k
  | .star a, s, c, k => starLoop a.run s.length s c k
  | .cap i a, s, c, k =>
    a.run s c (fun s1 c1 => k s1 (c1.set i (String.mk (s.take (s.length - s1.length)))))

/-- Concatenation of a list of expressions. -/
def Re.seqs : List Re → Re
  | [] => .star (.cls (fun _ => false))
  | [a] => a
  | a :: rest => .seq a (Re.seqs rest)

/-- One literal rune, no case folding. -/
def Re.lit (l : Char) : Re := .cls (fun c => c == l)

/-- A literal word under `(?i)`. -/
def Re.word (w : List Char) : Re := Re.seqs (w.map (fun l => Re.cls (foldMatches l)))

/-- One or more rounds, greedy: `a+` is `a a*`. -/
def Re.plus (a : Re) : Re := .seq a (.star a)

/-- The sub-expression `\s*`. -/
def Re.ws : Re := .star (.cls isSpace)

/-- Match anchored at the start of `s`, with `n` capture groups besides the whole match. -/
def Re.matchAt (re : Re) (n : Nat) (s : List Char) : Option MatchResult :=
  (Re.cap 0 re).run s (List.replicate (n + 1) "") (fun s1 c1 => some (c1, s1))

/-- Leftmost match: the first start position at which the expression matches. -/
def Re.find (re : Re) (n : Nat) : List Char → Option MatchResult
  | [] => re.matchAt n []
  | x :: t =>
    match re.matchAt n (x :: t) with
    | some r => some r
    | none => Re.find re n t

/-- The method `FindStringSubmatch`: the slots of the leftmost match, `nil` when there is none. -/
def Re.FindStringSubmatch (re : Re) (n : Nat) (s : String) : List String :=
  match re.find n s.data with
  | some r => r.1
  | none => []

/-- Successive non-overlapping matches, each search starting where the previous match ended.
The patterns of this file match no empty string; after an empty match the search stops. -/
def Re.findAll (re : Re) (n : Nat) : Nat → List Char → List Caps
  | 0, _ => []
  | fuel + 1, s =>
    match re.find n s with
    | none => []
    | some r => r.1 :: (if r.2.length < s.length then Re.findAll re n fuel r.2 else [])

/-- The method `FindAllStringSubmatch(s, -1)`. -/
def Re.FindAllStringSubmatch (re : Re) (n : Nat) (s : String) : List (List String) :=
  re.findAll n (s.length + 1) s.data

/-- One parenthesised attribute `\(\s*(KEY)\s*=\s*(VALUE+)\s*\)\s*` of an address group, the key in
group `i` and the value in group `i + 1`. -/
def attributeRe (i : Nat) (key : List Char) (value : Char → Bool) : Re :=
  Re.seqs [Re.lit '(', Re.ws, Re.cap i (Re.word key), Re.ws, Re.lit '=', Re.ws,
    Re.cap (i + 1) (Re.plus (Re.cls value)), Re.ws, Re.lit ')', Re.ws]

/-- The alternation inside group 1 of the address pattern:
`\(\s*(HOST)\s*=\s*([\w\.\-\:]+)\s*\)\s*|\(\s*(PORT)\s*=\s*([0-9]+)\s*\)\s*|`
`\(\s*(COMMUNITY)\s*=\s*([\w.-]+)\s*\)\s*|\(\s*(PROTOCOL)\s*=\s*(\w+)\s*\)\s*`. -/
def attributeChoice : Re :=
  Re.alt (attributeRe 2 ['H', 'O', 'S', 'T'] isHostRune)
    (Re.alt (attributeRe 4 ['P', 'O', 'R', 'T'] isDigit)
      (Re.alt (attributeRe 6 ['C', 'O', 'M', 'M', 'U', 'N', 'I', 'T', 'Y'] isNameRune)
        (attributeRe 8 ['P', 'R', 'O', 'T', 'O', 'C', 'O', 'L'] isWordFold)))

/-- The pattern of `ExtractServers`, `(?i)\(\s*ADDRESS\s*=\s*(` alternation `)+\s*\)`, with nine
capture groups: group 1 is the last attribute matched, groups 2 to 9 the key and the value of the
HOST, PORT, COMMUNITY and PROTOCOL attribute. -/
def connectionAddressRegexp : Re :=
  Re.seqs [Re.lit '(', Re.ws, Re.word ['A', 'D', 'D', 'R', 'E', 'S', 'S'], Re.ws, Re.lit '=', Re.ws,
    Re.plus (Re.cap 1 attributeChoice), Re.ws, Re.lit ')']

/-- The identity patterns `(?i)\(\s*KEY\s*=\s*([\w.-]+)\s*\)`, one capture group. -/
def identityRe (key : List Char) : Re :=
  Re.seqs [Re.lit '(', Re.ws, Re.word key, Re.ws, Re.lit '=', Re.ws,
    Re.cap 1 (Re.plus (Re.cls isNameRune)), Re.ws, Re.lit ')']

/-- The pattern `(?i)\(\s*SERVICE_NAME\s*=\s*([\w.-]+)\s*\)`. -/
def serviceNameRegexp : Re :=
  identityRe ['S', 'E', 'R', 'V', 'I', 'C', 'E', '_', 'N', 'A', 'M', 'E']

/-- The pattern `(?i)\(\s*SID\s*=\s*([\w.-]+)\s*\)`. -/
def sidRegexp : Re :=
  identityRe ['S', 'I', 'D']

/-- The pattern `(?i)\(\s*INSTANCE_NAME\s*=\s*([\w.-]+)\s*\)`. -/
def instanceNameRegexp : Re :=
  identityRe ['I', 'N', 'S', 'T', 'A', 'N', 'C', 'E', '_', 'N', 'A', 'M', 'E']

/-! ## Errors, panics and `strconv.Atoi` -/

/-- The two causes of a `strconv.NumError`: `ErrSyntax` and `ErrRange`. -/
inductive NumErrorKind where
  | invalid
  | range
  deriving DecidableEq, Repr

/-- The error values the file returns: the one built by `errors.New` and the `*strconv.NumError`
of `strconv.Atoi` (its `Num` is the text that failed to parse).  The patterns are constants that
compile, so `regexp.Compile` returns no error and that branch has no counterpart here. -/
inductive GoError where
  | noAddress
  | numError (num : String) (kind : NumErrorKind)
  deriving DecidableEq, Repr

/-- Text of the error created by `errors.New` in both update methods. -/
def GoError.message : GoError → String
  | .noAddress => "no address passed in connection string"
  | .numError num .invalid => "strconv.Atoi: parsing " ++ num.quote ++ ": invalid syntax"
  | .numError num .range => "strconv.Atoi: parsing " ++ num.quote ++ ": value out of range"

/-- Outcome of a call: it returns, or the run-time aborts it on an index out of range. -/
inductive Run (α : Type) where
  | done (a : α)
  | panicked (index length : Nat)
  deriving DecidableEq, Repr

/-- Bit size of Go's `int`. -/
def intSize : Nat := 64

/-- The digit loop of `strconv.ParseUint(s, 10, 64)`: left to right, a rune that is no decimal
digit is a syntax error, a value beyond `2^64 - 1` a range error. -/
def parseUintLoop : List Char → Nat → Except NumErrorKind Nat
  | [], n => .ok n
  | c :: t, n =>
    if isDigit c then
      if n * 10 + (c.toNat - 48) < 2 ^ 64 then parseUintLoop t (n * 10 + (c.toNat - 48))
      else .error .range
    else .error .invalid

/-- The function `strconv.Atoi`: an optional sign, then decimal digits; the value must lie in
`[-2^63, 2^63 - 1]`. -/
def Atoi (s : String) : Except GoError Int :=
  let neg : Bool := s.data.head? == some '-'
  let body : List Char :=
    match s.data with
    | c :: t => if c == '+' || c == '-' then t else c :: t
    | [] => []
  if body = [] then .error (.numError s .invalid)
  else
    match parseUintLoop body 0 with
    | .error .invalid => .error (.numError s .invalid)
    | .error .range => .error (.numError s .range)
    | .ok un =>
      if !neg && 2 ^ (intSize - 1) ≤ un then .error (.numError s .range)
      else if neg && 2 ^ (intSize - 1) < un then .error (.numError s .range)
      else .ok (if neg then -(un : Int) else (un : Int))

/-- The increment `i++` on an `int`: two's complement wrap-around at `2^63`. -/
def incrInt (i : Int) : Int :=
  if i + 1 < 2 ^ (intSize - 1) then i + 1 else i + 1 - 2 ^ intSize

/-! ## Data model -/

/-- The type `DBAPrivilege`, an `int`. -/
abbrev DBAPrivilege := Int

/-- The type `AuthType`, an `int`. -/
abbrev AuthType := Int

/-- Constant `NONE`. -/
def NONE : DBAPrivilege := 0
/-- Constant `SYSDBA`. -/
def SYSDBA : DBAPrivilege := 0x20
/-- Constant `SYSOPER`. -/
def SYSOPER : DBAPrivilege := 0x40
/-- Constant `SYSASM`. -/
def SYSASM : DBAPrivilege := 0x00400000
/-- Constant `SYSBACKUP`. -/
def SYSBACKUP : DBAPrivilege := 0x01000000
/-- Constant `SYSDG`. -/
def SYSDG : DBAPrivilege := 0x02000000
/-- Constant `SYSKM`. -/
def SYSKM : DBAPrivilege := 0x04000000
/-- Constant `SYSRAC`. -/
def SYSRAC : DBAPrivilege := 0x08000000

/-- Constant `defaultPort`. -/
def defaultPort : Int := 1521

/-- The struct `ServerAddr`. -/
structure ServerAddr where
  Protocol : String
  Addr : String
  Port : Int
  deriving DecidableEq, Repr

/-- The struct `DatabaseInfo`.  The type `Wallet` is declared elsewhere in the package; the model
is parametric in it and the field holds an optional value for the pointer. -/
structure DatabaseInfo (W : Type) where
  UserID : String
  Password : String
  Servers : List ServerAddr
  serverIndex : Int
  SID : String
  ProxyClientName : String
  ServiceName : String
  InstanceName : String
  DBName : String
  DBAPrivilege : DBAPrivilege
  AuthType : AuthType
  Wallet : Option W
  connStr : String
  Location : String
  deriving DecidableEq, Repr

/-- The zero value of `DatabaseInfo`: a freshly created model. -/
def DatabaseInfo.empty (W : Type) : DatabaseInfo W :=
  { UserID := "", Password := "", Servers := [], serverIndex := 0, SID := "",
    ProxyClientName := "", ServiceName := "", InstanceName := "", DBName := "",
    DBAPrivilege := 0, AuthType := 0, Wallet := none, connStr := "", Location := "" }

/-! ## `ExtractServers` -/

/-- The inner loop `for x := 2; x < len(match); x++` of `ExtractServers`, entered at index `x`
with the candidate `server`.  Each round advances `x` by one or two, so `len(match)` rounds of
fuel are never used up.  The result is the finished candidate, the error of `strconv.Atoi`
(`return nil, err`), or the panic of a read `match[x]` with `x = len(match)`. -/
def scanMatch (m : List String) : Nat → Nat → ServerAddr → Run (Except GoError ServerAddr)
  | 0, _, server => .done (.ok server)
  | fuel + 1, x, server =>
    match m.get? x with
    | none => .done (.ok server)
    | some key =>
      if ToUpper key = "PROTOCOL" then
        match m.get? (x + 1) with
        | none => .panicked (x + 1) m.length
        | some v => scanMatch m fuel (x + 2) { server with Protocol := v }
      else if ToUpper key = "PORT" then
        match m.get? (x + 1) with
        | none => .panicked (x + 1) m.length
        | some v =>
          match Atoi v with
          | .error e => .done (.error e)
          | .ok p => scanMatch m fuel (x + 2) { server with Port := p }
      else if ToUpper key = "HOST" then
        match m.get? (x + 1) with
        | none => .panicked (x + 1) m.length
        | some v => scanMatch m fuel (x + 2) { server with Addr := v }
      else scanMatch m fuel (x + 1) server

/-- The outer loop `for _, match := range matches` of `ExtractServers`: a candidate with a
non-empty `Addr` is appended to `addresses`. -/
def extractLoop : List (List String) → List ServerAddr → Run (List ServerAddr × Option GoError)
  | [], addresses => .done (addresses, none)
  | m :: rest, addresses =>
    match scanMatch m m.length 2 { Protocol := "", Addr := "", Port := 1521 } with
    | .panicked i n => .panicked i n
    | .done (.error e) => .done ([], some e)
    | .done (.ok server) =>
      if server.Addr.length > 0 then extractLoop rest (addresses ++ [server])
      else extractLoop rest addresses

/-- The function `ExtractServers`: the returned pair `(addresses, err)`, a `nil` slice being the
empty list. -/
def ExtractServers (connStr : String) : Run (List ServerAddr × Option GoError) :=
  extractLoop (connectionAddressRegexp.FindAllStringSubmatch 9 connStr) []

/-! ## Methods of `DatabaseInfo` -/

/-- The statement `if len(match) > 1 then field = match[1]` of the update methods: the new value
of an identity field, given the sub-matches of its pattern and its present value. -/
def identityValue (m : List String) (old : String) : String :=
  match m.get? 1 with
  | some v => v
  | none => old

/-- The method `UpdateDatabaseInfo`: the model after the call and the returned error.  The result
of `ExtractServers` is assigned to `info.Servers` before the error is looked at. -/
def DatabaseInfo.UpdateDatabaseInfo {W : Type} (info : DatabaseInfo W) (connStr : String) :
    Run (DatabaseInfo W × Option GoError) :=
  let connStr := ReplaceAllEmpty connStr '\r'
  let connStr := ReplaceAllEmpty connStr '\n'
  match ExtractServers connStr with
  | .panicked i n => .panicked i n
  | .done (servers, err) =>
    let info := { info with Servers := servers }
    match err with
    | some e => .done (info, some e)
    | none =>
      if info.Servers.length = 0 then .done (info, some .noAddress)
      else
        let info := { info with connStr := connStr }
        let m := serviceNameRegexp.FindStringSubmatch 1 connStr
        let info := { info with ServiceName := identityValue m info.ServiceName }
        let m := sidRegexp.FindStringSubmatch 1 connStr
        let info := { info with SID := identityValue m info.SID }
        let m := instanceNameRegexp.FindStringSubmatch 1 connStr
        let info := { info with InstanceName := identityValue m info.InstanceName }
        .done (info, none)

/-- The method `UpdateDatabaseInfoForRedirect`. -/
def DatabaseInfo.UpdateDatabaseInfoForRedirect {W : Type} (info : DatabaseInfo W)
    (redirectAddr reconnectData : String) : Run (DatabaseInfo W × Option GoError) :=
  let redirectAddr := ReplaceAllEmpty redirectAddr '\r'
  let redirectAddr := ReplaceAllEmpty redirectAddr '\n'
  let reconnectData := ReplaceAllEmpty reconnectData '\r'
  let reconnectData := ReplaceAllEmpty reconnectData '\n'
  match ExtractServers redirectAddr with
  | .panicked i n => .panicked i n
  | .done (servers, err) =>
    let info := { info with Servers := servers }
    match err with
    | some e => .done (info, some e)
    | none =>
      if info.Servers.length = 0 then .done (info, some .noAddress)
      else
        let m := serviceNameRegexp.FindStringSubmatch 1 reconnectData
        let info := { info with ServiceName := identityValue m info.ServiceName }
        let m := sidRegexp.FindStringSubmatch 1 reconnectData
        let info := { info with SID := identityValue m info.SID }
        let m := instanceNameRegexp.FindStringSubmatch 1 reconnectData
        let info := { info with InstanceName := identityValue m info.InstanceName }
        let info := { info with connStr := "" }
        .done (info, none)

/-- Canonical representative of a rune under simple case folding: the smallest rune of its
orbit under `unicode.SimpleFold`.  U+0130 and U+0131 fold with no other rune, although they have
a lower and an upper case. -/
def foldKey (c : Char) : Char :=
  Char.ofNat (foldCode c.toNat)

/-- The function `strings.EqualFold`: equal rune by rune under simple case folding. -/
def EqualFold (s t : String) : Bool :=
  s.data.map foldKey == t.data.map foldKey

/-- The method `IsEqual`. -/
def ServerAddr.IsEqual (serv input : ServerAddr) : Bool :=
  EqualFold (ToUpper serv.Addr) (ToUpper input.Addr) && serv.Port == input.Port

/-- The method `AddServer`: the loop returns at the first element equal to `server`; when no
element is, `server` is appended. -/
def DatabaseInfo.AddServer {W : Type} (info : DatabaseInfo W) (server : ServerAddr) :
    DatabaseInfo W :=
  if info.Servers.any (fun s => server.IsEqual s) then info
  else { info with Servers := info.Servers ++ [server] }

/-- The method `ResetServerIndex`. -/
def DatabaseInfo.ResetServerIndex {W : Type} (info : DatabaseInfo W) : DatabaseInfo W :=
  { info with serverIndex := 0 }

/-- The method `GetActiveServer`: the model after the call and the endpoint the returned pointer
refers to (`none` for `nil`).  Indexing `info.Servers` at a negative index panics. -/
def DatabaseInfo.GetActiveServer {W : Type} (info : DatabaseInfo W) (jump : Bool) :
    Run (DatabaseInfo W × Option ServerAddr) :=
  let info := if jump then { info with serverIndex := incrInt info.serverIndex } else info
  if info.serverIndex ≥ (info.Servers.length : Int) then .done (info, none)
  else
    match info.serverIndex with
    | .ofNat i => .done (info, info.Servers.get? i)
    | .negSucc _ => .panicked 0 info.Servers.length

/-- The function `DBAPrivilegeFromString`. -/
def DBAPrivilegeFromString (s : String) : DBAPrivilege :=
  if ToUpper s = "SYSDBA" then SYSDBA
  else if ToUpper s = "SYSOPER" then SYSOPER
  else if ToUpper s = "SYSASM" then SYSASM
  else if ToUpper s = "SYSBACKUP" then SYSBACKUP
  else if ToUpper s = "SYSDG" then SYSDG
  else if ToUpper s = "SYSKM" then SYSKM
  else if ToUpper s = "SYSRAC" then SYSRAC
  else NONE

/-! ## Call sequences and descriptor texts used in the statements -/

/-- The text both update methods work on: carriage returns removed, then line feeds. -/
def normalizeText (s : String) : String :=
  ReplaceAllEmpty (ReplaceAllEmpty s '\r') '\n'

/-- The value an identity pattern finds in a text: sub-match 1 of the leftmost match. -/
def foundValue (re : Re) (text : String) : Option String :=
  (re.FindStringSubmatch 1 text).get? 1

/-- Consecutive calls `GetActiveServer(jump)`, `n` of them: the model after the last call and the
endpoints returned, in call order. -/
def GetActiveServerTimes {W : Type} (jump : Bool) :
    Nat → DatabaseInfo W → Run (DatabaseInfo W × List (Option ServerAddr))
  | 0, info => .done (info, [])
  | n + 1, info =>
    match info.GetActiveServer jump with
    | .panicked i l => .panicked i l
    | .done (info1, r) =>
      match GetActiveServerTimes jump n info1 with
      | .panicked i l => .panicked i l
      | .done (info2, rs) => .done (info2, r :: rs)

/-- One call of a method that changes the model. -/
inductive Call where
  | update (connStr : String)
  | redirect (redirectAddr reconnectData : String)
  | add (server : ServerAddr)
  | reset
  | getActive (jump : Bool)
  deriving Repr

/-- The model after one call that returns, with or without an error; `none` when it panics. -/
def Call.apply {W : Type} (info : DatabaseInfo W) : Call → Option (DatabaseInfo W)
  | .update connStr =>
    match info.UpdateDatabaseInfo connStr with
    | .done (info1, _) => some info1
    | .panicked _ _ => none
  | .redirect redirectAddr reconnectData =>
    match info.UpdateDatabaseInfoForRedirect redirectAddr reconnectData with
    | .done (info1, _) => some info1
    | .panicked _ _ => none
  | .add server => some (info.AddServer server)
  | .reset => some info.ResetServerIndex
  | .getActive jump =>
    match info.GetActiveServer jump with
    | .done (info1, _) => some info1
    | .panicked _ _ => none

/-- The model after a sequence of calls, each of which returns. -/
def runCalls {W : Type} : List Call → DatabaseInfo W → Option (DatabaseInfo W)
  | [], info => some info
  | c :: rest, info =>
    match c.apply info with
    | some info1 => runCalls rest info1
    | none => none

/-- The number a decimal numeral denotes. -/
def decimalValue (p : List Char) : Nat :=
  p.foldl (fun n c => n * 10 + (c.toNat - 48)) 0

/-- One address group of a descriptor, as it is written out by `AddressGroup.render`: the value of
its HOST attribute and, when it has them, the values of its PORT and PROTOCOL attributes. -/
structure AddressGroup where
  host : List Char
  port : Option (List Char)
  protocol : Option (List Char)

/-- The text `(ADDRESS=(HOST=h)(PORT=p)(PROTOCOL=proto))` of a group, an attribute that the group
does not have being left out. -/
def AddressGroup.render (g : AddressGroup) : List Char :=
  '(' :: 'A' :: 'D' :: 'D' :: 'R' :: 'E' :: 'S' :: 'S' :: '=' ::
    '(' :: 'H' :: 'O' :: 'S' :: 'T' :: '=' :: (g.host ++ ')' ::
      ((match g.port with
        | none => []
        | some p => '(' :: 'P' :: 'O' :: 'R' :: 'T' :: '=' :: (p ++ [')'])) ++
      ((match g.protocol with
        | none => []
        | some q =>
          '(' :: 'P' :: 'R' :: 'O' :: 'T' :: 'O' :: 'C' :: 'O' :: 'L' :: '=' :: (q ++ [')'])) ++
      [')'])))

/-- The text `(KEY=value)` of one attribute. -/
def attributeText (key value : List Char) : List Char :=
  '(' :: (key ++ '=' :: (value ++ [')']))

/-- The ten sub-matches of the address pattern on the text of a group: the whole text, the last
attribute, then key and value of HOST, PORT, COMMUNITY and PROTOCOL, empty for an attribute the
group does not have. -/
def AddressGroup.slots (g : AddressGroup) : List String :=
  [ String.mk g.render,
    String.mk (match g.protocol with
      | some q => attributeText ['P', 'R', 'O', 'T', 'O', 'C', 'O', 'L'] q
      | none =>
        match g.port with
        | some p => attributeText ['P', 'O', 'R', 'T'] p
        | none => attributeText ['H', 'O', 'S', 'T'] g.host),
    "HOST", String.mk g.host,
    (match g.port with
      | some _ => "PORT"
      | none => ""),
    (match g.port with
      | some p => String.mk p
      | none => ""),
    "", "",
    (match g.protocol with
      | some _ => "PROTOCOL"
      | none => ""),
    (match g.protocol with
      | some q => String.mk q
      | none => "") ]

/-- The descriptor made of the texts of the groups, one after the other. -/
def renderGroups : List AddressGroup → List Char
  | [] => []
  | g :: gs => g.render ++ renderGroups gs

/-- The values of a group are those the grammar admits: the host a non-empty string of word
characters, dots, hyphens and colons; the port a decimal numeral in the range of `int`; the
protocol a non-empty string of word characters. -/
def AddressGroup.WellFormed (g : AddressGroup) : Prop :=
  g.host ≠ [] ∧
  (∀ c ∈ g.host, isWord c = true ∨ c = '.' ∨ c = '-' ∨ c = ':') ∧
  (∀ p ∈ g.port,
    p ≠ [] ∧ (∀ c ∈ p, isDigit c = true) ∧ decimalValue p < 2 ^ (intSize - 1)) ∧
  (∀ q ∈ g.protocol, q ≠ [] ∧ ∀ c ∈ q, isWord c = true)

instance (g : AddressGroup) : Decidable g.WellFormed := by
  unfold AddressGroup.WellFormed
  infer_instance

/-- The endpoint a group stands for: its host, its protocol or the empty string, its port or
1521. -/
def AddressGroup.endpoint (g : AddressGroup) : ServerAddr :=
  { Protocol :=
      match g.protocol with
      | none => ""
      | some q => String.mk q
    Addr := String.mk g.host
    Port :=
      match g.port with
      | none => 1521
      | some p => (decimalValue p : Int) }

/-! ### Case folding of the Unicode Character Database, and the tables as data -/

/-- Simple case foldings of `CaseFolding.txt`, runes U+00B5 to U+0187. -/
def caseFoldBlock0 (n : Nat) : Nat :=
  caseRun 0xB5 0xB5 1 775 0 n <|
  caseRun 0xC0 0xD6 1 32 0 n <|
  caseRun 0xD8 0xDE 1 32 0 n <|
  caseRun 0x100 0x12E 2 1 0 n <|
  caseRun 0x132 0x136 2 1 0 n <|
  caseRun 0x139 0x147 2 1 0 n <|
  caseRun 0x14A 0x176 2 1 0 n <|
  caseRun 0x178 0x178 1 0 121 n <|
  caseRun 0x179 0x17D 2 1 0 n <|
  caseRun 0x17F 0x17F 1 0 268 n <|
  caseRun 0x181 0x181 1 210 0 n <|
  caseRun 0x182 0x184 2 1 0 n <|
  caseRun 0x186 0x186 1 206 0 n <|
  caseRun 0x187 0x187 1 1 0 n <|
  n

/-- Simple case foldings of `CaseFolding.txt`, runes U+0189 to U+019F. -/
def caseFoldBlock1 (n : Nat) : Nat :=
  caseRun 0x189 0x18A 1 205 0 n <|
  caseRun 0x18B 0x18B 1 1 0 n <|
  caseRun 0x18E 0x18E 1 79 0 n <|
  caseRun 0x18F 0x18F 1 202 0 n <|
  caseRun 0x190 0x190 1 203 0 n <|
  caseRun 0x191 0x191 1 1 0 n <|
  caseRun 0x193 0x193 1 205 0 n <|
  caseRun 0x194 0x194 1 207 0 n <|
  caseRun 0x196 0x196 1 211 0 n <|
  caseRun 0x197 0x197 1 209 0 n <|
  caseRun 0x198 0x198 1 1 0 n <|
  caseRun 0x19C 0x19C 1 211 0 n <|
  caseRun 0x19D 0x19D 1 213 0 n <|
  caseRun 0x19F 0x19F 1 214 0 n <|
  n

/-- Simple case foldings of `CaseFolding.txt`, runes U+01A0 to U+01C5. -/
def caseFoldBlock2 (n : Nat) : Nat :=
  caseRun 0x1A0 0x1A4 2 1 0 n <|
  caseRun 0x1A6 0x1A6 1 218 0 n <|
  caseRun 0x1A7 0x1A7 1 1 0 n <|
  caseRun 0x1A9 0x1A9 1 218 0 n <|
  caseRun 0x1AC 0x1AC 1 1 0 n <|
  caseRun 0x1AE 0x1AE 1 218 0 n <|
  caseRun 0x1AF 0x1AF 1 1 0 n <|
  caseRun 0x1B1 0x1B2 1 217 0 n <|
  caseRun 0x1B3 0x1B5 2 1 0 n <|
  caseRun 0x1B7 0x1B7 1 219 0 n <|
  caseRun 0x1B8 0x1B8 1 1 0 n <|
  caseRun 0x1BC 0x1BC 1 1 0 n <|
  caseRun 0x1C4 0x1C4 1 2 0 n <|
  caseRun 0x1C5 0x1C5 1 1 0 n <|
  n

/-- Simple case foldings of `CaseFolding.txt`, runes U+01C7 to U+023B. -/
def caseFoldBlock3 (n : Nat) : Nat :=
  caseRun 0x1C7 0x1C7 1 2 0 n <|
  caseRun 0x1C8 0x1C8 1 1 0 n <|
  caseRun 0x1CA 0x1CA 1 2 0 n <|
  caseRun 0x1CB 0x1DB 2 1 0 n <|
  caseRun 0x1DE 0x1EE 2 1 0 n <|
  caseRun 0x1F1 0x1F1 1 2 0 n <|
  caseRun 0x1F2 0x1F4 2 1 0 n <|
  caseRun 0x1F6 0x1F6 1 0 97 n <|
  caseRun 0x1F7 0x1F7 1 0 56 n <|
  caseRun 0x1F8 0x21E 2 1 0 n <|
  caseRun 0x220 0x220 1 0 130 n <|
  caseRun 0x222 0x232 2 1 0 n <|
  caseRun 0x23A 0x23A 1 10795 0 n <|
  caseRun 0x23B 0x23B 1 1 0 n <|
  n

/-- Simple case foldings of `CaseFolding.txt`, runes U+023D to U+038C. -/
def caseFoldBlock4 (n : Nat) : Nat :=
  caseRun 0x23D 0x23D 1 0 163 n <|
  caseRun 0x23E 0x23E 1 10792 0 n <|
  caseRun 0x241 0x241 1 1 0 n <|
  caseRun 0x243 0x243 1 0 195 n <|
  caseRun 0x244 0x244 1 69 0 n <|
  caseRun 0x245 0x245 1 71 0 n <|
  caseRun 0x246 0x24E 2 1 0 n <|
  caseRun 0x345 0x345 1 116 0 n <|
  caseRun 0x370 0x372 2 1 0 n <|
  caseRun 0x376 0x376 1 1 0 n <|
  caseRun 0x37F 0x37F 1 116 0 n <|
  caseRun 0x386 0x386 1 38 0 n <|
  caseRun 0x388 0x38A 1 37 0 n <|
  caseRun 0x38C 0x38C 1 64 0 n <|
  n

/-- Simple case foldings of `CaseFolding.txt`, runes U+038E to U+03F5. -/
def caseFoldBlock5 (n : Nat) : Nat :=
  caseRun 0x38E 0x38F 1 63 0 n <|
  caseRun 0x391 0x3A1 1 32 0 n <|
  caseRun 0x3A3 0x3AB 1 32 0 n <|
  caseRun 0x3C2 0x3C2 1 1 0 n <|
  caseRun 0x3CF 0x3CF 1 8 0 n <|
  caseRun 0x3D0 0x3D0 1 0 30 n <|
  caseRun 0x3D1 0x3D1 1 0 25 n <|
  caseRun 0x3D5 0x3D5 1 0 15 n <|
  caseRun 0x3D6 0x3D6 1 0 22 n <|
  caseRun 0x3D8 0x3EE 2 1 0 n <|
  caseRun 0x3F0 0x3F0 1 0 54 n <|
  caseRun 0x3F1 0x3F1 1 0 48 n <|
  caseRun 0x3F4 0x3F4 1 0 60 n <|
  caseRun 0x3F5 0x3F5 1 0 64 n <|
  n

/-- Simple case foldings of `CaseFolding.txt`, runes U+03F7 to U+10C7. -/
def caseFoldBlock6 (n : Nat) : Nat :=
  caseRun 0x3F7 0x3F7 1 1 0 n <|
  caseRun 0x3F9 0x3F9 1 0 7 n <|
  caseRun 0x3FA 0x3FA 1 1 0 n <|
  caseRun 0x3FD 0x3FF 1 0 130 n <|
  caseRun 0x400 0x40F 1 80 0 n <|
  caseRun 0x410 0x42F 1 32 0 n <|
  caseRun 0x460 0x480 2 1 0 n <|
  caseRun 0x48A 0x4BE 2 1 0 n <|
  caseRun 0x4C0 0x4C0 1 15 0 n <|
  caseRun 0x4C1 0x4CD 2 1 0 n <|
  caseRun 0x4D0 0x52E 2 1 0 n <|
  caseRun 0x531 0x556 1 48 0 n <|
  caseRun 0x10A0 0x10C5 1 7264 0 n <|
  caseRun 0x10C7 0x10C7 1 7264 0 n <|
  n

/-- Simple case foldings of `CaseFolding.txt`, runes U+10CD to U+1E9B. -/
def caseFoldBlock7 (n : Nat) : Nat :=
  caseRun 0x10CD 0x10CD 1 7264 0 n <|
  caseRun 0x13F8 0x13FD 1 0 8 n <|
  caseRun 0x1C80 0x1C80 1 0 6222 n <|
  caseRun 0x1C81 0x1C81 1 0 6221 n <|
  caseRun 0x1C82 0x1C82 1 0 6212 n <|
  caseRun 0x1C83 0x1C84 1 0 6210 n <|
  caseRun 0x1C85 0x1C85 1 0 6211 n <|
  caseRun 0x1C86 0x1C86 1 0 6204 n <|
  caseRun 0x1C87 0x1C87 1 0 6180 n <|
  caseRun 0x1C88 0x1C88 1 35267 0 n <|
  caseRun 0x1C90 0x1CBA 1 0 3008 n <|
  caseRun 0x1CBD 0x1CBF 1 0 3008 n <|
  caseRun 0x1E00 0x1E94 2 1 0 n <|
  caseRun 0x1E9B 0x1E9B 1 0 58 n <|
  n

/-- Simple case foldings of `CaseFolding.txt`, runes U+1E9E to U+1FBB. -/
def caseFoldBlock8 (n : Nat) : Nat :=
  caseRun 0x1E9E 0x1E9E 1 0 7615 n <|
  caseRun 0x1EA0 0x1EFE 2 1 0 n <|
  caseRun 0x1F08 0x1F0F 1 0 8 n <|
  caseRun 0x1F18 0x1F1D 1 0 8 n <|
  caseRun 0x1F28 0x1F2F 1 0 8 n <|
  caseRun 0x1F38 0x1F3F 1 0 8 n <|
  caseRun 0x1F48 0x1F4D 1 0 8 n <|
  caseRun 0x1F59 0x1F5F 2 0 8 n <|
  caseRun 0x1F68 0x1F6F 1 0 8 n <|
  caseRun 0x1F88 0x1F8F 1 0 8 n <|
  caseRun 0x1F98 0x1F9F 1 0 8 n <|
  caseRun 0x1FA8 0x1FAF 1 0 8 n <|
  caseRun 0x1FB8 0x1FB9 1 0 8 n <|
  caseRun 0x1FBA 0x1FBB 1 0 74 n <|
  n

/-- Simple case foldings of `CaseFolding.txt`, runes U+1FBC to U+212A. -/
def caseFoldBlock9 (n : Nat) : Nat :=
  caseRun 0x1FBC 0x1FBC 1 0 9 n <|
  caseRun 0x1FBE 0x1FBE 1 0 7173 n <|
  caseRun 0x1FC8 0x1FCB 1 0 86 n <|
  caseRun 0x1FCC 0x1FCC 1 0 9 n <|
  caseRun 0x1FD8 0x1FD9 1 0 8 n <|
  caseRun 0x1FDA 0x1FDB 1 0 100 n <|
  caseRun 0x1FE8 0x1FE9 1 0 8 n <|
  caseRun 0x1FEA 0x1FEB 1 0 112 n <|
  caseRun 0x1FEC 0x1FEC 1 0 7 n <|
  caseRun 0x1FF8 0x1FF9 1 0 128 n <|
  caseRun 0x1FFA 0x1FFB 1 0 126 n <|
  caseRun 0x1FFC 0x1FFC 1 0 9 n <|
  caseRun 0x2126 0x2126 1 0 7517 n <|
  caseRun 0x212A 0x212A 1 0 8383 n <|
  n

/-- Simple case foldings of `CaseFolding.txt`, runes U+212B to U+2C6F. -/
def caseFoldBlock10 (n : Nat) : Nat :=
  caseRun 0x212B 0x212B 1 0 8262 n <|
  caseRun 0x2132 0x2132 1 28 0 n <|
  caseRun 0x2160 0x216F 1 16 0 n <|
  caseRun 0x2183 0x2183 1 1 0 n <|
  caseRun 0x24B6 0x24CF 1 26 0 n <|
  caseRun 0x2C00 0x2C2F 1 48 0 n <|
  caseRun 0x2C60 0x2C60 1 1 0 n <|
  caseRun 0x2C62 0x2C62 1 0 10743 n <|
  caseRun 0x2C63 0x2C63 1 0 3814 n <|
  caseRun 0x2C64 0x2C64 1 0 10727 n <|
  caseRun 0x2C67 0x2C6B 2 1 0 n <|
  caseRun 0x2C6D 0x2C6D 1 0 10780 n <|
  caseRun 0x2C6E 0x2C6E 1 0 10749 n <|
  caseRun 0x2C6F 0x2C6F 1 0 10783 n <|
  n

/-- Simple case foldings of `CaseFolding.txt`, runes U+2C70 to U+A786. -/
def caseFoldBlock11 (n : Nat) : Nat :=
  caseRun 0x2C70 0x2C70 1 0 10782 n <|
  caseRun 0x2C72 0x2C72 1 1 0 n <|
  caseRun 0x2C75 0x2C75 1 1 0 n <|
  caseRun 0x2C7E 0x2C7F 1 0 10815 n <|
  caseRun 0x2C80 0x2CE2 2 1 0 n <|
  caseRun 0x2CEB 0x2CED 2 1 0 n <|
  caseRun 0x2CF2 0x2CF2 1 1 0 n <|
  caseRun 0xA640 0xA66C 2 1 0 n <|
  caseRun 0xA680 0xA69A 2 1 0 n <|
  caseRun 0xA722 0xA72E 2 1 0 n <|
  caseRun 0xA732 0xA76E 2 1 0 n <|
  caseRun 0xA779 0xA77B 2 1 0 n <|
  caseRun 0xA77D 0xA77D 1 0 35332 n <|
  caseRun 0xA77E 0xA786 2 1 0 n <|
  n

/-- Simple case foldings of `CaseFolding.txt`, runes U+A78B to U+A7C2. -/
def caseFoldBlock12 (n : Nat) : Nat :=
  caseRun 0xA78B 0xA78B 1 1 0 n <|
  caseRun 0xA78D 0xA78D 1 0 42280 n <|
  caseRun 0xA790 0xA792 2 1 0 n <|
  caseRun 0xA796 0xA7A8 2 1 0 n <|
  caseRun 0xA7AA 0xA7AA 1 0 42308 n <|
  caseRun 0xA7AB 0xA7AB 1 0 42319 n <|
  caseRun 0xA7AC 0xA7AC 1 0 42315 n <|
  caseRun 0xA7AD 0xA7AD 1 0 42305 n <|
  caseRun 0xA7AE 0xA7AE 1 0 42308 n <|
  caseRun 0xA7B0 0xA7B0 1 0 42258 n <|
  caseRun 0xA7B1 0xA7B1 1 0 42282 n <|
  caseRun 0xA7B2 0xA7B2 1 0 42261 n <|
  caseRun 0xA7B3 0xA7B3 1 928 0 n <|
  caseRun 0xA7B4 0xA7C2 2 1 0 n <|
  n

/-- Simple case foldings of `CaseFolding.txt`, runes U+A7C4 to U+10594. -/
def caseFoldBlock13 (n : Nat) : Nat :=
  caseRun 0xA7C4 0xA7C4 1 0 48 n <|
  caseRun 0xA7C5 0xA7C5 1 0 42307 n <|
  caseRun 0xA7C6 0xA7C6 1 0 35384 n <|
  caseRun 0xA7C7 0xA7C9 2 1 0 n <|
  caseRun 0xA7D0 0xA7D0 1 1 0 n <|
  caseRun 0xA7D6 0xA7D8 2 1 0 n <|
  caseRun 0xA7F5 0xA7F5 1 1 0 n <|
  caseRun 0xAB70 0xABBF 1 0 38864 n <|
  caseRun 0xFF21 0xFF3A 1 32 0 n <|
  caseRun 0x10400 0x10427 1 40 0 n <|
  caseRun 0x104B0 0x104D3 1 40 0 n <|
  caseRun 0x10570 0x10594 2 39 0 n <|
  caseRun 0x10571 0x1057A 1 39 0 n <|
  caseRun 0x1057D 0x1058A 1 39 0 n <|
  caseRun 0x1058D 0x10592 1 39 0 n <|
  n

/-- Simple case foldings of `CaseFolding.txt`, runes U+10595 to U+1E921. -/
def caseFoldBlock14 (n : Nat) : Nat :=
  caseRun 0x10595 0x10595 1 39 0 n <|
  caseRun 0x10C80 0x10CB2 1 64 0 n <|
  caseRun 0x118A0 0x118BF 1 32 0 n <|
  caseRun 0x16E40 0x16E5F 1 32 0 n <|
  caseRun 0x1E900 0x1E921 1 34 0 n <|
  n

/-- The simple case folding of the Unicode Character Database beyond ASCII (`CaseFolding.txt`,
status C and S, Unicode 15.0.0). -/
def caseFoldTail (n : Nat) : Nat :=
  bif Nat.ble n 0x187 then caseFoldBlock0 n else
  bif Nat.ble n 0x19F then caseFoldBlock1 n else
  bif Nat.ble n 0x1C5 then caseFoldBlock2 n else
  bif Nat.ble n 0x23B then caseFoldBlock3 n else
  bif Nat.ble n 0x38C then caseFoldBlock4 n else
  bif Nat.ble n 0x3F5 then caseFoldBlock5 n else
  bif Nat.ble n 0x10C7 then caseFoldBlock6 n else
  bif Nat.ble n 0x1E9B then caseFoldBlock7 n else
  bif Nat.ble n 0x1FBB then caseFoldBlock8 n else
  bif Nat.ble n 0x212A then caseFoldBlock9 n else
  bif Nat.ble n 0x2C6F then caseFoldBlock10 n else
  bif Nat.ble n 0xA786 then caseFoldBlock11 n else
  bif Nat.ble n 0xA7C2 then caseFoldBlock12 n else
  bif Nat.ble n 0x10594 then caseFoldBlock13 n else
  bif Nat.ble n 0x1E921 then caseFoldBlock14 n else
  n

/-- Lower case of an ASCII code point: `A` to `Z` become `a` to `z`. -/
def asciiLowerCode (n : Nat) : Nat :=
  bif Nat.ble 65 n && Nat.ble n 90 then n + 32 else n

/-- The simple case folding of Unicode on code points. -/
def caseFoldCode (n : Nat) : Nat :=
  bif Nat.ble n 127 then asciiLowerCode n else caseFoldTail n

/-- The simple case folding of a rune, as the Unicode Character Database defines it: two texts
are a caseless match when they have the same folding, rune by rune. -/
def caseFold (c : Char) : Char :=
  Char.ofNat (caseFoldCode c.toNat)

/-- Scalar values: the code points of runes, as a Boolean test. -/
def validCode (n : Nat) : Bool :=
  Nat.blt n 0xD800 || (Nat.blt 0xDFFF n && Nat.blt n 0x110000)

/-- A run of a case table as data: `(lo, hi, step, plus, minus)`. -/
abbrev CaseRun := Nat × Nat × Nat × Nat × Nat

/-- Look-up in a list of runs, the first run that holds the code point wins. -/
def caseLookup : List CaseRun → Nat → Nat
  | [], n => n
  | (lo, hi, step, plus, minus) :: rest, n => caseRun lo hi step plus minus n (caseLookup rest n)

/-- A test holds of every entry of a run. -/
def runAll (p : Nat → Nat → Bool) : CaseRun → Bool
  | (lo, hi, step, plus, minus) =>
    Nat.blt 0 step && (List.range ((hi - lo) / step + 1)).all
      (fun k => p (lo + k * step) (lo + k * step + plus - minus))

/-- A test holds of every entry of a table. -/
def tableAll (p : Nat → Nat → Bool) (t : List (List CaseRun)) : Bool :=
  t.all (fun b => b.all (runAll p))

/-- The runs of `upperTail` as data, block by block, for the proofs that go through the whole
table. -/
def upperRuns : List (List CaseRun) :=
  [[(0xB5, 0xB5, 1, 743, 0), (0xE0, 0xF6, 1, 0, 32), (0xF8, 0xFE, 1, 0, 32),
      (0xFF, 0xFF, 1, 121, 0), (0x101, 0x12F, 2, 0, 1), (0x131, 0x131, 1, 0, 232),
      (0x133, 0x137, 2, 0, 1), (0x13A, 0x148, 2, 0, 1), (0x14B, 0x177, 2, 0, 1),
      (0x17A, 0x17E, 2, 0, 1), (0x17F, 0x17F, 1, 0, 300), (0x180, 0x180, 1, 195, 0),
      (0x183, 0x185, 2, 0, 1), (0x188, 0x188, 1, 0, 1)],
    [(0x18C, 0x18C, 1, 0, 1), (0x192, 0x192, 1, 0, 1), (0x195, 0x195, 1, 97, 0),
      (0x199, 0x199, 1, 0, 1), (0x19A, 0x19A, 1, 163, 0), (0x19E, 0x19E, 1, 130, 0),
      (0x1A1, 0x1A5, 2, 0, 1), (0x1A8, 0x1A8, 1, 0, 1), (0x1AD, 0x1AD, 1, 0, 1),
      (0x1B0, 0x1B0, 1, 0, 1), (0x1B4, 0x1B6, 2, 0, 1), (0x1B9, 0x1B9, 1, 0, 1),
      (0x1BD, 0x1BD, 1, 0, 1), (0x1BF, 0x1BF, 1, 56, 0)],
    [(0x1C5, 0x1C5, 1, 0, 1), (0x1C6, 0x1C6, 1, 0, 2), (0x1C8, 0x1C8, 1, 0, 1),
      (0x1C9, 0x1C9, 1, 0, 2), (0x1CB, 0x1CB, 1, 0, 1), (0x1CC, 0x1CC, 1, 0, 2),
      (0x1CE, 0x1DC, 2, 0, 1), (0x1DD, 0x1DD, 1, 0, 79), (0x1DF, 0x1EF, 2, 0, 1),
      (0x1F2, 0x1F2, 1, 0, 1), (0x1F3, 0x1F3, 1, 0, 2), (0x1F5, 0x1F5, 1, 0, 1),
      (0x1F9, 0x21F, 2, 0, 1), (0x223, 0x233, 2, 0, 1)],
    [(0x23C, 0x23C, 1, 0, 1), (0x23F, 0x240, 1, 10815, 0), (0x242, 0x242, 1, 0, 1),
      (0x247, 0x24F, 2, 0, 1), (0x250, 0x250, 1, 10783, 0), (0x251, 0x251, 1, 10780, 0),
      (0x252, 0x252, 1, 10782, 0), (0x253, 0x253, 1, 0, 210), (0x254, 0x254, 1, 0, 206),
      (0x256, 0x257, 1, 0, 205), (0x259, 0x259, 1, 0, 202), (0x25B, 0x25B, 1, 0, 203),
      (0x25C, 0x25C, 1, 42319, 0), (0x260, 0x260, 1, 0, 205)],
    [(0x261, 0x261, 1, 42315, 0), (0x263, 0x263, 1, 0, 207), (0x265, 0x265, 1, 42280, 0),
      (0x266, 0x266, 1, 42308, 0), (0x268, 0x268, 1, 0, 209), (0x269, 0x269, 1, 0, 211),
      (0x26A, 0x26A, 1, 42308, 0), (0x26B, 0x26B, 1, 10743, 0), (0x26C, 0x26C, 1, 42305, 0),
      (0x26F, 0x26F, 1, 0, 211), (0x271, 0x271, 1, 10749, 0), (0x272, 0x272, 1, 0, 213),
      (0x275, 0x275, 1, 0, 214), (0x27D, 0x27D, 1, 10727, 0)],
    [(0x280, 0x280, 1, 0, 218), (0x282, 0x282, 1, 42307, 0), (0x283, 0x283, 1, 0, 218),
      (0x287, 0x287, 1, 42282, 0), (0x288, 0x288, 1, 0, 218), (0x289, 0x289, 1, 0, 69),
      (0x28A, 0x28B, 1, 0, 217), (0x28C, 0x28C, 1, 0, 71), (0x292, 0x292, 1, 0, 219),
      (0x29D, 0x29D, 1, 42261, 0), (0x29E, 0x29E, 1, 42258, 0), (0x345, 0x345, 1, 84, 0),
      (0x371, 0x373, 2, 0, 1), (0x377, 0x377, 1, 0, 1)],
    [(0x37B, 0x37D, 1, 130, 0), (0x3AC, 0x3AC, 1, 0, 38), (0x3AD, 0x3AF, 1, 0, 37),
      (0x3B1, 0x3C1, 1, 0, 32), (0x3C2, 0x3C2, 1, 0, 31), (0x3C3, 0x3CB, 1, 0, 32),
      (0x3CC, 0x3CC, 1, 0, 64), (0x3CD, 0x3CE, 1, 0, 63), (0x3D0, 0x3D0, 1, 0, 62),
      (0x3D1, 0x3D1, 1, 0, 57), (0x3D5, 0x3D5, 1, 0, 47), (0x3D6, 0x3D6, 1, 0, 54),
      (0x3D7, 0x3D7, 1, 0, 8), (0x3D9, 0x3EF, 2, 0, 1)],
    [(0x3F0, 0x3F0, 1, 0, 86), (0x3F1, 0x3F1, 1, 0, 80), (0x3F2, 0x3F2, 1, 7, 0),
      (0x3F3, 0x3F3, 1, 0, 116), (0x3F5, 0x3F5, 1, 0, 96), (0x3F8, 0x3F8, 1, 0, 1),
      (0x3FB, 0x3FB, 1, 0, 1), (0x430, 0x44F, 1, 0, 32), (0x450, 0x45F, 1, 0, 80),
      (0x461, 0x481, 2, 0, 1), (0x48B, 0x4BF, 2, 0, 1), (0x4C2, 0x4CE, 2, 0, 1),
      (0x4CF, 0x4CF, 1, 0, 15), (0x4D1, 0x52F, 2, 0, 1)],
    [(0x561, 0x586, 1, 0, 48), (0x10D0, 0x10FA, 1, 3008, 0), (0x10FD, 0x10FF, 1, 3008, 0),
      (0x13F8, 0x13FD, 1, 0, 8), (0x1C80, 0x1C80, 1, 0, 6254), (0x1C81, 0x1C81, 1, 0, 6253),
      (0x1C82, 0x1C82, 1, 0, 6244), (0x1C83, 0x1C84, 1, 0, 6242), (0x1C85, 0x1C85, 1, 0, 6243),
      (0x1C86, 0x1C86, 1, 0, 6236), (0x1C87, 0x1C87, 1, 0, 6181), (0x1C88, 0x1C88, 1, 35266, 0),
      (0x1D79, 0x1D79, 1, 35332, 0), (0x1D7D, 0x1D7D, 1, 3814, 0)],
    [(0x1D8E, 0x1D8E, 1, 35384, 0), (0x1E01, 0x1E95, 2, 0, 1), (0x1E9B, 0x1E9B, 1, 0, 59),
      (0x1EA1, 0x1EFF, 2, 0, 1), (0x1F00, 0x1F07, 1, 8, 0), (0x1F10, 0x1F15, 1, 8, 0),
      (0x1F20, 0x1F27, 1, 8, 0), (0x1F30, 0x1F37, 1, 8, 0), (0x1F40, 0x1F45, 1, 8, 0),
      (0x1F51, 0x1F57, 2, 8, 0), (0x1F60, 0x1F67, 1, 8, 0), (0x1F70, 0x1F71, 1, 74, 0),
      (0x1F72, 0x1F75, 1, 86, 0), (0x1F76, 0x1F77, 1, 100, 0)],
    [(0x1F78, 0x1F79, 1, 128, 0), (0x1F7A, 0x1F7B, 1, 112, 0), (0x1F7C, 0x1F7D, 1, 126, 0),
      (0x1F80, 0x1F87, 1, 8, 0), (0x1F90, 0x1F97, 1, 8, 0), (0x1FA0, 0x1FA7, 1, 8, 0),
      (0x1FB0, 0x1FB1, 1, 8, 0), (0x1FB3, 0x1FB3, 1, 9, 0), (0x1FBE, 0x1FBE, 1, 0, 7205),
      (0x1FC3, 0x1FC3, 1, 9, 0), (0x1FD0, 0x1FD1, 1, 8, 0), (0x1FE0, 0x1FE1, 1, 8, 0),
      (0x1FE5, 0x1FE5, 1, 7, 0), (0x1FF3, 0x1FF3, 1, 9, 0)],
    [(0x214E, 0x214E, 1, 0, 28), (0x2170, 0x217F, 1, 0, 16), (0x2184, 0x2184, 1, 0, 1),
      (0x24D0, 0x24E9, 1, 0, 26), (0x2C30, 0x2C5F, 1, 0, 48), (0x2C61, 0x2C61, 1, 0, 1),
      (0x2C65, 0x2C65, 1, 0, 10795), (0x2C66, 0x2C66, 1, 0, 10792), (0x2C68, 0x2C6C, 2, 0, 1),
      (0x2C73, 0x2C73, 1, 0, 1), (0x2C76, 0x2C76, 1, 0, 1), (0x2C81, 0x2CE3, 2, 0, 1),
      (0x2CEC, 0x2CEE, 2, 0, 1), (0x2CF3, 0x2CF3, 1, 0, 1)],
    [(0x2D00, 0x2D25, 1, 0, 7264), (0x2D27, 0x2D27, 1, 0, 7264), (0x2D2D, 0x2D2D, 1, 0, 7264),
      (0xA641, 0xA66D, 2, 0, 1), (0xA681, 0xA69B, 2, 0, 1), (0xA723, 0xA72F, 2, 0, 1),
      (0xA733, 0xA76F, 2, 0, 1), (0xA77A, 0xA77C, 2, 0, 1), (0xA77F, 0xA787, 2, 0, 1),
      (0xA78C, 0xA78C, 1, 0, 1), (0xA791, 0xA793, 2, 0, 1), (0xA794, 0xA794, 1, 48, 0),
      (0xA797, 0xA7A9, 2, 0, 1), (0xA7B5, 0xA7C3, 2, 0, 1)],
    [(0xA7C8, 0xA7CA, 2, 0, 1), (0xA7D1, 0xA7D1, 1, 0, 1), (0xA7D7, 0xA7D9, 2, 0, 1),
      (0xA7F6, 0xA7F6, 1, 0, 1), (0xAB53, 0xAB53, 1, 0, 928), (0xAB70, 0xABBF, 1, 0, 38864),
      (0xFF41, 0xFF5A, 1, 0, 32), (0x10428, 0x1044F, 1, 0, 40), (0x104D8, 0x104FB, 1, 0, 40),
      (0x10597, 0x105BB, 2, 0, 39), (0x10598, 0x105A1, 1, 0, 39), (0x105A4, 0x105B1, 1, 0, 39),
      (0x105B4, 0x105B9, 1, 0, 39), (0x105BC, 0x105BC, 1, 0, 39)],
    [(0x10CC0, 0x10CF2, 1, 0, 64), (0x118C0, 0x118DF, 1, 0, 32), (0x16E60, 0x16E7F, 1, 0, 32),
      (0x1E922, 0x1E943, 1, 0, 34)]]

/-- The runs of `orbitTail` as data. -/
def orbitRuns : List (List CaseRun) :=
  [[(0xE0, 0xF6, 1, 0, 32), (0xF8, 0xFE, 1, 0, 32), (0x101, 0x12F, 2, 0, 1),
      (0x133, 0x137, 2, 0, 1), (0x13A, 0x148, 2, 0, 1), (0x14B, 0x177, 2, 0, 1),
      (0x178, 0x178, 1, 0, 121), (0x17A, 0x17E, 2, 0, 1), (0x17F, 0x17F, 1, 0, 300),
      (0x183, 0x185, 2, 0, 1), (0x188, 0x188, 1, 0, 1), (0x18C, 0x18C, 1, 0, 1),
      (0x192, 0x192, 1, 0, 1), (0x199, 0x199, 1, 0, 1)],
    [(0x1A1, 0x1A5, 2, 0, 1), (0x1A8, 0x1A8, 1, 0, 1), (0x1AD, 0x1AD, 1, 0, 1),
      (0x1B0, 0x1B0, 1, 0, 1), (0x1B4, 0x1B6, 2, 0, 1), (0x1B9, 0x1B9, 1, 0, 1),
      (0x1BD, 0x1BD, 1, 0, 1), (0x1C5, 0x1C5, 1, 0, 1), (0x1C6, 0x1C6, 1, 0, 2),
      (0x1C8, 0x1C8, 1, 0, 1), (0x1C9, 0x1C9, 1, 0, 2), (0x1CB, 0x1CB, 1, 0, 1),
      (0x1CC, 0x1CC, 1, 0, 2), (0x1CE, 0x1DC, 2, 0, 1)],
    [(0x1DD, 0x1DD, 1, 0, 79), (0x1DF, 0x1EF, 2, 0, 1), (0x1F2, 0x1F2, 1, 0, 1),
      (0x1F3, 0x1F3, 1, 0, 2), (0x1F5, 0x1F5, 1, 0, 1), (0x1F6, 0x1F6, 1, 0, 97),
      (0x1F7, 0x1F7, 1, 0, 56), (0x1F9, 0x21F, 2, 0, 1), (0x220, 0x220, 1, 0, 130),
      (0x223, 0x233, 2, 0, 1), (0x23C, 0x23C, 1, 0, 1), (0x23D, 0x23D, 1, 0, 163),
      (0x242, 0x242, 1, 0, 1), (0x243, 0x243, 1, 0, 195)],
    [(0x247, 0x24F, 2, 0, 1), (0x253, 0x253, 1, 0, 210), (0x254, 0x254, 1, 0, 206),
      (0x256, 0x257, 1, 0, 205), (0x259, 0x259, 1, 0, 202), (0x25B, 0x25B, 1, 0, 203),
      (0x260, 0x260, 1, 0, 205), (0x263, 0x263, 1, 0, 207), (0x268, 0x268, 1, 0, 209),
      (0x269, 0x269, 1, 0, 211), (0x26F, 0x26F, 1, 0, 211), (0x272, 0x272, 1, 0, 213),
      (0x275, 0x275, 1, 0, 214), (0x280, 0x280, 1, 0, 218)],
    [(0x283, 0x283, 1, 0, 218), (0x288, 0x288, 1, 0, 218), (0x289, 0x289, 1, 0, 69),
      (0x28A, 0x28B, 1, 0, 217), (0x28C, 0x28C, 1, 0, 71), (0x292, 0x292, 1, 0, 219),
      (0x371, 0x373, 2, 0, 1), (0x377, 0x377, 1, 0, 1), (0x399, 0x399, 1, 0, 84),
      (0x39C, 0x39C, 1, 0, 743), (0x3AC, 0x3AC, 1, 0, 38), (0x3AD, 0x3AF, 1, 0, 37),
      (0x3B1, 0x3B8, 1, 0, 32), (0x3B9, 0x3B9, 1, 0, 116)],
    [(0x3BA, 0x3BB, 1, 0, 32), (0x3BC, 0x3BC, 1, 0, 775), (0x3BD, 0x3CB, 2, 0, 32),
      (0x3BE, 0x3C1, 1, 0, 32), (0x3C2, 0x3C2, 1, 0, 31), (0x3C4, 0x3CB, 1, 0, 32),
      (0x3CC, 0x3CC, 1, 0, 64), (0x3CD, 0x3CE, 1, 0, 63), (0x3D0, 0x3D0, 1, 0, 62),
      (0x3D1, 0x3D1, 1, 0, 57), (0x3D5, 0x3D5, 1, 0, 47), (0x3D6, 0x3D6, 1, 0, 54),
      (0x3D7, 0x3D7, 1, 0, 8), (0x3D9, 0x3EF, 2, 0, 1)],
    [(0x3F0, 0x3F0, 1, 0, 86), (0x3F1, 0x3F1, 1, 0, 80), (0x3F3, 0x3F3, 1, 0, 116),
      (0x3F4, 0x3F4, 1, 0, 92), (0x3F5, 0x3F5, 1, 0, 96), (0x3F8, 0x3F8, 1, 0, 1),
      (0x3F9, 0x3F9, 1, 0, 7), (0x3FB, 0x3FB, 1, 0, 1), (0x3FD, 0x3FF, 1, 0, 130),
      (0x430, 0x44F, 1, 0, 32), (0x450, 0x45F, 1, 0, 80), (0x461, 0x481, 2, 0, 1),
      (0x48B, 0x4BF, 2, 0, 1), (0x4C2, 0x4CE, 2, 0, 1)],
    [(0x4CF, 0x4CF, 1, 0, 15), (0x4D1, 0x52F, 2, 0, 1), (0x561, 0x586, 1, 0, 48),
      (0x13F8, 0x13FD, 1, 0, 8), (0x1C80, 0x1C80, 1, 0, 6254), (0x1C81, 0x1C81, 1, 0, 6253),
      (0x1C82, 0x1C82, 1, 0, 6244), (0x1C83, 0x1C84, 1, 0, 6242), (0x1C85, 0x1C85, 1, 0, 6243),
      (0x1C86, 0x1C86, 1, 0, 6236), (0x1C87, 0x1C87, 1, 0, 6181), (0x1C90, 0x1CBA, 1, 0, 3008),
      (0x1CBD, 0x1CBF, 1, 0, 3008), (0x1E01, 0x1E95, 2, 0, 1)],
    [(0x1E9B, 0x1E9B, 1, 0, 59), (0x1E9E, 0x1E9E, 1, 0, 7615), (0x1EA1, 0x1EFF, 2, 0, 1),
      (0x1F08, 0x1F0F, 1, 0, 8), (0x1F18, 0x1F1D, 1, 0, 8), (0x1F28, 0x1F2F, 1, 0, 8),
      (0x1F38, 0x1F3F, 1, 0, 8), (0x1F48, 0x1F4D, 1, 0, 8), (0x1F59, 0x1F5F, 2, 0, 8),
      (0x1F68, 0x1F6F, 1, 0, 8), (0x1F88, 0x1F8F, 1, 0, 8), (0x1F98, 0x1F9F, 1, 0, 8),
      (0x1FA8, 0x1FAF, 1, 0, 8), (0x1FB8, 0x1FB9, 1, 0, 8)],
    [(0x1FBA, 0x1FBB, 1, 0, 74), (0x1FBC, 0x1FBC, 1, 0, 9), (0x1FBE, 0x1FBE, 1, 0, 7289),
      (0x1FC8, 0x1FCB, 1, 0, 86), (0x1FCC, 0x1FCC, 1, 0, 9), (0x1FD8, 0x1FD9, 1, 0, 8),
      (0x1FDA, 0x1FDB, 1, 0, 100), (0x1FE8, 0x1FE9, 1, 0, 8), (0x1FEA, 0x1FEB, 1, 0, 112),
      (0x1FEC, 0x1FEC, 1, 0, 7), (0x1FF8, 0x1FF9, 1, 0, 128), (0x1FFA, 0x1FFB, 1, 0, 126),
      (0x1FFC, 0x1FFC, 1, 0, 9), (0x2126, 0x2126, 1, 0, 7549)],
    [(0x212A, 0x212A, 1, 0, 8415), (0x212B, 0x212B, 1, 0, 8294), (0x214E, 0x214E, 1, 0, 28),
      (0x2170, 0x217F, 1, 0, 16), (0x2184, 0x2184, 1, 0, 1), (0x24D0, 0x24E9, 1, 0, 26),
      (0x2C30, 0x2C5F, 1, 0, 48), (0x2C61, 0x2C61, 1, 0, 1), (0x2C62, 0x2C62, 1, 0, 10743),
      (0x2C63, 0x2C63, 1, 0, 3814), (0x2C64, 0x2C64, 1, 0, 10727), (0x2C65, 0x2C65, 1, 0, 10795),
      (0x2C66, 0x2C66, 1, 0, 10792), (0x2C68, 0x2C6C, 2, 0, 1)],
    [(0x2C6D, 0x2C6D, 1, 0, 10780), (0x2C6E, 0x2C6E, 1, 0, 10749), (0x2C6F, 0x2C6F, 1, 0, 10783),
      (0x2C70, 0x2C70, 1, 0, 10782), (0x2C73, 0x2C73, 1, 0, 1), (0x2C76, 0x2C76, 1, 0, 1),
      (0x2C7E, 0x2C7F, 1, 0, 10815), (0x2C81, 0x2CE3, 2, 0, 1), (0x2CEC, 0x2CEE, 2, 0, 1),
      (0x2CF3, 0x2CF3, 1, 0, 1), (0x2D00, 0x2D25, 1, 0, 7264), (0x2D27, 0x2D27, 1, 0, 7264),
      (0x2D2D, 0x2D2D, 1, 0, 7264), (0xA641, 0xA649, 2, 0, 1)],
    [(0xA64A, 0xA64A, 1, 0, 35266), (0xA64B, 0xA64B, 1, 0, 35267), (0xA64D, 0xA66D, 2, 0, 1),
      (0xA681, 0xA69B, 2, 0, 1), (0xA723, 0xA72F, 2, 0, 1), (0xA733, 0xA76F, 2, 0, 1),
      (0xA77A, 0xA77C, 2, 0, 1), (0xA77D, 0xA77D, 1, 0, 35332), (0xA77F, 0xA787, 2, 0, 1),
      (0xA78C, 0xA78C, 1, 0, 1), (0xA78D, 0xA78D, 1, 0, 42280), (0xA791, 0xA793, 2, 0, 1),
      (0xA797, 0xA7A9, 2, 0, 1), (0xA7AA, 0xA7AA, 1, 0, 42308)],
    [(0xA7AB, 0xA7AB, 1, 0, 42319), (0xA7AC, 0xA7AC, 1, 0, 42315), (0xA7AD, 0xA7AD, 1, 0, 42305),
      (0xA7AE, 0xA7AE, 1, 0, 42308), (0xA7B0, 0xA7B0, 1, 0, 42258),
      (0xA7B1, 0xA7B1, 1, 0, 42282), (0xA7B2, 0xA7B2, 1, 0, 42261), (0xA7B5, 0xA7C3, 2, 0, 1),
      (0xA7C4, 0xA7C4, 1, 0, 48), (0xA7C5, 0xA7C5, 1, 0, 42307), (0xA7C6, 0xA7C6, 1, 0, 35384),
      (0xA7C8, 0xA7CA, 2, 0, 1), (0xA7D1, 0xA7D1, 1, 0, 1), (0xA7D7, 0xA7D9, 2, 0, 1)],
    [(0xA7F6, 0xA7F6, 1, 0, 1), (0xAB53, 0xAB53, 1, 0, 928), (0xAB70, 0xABBF, 1, 0, 38864),
      (0xFF41, 0xFF5A, 1, 0, 32), (0x10428, 0x1044F, 1, 0, 40), (0x104D8, 0x104FB, 1, 0, 40),
      (0x10597, 0x105BB, 2, 0, 39), (0x10598, 0x105A1, 1, 0, 39), (0x105A4, 0x105B1, 1, 0, 39),
      (0x105B4, 0x105B9, 1, 0, 39), (0x105BC, 0x105BC, 1, 0, 39), (0x10CC0, 0x10CF2, 1, 0, 64),
      (0x118C0, 0x118DF, 1, 0, 32), (0x16E60, 0x16E7F, 1, 0, 32)],
    [(0x1E922, 0x1E943, 1, 0, 34)]]

/-- The runs of `caseFoldTail` as data. -/
def caseFoldRuns : List (List CaseRun) :=
  [[(0xB5, 0xB5, 1, 775, 0), (0xC0, 0xD6, 1, 32, 0), (0xD8, 0xDE, 1, 32, 0),
      (0x100, 0x12E, 2, 1, 0), (0x132, 0x136, 2, 1, 0), (0x139, 0x147, 2, 1, 0),
      (0x14A, 0x176, 2, 1, 0), (0x178, 0x178, 1, 0, 121), (0x179, 0x17D, 2, 1, 0),
      (0x17F, 0x17F, 1, 0, 268), (0x181, 0x181, 1, 210, 0), (0x182, 0x184, 2, 1, 0),
      (0x186, 0x186, 1, 206, 0), (0x187, 0x187, 1, 1, 0)],
    [(0x189, 0x18A, 1, 205, 0), (0x18B, 0x18B, 1, 1, 0), (0x18E, 0x18E, 1, 79, 0),
      (0x18F, 0x18F, 1, 202, 0), (0x190, 0x190, 1, 203, 0), (0x191, 0x191, 1, 1, 0),
      (0x193, 0x193, 1, 205, 0), (0x194, 0x194, 1, 207, 0), (0x196, 0x196, 1, 211, 0),
      (0x197, 0x197, 1, 209, 0), (0x198, 0x198, 1, 1, 0), (0x19C, 0x19C, 1, 211, 0),
      (0x19D, 0x19D, 1, 213, 0), (0x19F, 0x19F, 1, 214, 0)],
    [(0x1A0, 0x1A4, 2, 1, 0), (0x1A6, 0x1A6, 1, 218, 0), (0x1A7, 0x1A7, 1, 1, 0),
      (0x1A9, 0x1A9, 1, 218, 0), (0x1AC, 0x1AC, 1, 1, 0), (0x1AE, 0x1AE, 1, 218, 0),
      (0x1AF, 0x1AF, 1, 1, 0), (0x1B1, 0x1B2, 1, 217, 0), (0x1B3, 0x1B5, 2, 1, 0),
      (0x1B7, 0x1B7, 1, 219, 0), (0x1B8, 0x1B8, 1, 1, 0), (0x1BC, 0x1BC, 1, 1, 0),
      (0x1C4, 0x1C4, 1, 2, 0), (0x1C5, 0x1C5, 1, 1, 0)],
    [(0x1C7, 0x1C7, 1, 2, 0), (0x1C8, 0x1C8, 1, 1, 0), (0x1CA, 0x1CA, 1, 2, 0),
      (0x1CB, 0x1DB, 2, 1, 0), (0x1DE, 0x1EE, 2, 1, 0), (0x1F1, 0x1F1, 1, 2, 0),
      (0x1F2, 0x1F4, 2, 1, 0), (0x1F6, 0x1F6, 1, 0, 97), (0x1F7, 0x1F7, 1, 0, 56),
      (0x1F8, 0x21E, 2, 1, 0), (0x220, 0x220, 1, 0, 130), (0x222, 0x232, 2, 1, 0),
      (0x23A, 0x23A, 1, 10795, 0), (0x23B, 0x23B, 1, 1, 0)],
    [(0x23D, 0x23D, 1, 0, 163), (0x23E, 0x23E, 1, 10792, 0), (0x241, 0x241, 1, 1, 0),
      (0x243, 0x243, 1, 0, 195), (0x244, 0x244, 1, 69, 0), (0x245, 0x245, 1, 71, 0),
      (0x246, 0x24E, 2, 1, 0), (0x345, 0x345, 1, 116, 0), (0x370, 0x372, 2, 1, 0),
      (0x376, 0x376, 1, 1, 0), (0x37F, 0x37F, 1, 116, 0), (0x386, 0x386, 1, 38, 0),
      (0x388, 0x38A, 1, 37, 0), (0x38C, 0x38C, 1, 64, 0)],
    [(0x38E, 0x38F, 1, 63, 0), (0x391, 0x3A1, 1, 32, 0), (0x3A3, 0x3AB, 1, 32, 0),
      (0x3C2, 0x3C2, 1, 1, 0), (0x3CF, 0x3CF, 1, 8, 0), (0x3D0, 0x3D0, 1, 0, 30),
      (0x3D1, 0x3D1, 1, 0, 25), (0x3D5, 0x3D5, 1, 0, 15), (0x3D6, 0x3D6, 1, 0, 22),
      (0x3D8, 0x3EE, 2, 1, 0), (0x3F0, 0x3F0, 1, 0, 54), (0x3F1, 0x3F1, 1, 0, 48),
      (0x3F4, 0x3F4, 1, 0, 60), (0x3F5, 0x3F5, 1, 0, 64)],
    [(0x3F7, 0x3F7, 1, 1, 0), (0x3F9, 0x3F9, 1, 0, 7), (0x3FA, 0x3FA, 1, 1, 0),
      (0x3FD, 0x3FF, 1, 0, 130), (0x400, 0x40F, 1, 80, 0), (0x410, 0x42F, 1, 32, 0),
      (0x460, 0x480, 2, 1, 0), (0x48A, 0x4BE, 2, 1, 0), (0x4C0, 0x4C0, 1, 15, 0),
      (0x4C1, 0x4CD, 2, 1, 0), (0x4D0, 0x52E, 2, 1, 0), (0x531, 0x556, 1, 48, 0),
      (0x10A0, 0x10C5, 1, 7264, 0), (0x10C7, 0x10C7, 1, 7264, 0)],
    [(0x10CD, 0x10CD, 1, 7264, 0), (0x13F8, 0x13FD, 1, 0, 8), (0x1C80, 0x1C80, 1, 0, 6222),
      (0x1C81, 0x1C81, 1, 0, 6221), (0x1C82, 0x1C82, 1, 0, 6212), (0x1C83, 0x1C84, 1, 0, 6210),
      (0x1C85, 0x1C85, 1, 0, 6211), (0x1C86, 0x1C86, 1, 0, 6204), (0x1C87, 0x1C87, 1, 0, 6180),
      (0x1C88, 0x1C88, 1, 35267, 0), (0x1C90, 0x1CBA, 1, 0, 3008), (0x1CBD, 0x1CBF, 1, 0, 3008),
      (0x1E00, 0x1E94, 2, 1, 0), (0x1E9B, 0x1E9B, 1, 0, 58)],
    [(0x1E9E, 0x1E9E, 1, 0, 7615), (0x1EA0, 0x1EFE, 2, 1, 0), (0x1F08, 0x1F0F, 1, 0, 8),
      (0x1F18, 0x1F1D, 1, 0, 8), (0x1F28, 0x1F2F, 1, 0, 8), (0x1F38, 0x1F3F, 1, 0, 8),
      (0x1F48, 0x1F4D, 1, 0, 8), (0x1F59, 0x1F5F, 2, 0, 8), (0x1F68, 0x1F6F, 1, 0, 8),
      (0x1F88, 0x1F8F, 1, 0, 8), (0x1F98, 0x1F9F, 1, 0, 8), (0x1FA8, 0x1FAF, 1, 0, 8),
      (0x1FB8, 0x1FB9, 1, 0, 8), (0x1FBA, 0x1FBB, 1, 0, 74)],
    [(0x1FBC, 0x1FBC, 1, 0, 9), (0x1FBE, 0x1FBE, 1, 0, 7173), (0x1FC8, 0x1FCB, 1, 0, 86),
      (0x1FCC, 0x1FCC, 1, 0, 9), (0x1FD8, 0x1FD9, 1, 0, 8), (0x1FDA, 0x1FDB, 1, 0, 100),
      (0x1FE8, 0x1FE9, 1, 0, 8), (0x1FEA, 0x1FEB, 1, 0, 112), (0x1FEC, 0x1FEC, 1, 0, 7),
      (0x1FF8, 0x1FF9, 1, 0, 128), (0x1FFA, 0x1FFB, 1, 0, 126), (0x1FFC, 0x1FFC, 1, 0, 9),
      (0x2126, 0x2126, 1, 0, 7517), (0x212A, 0x212A, 1, 0, 8383)],
    [(0x212B, 0x212B, 1, 0, 8262), (0x2132, 0x2132, 1, 28, 0), (0x2160, 0x216F, 1, 16, 0),
      (0x2183, 0x2183, 1, 1, 0), (0x24B6, 0x24CF, 1, 26, 0), (0x2C00, 0x2C2F, 1, 48, 0),
      (0x2C60, 0x2C60, 1, 1, 0), (0x2C62, 0x2C62, 1, 0, 10743), (0x2C63, 0x2C63, 1, 0, 3814),
      (0x2C64, 0x2C64, 1, 0, 10727), (0x2C67, 0x2C6B, 2, 1, 0), (0x2C6D, 0x2C6D, 1, 0, 10780),
      (0x2C6E, 0x2C6E, 1, 0, 10749), (0x2C6F, 0x2C6F, 1, 0, 10783)],
    [(0x2C70, 0x2C70, 1, 0, 10782), (0x2C72, 0x2C72, 1, 1, 0), (0x2C75, 0x2C75, 1, 1, 0),
      (0x2C7E, 0x2C7F, 1, 0, 10815), (0x2C80, 0x2CE2, 2, 1, 0), (0x2CEB, 0x2CED, 2, 1, 0),
      (0x2CF2, 0x2CF2, 1, 1, 0), (0xA640, 0xA66C, 2, 1, 0), (0xA680, 0xA69A, 2, 1, 0),
      (0xA722, 0xA72E, 2, 1, 0), (0xA732, 0xA76E, 2, 1, 0), (0xA779, 0xA77B, 2, 1, 0),
      (0xA77D, 0xA77D, 1, 0, 35332), (0xA77E, 0xA786, 2, 1, 0)],
    [(0xA78B, 0xA78B, 1, 1, 0), (0xA78D, 0xA78D, 1, 0, 42280), (0xA790, 0xA792, 2, 1, 0),
      (0xA796, 0xA7A8, 2, 1, 0), (0xA7AA, 0xA7AA, 1, 0, 42308), (0xA7AB, 0xA7AB, 1, 0, 42319),
      (0xA7AC, 0xA7AC, 1, 0, 42315), (0xA7AD, 0xA7AD, 1, 0, 42305),
      (0xA7AE, 0xA7AE, 1, 0, 42308), (0xA7B0, 0xA7B0, 1, 0, 42258),
      (0xA7B1, 0xA7B1, 1, 0, 42282), (0xA7B2, 0xA7B2, 1, 0, 42261), (0xA7B3, 0xA7B3, 1, 928, 0),
      (0xA7B4, 0xA7C2, 2, 1, 0)],
    [(0xA7C4, 0xA7C4, 1, 0, 48), (0xA7C5, 0xA7C5, 1, 0, 42307), (0xA7C6, 0xA7C6, 1, 0, 35384),
      (0xA7C7, 0xA7C9, 2, 1, 0), (0xA7D0, 0xA7D0, 1, 1, 0), (0xA7D6, 0xA7D8, 2, 1, 0),
      (0xA7F5, 0xA7F5, 1, 1, 0), (0xAB70, 0xABBF, 1, 0, 38864), (0xFF21, 0xFF3A, 1, 32, 0),
      (0x10400, 0x10427, 1, 40, 0), (0x104B0, 0x104D3, 1, 40, 0), (0x10570, 0x10594, 2, 39, 0),
      (0x10571, 0x1057A, 1, 39, 0), (0x1057D, 0x1058A, 1, 39, 0), (0x1058D, 0x10592, 1, 39, 0)],
    [(0x10595, 0x10595, 1, 39, 0), (0x10C80, 0x10CB2, 1, 64, 0), (0x118A0, 0x118BF, 1, 32, 0),
      (0x16E40, 0x16E5F, 1, 32, 0), (0x1E900, 0x1E921, 1, 34, 0)]]

/-- Two runes are the same letter up to case: they have the same upper case, or they have the
same simple case folding. -/
def sameLetter (x y : Char) : Prop :=
  upperRune x = upperRune y ∨ caseFold x = caseFold y

/-- Two texts are equal ignoring letter case: they have the same number of runes and, position
by position, the same letter up to case. -/
def equalIgnoringCase (s t : String) : Prop :=
  List.Forall₂ sameLetter s.data t.data

/-- Lower case of an ASCII letter; every other rune is left as it is. -/
def asciiLower (c : Char) : Char :=
  if 65 ≤ c.toNat ∧ c.toNat ≤ 90 then Char.ofNat (c.toNat + 32) else c

/-- The seven privilege names that `DBAPrivilegeFromString` knows, each with its code. -/
def privilegeNames : List (String × DBAPrivilege) :=
  [("SYSDBA", SYSDBA), ("SYSOPER", SYSOPER), ("SYSASM", SYSASM), ("SYSBACKUP", SYSBACKUP),
    ("SYSDG", SYSDG), ("SYSKM", SYSKM), ("SYSRAC", SYSRAC)]

/-- The calls `AddServer(c)` for the candidates of a list, one after the other. -/
def addAll {W : Type} (info : DatabaseInfo W) (cs : List ServerAddr) : DatabaseInfo W :=
  cs.foldl (fun m c => m.AddServer c) info

/-- No two endpoints at different positions of the list are equal under `IsEqual`. -/
def NoDuplicates (l : List ServerAddr) : Prop :=
  l.Pairwise (fun a b => a.IsEqual b = false)

instance (l : List ServerAddr) : Decidable (NoDuplicates l) := by
  unfold NoDuplicates
  infer_instance

/-- The words a sub-expression can match, with the capture slots before and after: the relation
the matcher is sound for.  It forgets which of the possible matches the matcher prefers. -/
inductive Re.Sem : Re → List Char → Caps → Caps → Prop where
  | cls (p : Char → Bool) (x : Char) (c : Caps) : p x = true → Re.Sem (.cls p) [x] c c
  | seq (a b : Re) (w1 w2 : List Char) (c c1 c2 : Caps) :
    Re.Sem a w1 c c1 → Re.Sem b w2 c1 c2 → Re.Sem (.seq a b) (w1 ++ w2) c c2
  | altLeft (a b : Re) (w : List Char) (c c1 : Caps) : Re.Sem a w c c1 → Re.Sem (.alt a b) w c c1
  | altRight (a b : Re) (w : List Char) (c c1 : Caps) : Re.Sem b w c c1 → Re.Sem (.alt a b) w c c1
  | starNil (a : Re) (c : Caps) : Re.Sem (.star a) [] c c
  | starCons (a : Re) (w1 w2 : List Char) (c c1 c2 : Caps) :
    Re.Sem a w1 c c1 → Re.Sem (.star a) w2 c1 c2 → Re.Sem (.star a) (w1 ++ w2) c c2
  | cap (i : Nat) (a : Re) (w : List Char) (c c1 : Caps) :
    Re.Sem a w c c1 → Re.Sem (.cap i a) w c (c1.set i (String.mk w))

/-- The two slots of one sub-attribute of an address group: both empty when the group has no
such sub-attribute, else a spelling of the key and a non-empty value of the admitted runes. -/
def SlotPair (k v key : String) (p : Char → Bool) : Prop :=
  (k = "" ∧ v = "") ∨ (ToUpper k = key ∧ v ≠ "" ∧ ∀ x ∈ v.data, p x = true)

/-- The shape of the ten sub-matches of a match of the address pattern. -/
def AddressSlots (m : List String) : Prop :=
  ∃ whole last hk hv pk pv ck cv qk qv : String,
    m = [whole, last, hk, hv, pk, pv, ck, cv, qk, qv] ∧
    SlotPair hk hv "HOST" isHostRune ∧ SlotPair pk pv "PORT" isDigit ∧
    SlotPair ck cv "COMMUNITY" isNameRune ∧ SlotPair qk qv "PROTOCOL" isWordFold

/-- A match whose COMMUNITY value (sub-match 7) spells none of the three keys the loop of
`ExtractServers` looks for. -/
def PlainMatch (m : List String) : Prop :=
  ToUpper (m.getD 7 "") ≠ "PROTOCOL" ∧ ToUpper (m.getD 7 "") ≠ "PORT" ∧
    ToUpper (m.getD 7 "") ≠ "HOST"

instance (m : List String) : Decidable (PlainMatch m) := by
  unfold PlainMatch
  infer_instance

/-- The port of a matched address group: the default when the group has no PORT sub-attribute
(sub-match 4 empty), else what `strconv.Atoi` makes of the PORT value (sub-match 5). -/
def matchPort (m : List String) : Except GoError Int :=
  if m.getD 4 "" = "" then .ok defaultPort else Atoi (m.getD 5 "")

/-- The endpoint of a matched address group: none when the group has no HOST value (sub-match 3
empty) or its port fails to parse, else the HOST value, the port and the PROTOCOL value. -/
def matchEndpoint (m : List String) : Option ServerAddr :=
  if m.getD 3 "" = "" then none
  else
    match matchPort m with
    | .ok p => some { Protocol := m.getD 9 "", Addr := m.getD 3 "", Port := p }
    | .error _ => none

/-- An occurrence `(K=v)` of an identity attribute, as its pattern reads it: the key `K` in any
letter case, a non-empty value `v` of the runes `[\w.-]`, white space allowed around the key and
around the value. -/
def IdentityOccurrence (key v w : List Char) : Prop :=
  ∃ ws1 kw ws2 ws3 ws4 : List Char,
    w = '(' :: (ws1 ++ (kw ++ (ws2 ++ '=' :: (ws3 ++ (v ++ (ws4 ++ [')'])))))) ∧
    (∀ x ∈ ws1, isSpace x = true) ∧ List.Forall₂ (fun l x => foldMatches l x = true) key kw ∧
    (∀ x ∈ ws2, isSpace x = true) ∧ (∀ x ∈ ws3, isSpace x = true) ∧
    v ≠ [] ∧ (∀ x ∈ v, isNameRune x = true) ∧ (∀ x ∈ ws4, isSpace x = true)

/-- An occurrence of the attribute `key` with value `v` starts at the head of `s`. -/
def OccursAt (key v s : List Char) : Prop :=
  ∃ w rest, s = w ++ rest ∧ IdentityOccurrence key v w

/-- The first (leftmost) occurrence of the attribute `key` in `text` has the value `v`: one
starts after `pre`, none at a position inside `pre`. -/
def FirstOccurrence (key text v : List Char) : Prop :=
  ∃ pre s, text = pre ++ s ∧ OccursAt key v s ∧
    ∀ p1 s1 v1, pre = p1 ++ s1 → s1 ≠ [] → ¬ OccursAt key v1 (s1 ++ s)

/-- The text has no occurrence of the attribute `key`. -/
def NoOccurrence (key text : List Char) : Prop :=
  ∀ pre s v, text = pre ++ s → ¬ OccursAt key v s

/-- The address group `(ADDRESS=(HOST=db1)(PORT=1522)(PROTOCOL=tcp))` of the worked examples. -/
def exampleGroup : AddressGroup :=
  { host := ['d', 'b', '1'], port := some ['1', '5', '2', '2'], protocol := some ['t', 'c', 'p'] }

/-- Two address groups used in the worked examples: `db1` with port 1522 and protocol `tcp`,
and `db-2.example.com` with neither port nor protocol. -/
def exampleGroups : List AddressGroup :=
  [ { host := ['d', 'b', '1'], port := some ['1', '5', '2', '2'],
      protocol := some ['t', 'c', 'p'] },
    { host := "db-2.example.com".data, port := none, protocol := none } ]

/-- An endpoint used in the worked examples. -/
def exampleServer : ServerAddr :=
  { Protocol := "tcp", Addr := "db1", Port := 1521 }

/-- A second endpoint used in the worked examples. -/
def exampleServer2 : ServerAddr :=
  { Protocol := "tcp", Addr := "db2", Port := 1522 }

/-- A model that already holds two endpoints and a SID from an earlier parse. -/
def exampleModel : DatabaseInfo Unit :=
  { DatabaseInfo.empty Unit with Servers := [exampleServer, exampleServer2], SID := "OLD" }

end Configurations

namespace Configurations

/-! ## Shared lemmas -/

theorem normalizeText_no_line_break (s : String) :
    '\r' ∉ (normalizeText s).data ∧ '\n' ∉ (normalizeText s).data := by
  constructor
  · simp [normalizeText, ReplaceAllEmpty]
  · simp [normalizeText, ReplaceAllEmpty]

theorem normalizeText_data (s : String) :
    (normalizeText s).data = s.data.filter (fun c => c != '\r' && c != '\n') := by
  simp [normalizeText, ReplaceAllEmpty, List.filter_filter, Bool.and_comm]

theorem identityValue_eq (re : Re) (text old : String) :
    identityValue (re.FindStringSubmatch 1 text) old = (foundValue re text).getD old := by
  unfold identityValue foundValue
  cases (re.FindStringSubmatch 1 text).get? 1 <;> rfl

theorem getD_of_ne_none {α : Type} (o : Option α) (a b : α) (h : o ≠ none) :
    o.getD a = o.getD b := by
  cases o with
  | none => exact absurd rfl h
  | some v => rfl

/-- The ways `UpdateDatabaseInfo` returns, by the result of `ExtractServers`. -/
theorem UpdateDatabaseInfo_cases {W : Type} (info : DatabaseInfo W) (text : String) :
    (∀ i n, ExtractServers (normalizeText text) = .panicked i n →
      info.UpdateDatabaseInfo text = .panicked i n) ∧
    (∀ l e, ExtractServers (normalizeText text) = .done (l, some e) →
      info.UpdateDatabaseInfo text = .done ({ info with Servers := l }, some e)) ∧
    (ExtractServers (normalizeText text) = .done ([], none) →
      info.UpdateDatabaseInfo text = .done ({ info with Servers := [] }, some .noAddress)) ∧
    (∀ l, l ≠ [] → ExtractServers (normalizeText text) = .done (l, none) →
      info.UpdateDatabaseInfo text = .done ({ info with
        Servers := l
        connStr := normalizeText text
        ServiceName := (foundValue serviceNameRegexp (normalizeText text)).getD info.ServiceName
        SID := (foundValue sidRegexp (normalizeText text)).getD info.SID
        InstanceName :=
          (foundValue instanceNameRegexp (normalizeText text)).getD info.InstanceName }, none)) := by
  refine ⟨?_, ?_, ?_, ?_⟩
  · intro i n h
    simp only [normalizeText] at h
    simp [DatabaseInfo.UpdateDatabaseInfo, h]
  · intro l e h
    simp only [normalizeText] at h
    simp [DatabaseInfo.UpdateDatabaseInfo, h]
  · intro h
    simp only [normalizeText] at h
    simp [DatabaseInfo.UpdateDatabaseInfo, h]
  · intro l hl h
    simp only [normalizeText] at h
    simp [DatabaseInfo.UpdateDatabaseInfo, h, hl, identityValue_eq, normalizeText]

/-- The ways `UpdateDatabaseInfoForRedirect` returns, by the result of `ExtractServers`. -/
theorem UpdateDatabaseInfoForRedirect_cases {W : Type} (info : DatabaseInfo W)
    (addr data : String) :
    (∀ i n, ExtractServers (normalizeText addr) = .panicked i n →
      info.UpdateDatabaseInfoForRedirect addr data = .panicked i n) ∧
    (∀ l e, ExtractServers (normalizeText addr) = .done (l, some e) →
      info.UpdateDatabaseInfoForRedirect addr data = .done ({ info with Servers := l }, some e)) ∧
    (ExtractServers (normalizeText addr) = .done ([], none) →
      info.UpdateDatabaseInfoForRedirect addr data =
        .done ({ info with Servers := [] }, some .noAddress)) ∧
    (∀ l, l ≠ [] → ExtractServers (normalizeText addr) = .done (l, none) →
      info.UpdateDatabaseInfoForRedirect addr data = .done ({ info with
        Servers := l
        connStr := ""
        ServiceName := (foundValue serviceNameRegexp (normalizeText data)).getD info.ServiceName
        SID := (foundValue sidRegexp (normalizeText data)).getD info.SID
        InstanceName :=
          (foundValue instanceNameRegexp (normalizeText data)).getD info.InstanceName }, none)) := by
  refine ⟨?_, ?_, ?_, ?_⟩
  · intro i n h
    simp only [normalizeText] at h
    simp [DatabaseInfo.UpdateDatabaseInfoForRedirect, h]
  · intro l e h
    simp only [normalizeText] at h
    simp [DatabaseInfo.UpdateDatabaseInfoForRedirect, h]
  · intro h
    simp only [normalizeText] at h
    simp [DatabaseInfo.UpdateDatabaseInfoForRedirect, h]
  · intro l hl h
    simp only [normalizeText] at h
    simp [DatabaseInfo.UpdateDatabaseInfoForRedirect, h, hl, identityValue_eq, normalizeText]

/-- A successful redirect, read back from its result. -/
theorem UpdateDatabaseInfoForRedirect_done {W : Type} (info info1 : DatabaseInfo W)
    (addr data : String)
    (h : info.UpdateDatabaseInfoForRedirect addr data = .done (info1, none)) :
    info1.Servers ≠ [] ∧ ExtractServers (normalizeText addr) = .done (info1.Servers, none) ∧
    info1 = { info with
        Servers := info1.Servers
        connStr := ""
        ServiceName := (foundValue serviceNameRegexp (normalizeText data)).getD info.ServiceName
        SID := (foundValue sidRegexp (normalizeText data)).getD info.SID
        InstanceName :=
          (foundValue instanceNameRegexp (normalizeText data)).getD info.InstanceName } := by
  obtain ⟨hp, he, h0, hs⟩ := UpdateDatabaseInfoForRedirect_cases info addr data
  rcases hE : ExtractServers (normalizeText addr) with ⟨l, err⟩ | ⟨i, n⟩
  · cases err with
    | some e => rw [he l e hE] at h; simp at h
    | none =>
      by_cases hl : l = []
      · subst hl; rw [h0 hE] at h; simp at h
      · rw [hs l hl hE] at h
        simp only [Run.done.injEq, Prod.mk.injEq, and_true] at h
        subst h
        exact ⟨hl, rfl, rfl⟩
  · rw [hp i n hE] at h; cases h

/-- An error of the inner loop is the error of `strconv.Atoi`. -/
theorem scanMatch_error (m : List String) (fuel x : Nat) (server : ServerAddr) (e : GoError)
    (h : scanMatch m fuel x server = .done (.error e)) : ∃ num kind, e = .numError num kind := by
  induction fuel generalizing x server with
  | zero => simp [scanMatch] at h
  | succ fuel ih =>
    unfold scanMatch at h
    split at h
    · simp at h
    · split at h
      · split at h
        · simp at h
        · exact ih _ _ h
      · split at h
        · split at h
          · simp at h
          · rename_i v _
            split at h
            · rename_i e1 hA
              simp only [Run.done.injEq, Except.error.injEq] at h
              subst h
              unfold Atoi at hA
              simp only [] at hA
              split at hA
              · simp only [Except.error.injEq] at hA; exact ⟨_, _, hA.symm⟩
              · split at hA
                · simp only [Except.error.injEq] at hA; exact ⟨_, _, hA.symm⟩
                · simp only [Except.error.injEq] at hA; exact ⟨_, _, hA.symm⟩
                · split at hA
                  · simp only [Except.error.injEq] at hA; exact ⟨_, _, hA.symm⟩
                  · split at hA
                    · simp only [Except.error.injEq] at hA; exact ⟨_, _, hA.symm⟩
                    · cases hA
            · exact ih _ _ h
        · split at h
          · split at h
            · simp at h
            · exact ih _ _ h
          · exact ih _ _ h

/-- When the outer loop returns an error, the address list is `nil` and the error is the error
of `strconv.Atoi`. -/
theorem extractLoop_error (ms : List (List String)) (acc l : List ServerAddr) (e : GoError)
    (h : extractLoop ms acc = .done (l, some e)) : l = [] ∧ ∃ num kind, e = .numError num kind := by
  induction ms generalizing acc with
  | nil => simp [extractLoop] at h
  | cons m rest ih =>
    unfold extractLoop at h
    split at h
    · cases h
    · rename_i e1 hs
      simp only [Run.done.injEq, Prod.mk.injEq, Option.some.injEq] at h
      obtain ⟨h1, h2⟩ := h
      subst h2
      exact ⟨h1.symm, scanMatch_error _ _ _ _ _ hs⟩
    · split at h
      · exact ih _ h
      · exact ih _ h

/-- Neither update method touches the cursor, whatever it returns. -/
theorem UpdateDatabaseInfo_serverIndex {W : Type} (info info1 : DatabaseInfo W) (text : String)
    (err : Option GoError) (h : info.UpdateDatabaseInfo text = .done (info1, err)) :
    info1.serverIndex = info.serverIndex := by
  obtain ⟨hp, he, h0, hs⟩ := UpdateDatabaseInfo_cases info text
  rcases hE : ExtractServers (normalizeText text) with ⟨l, e⟩ | ⟨i, n⟩
  · cases e with
    | some e =>
      rw [he l e hE] at h
      simp only [Run.done.injEq, Prod.mk.injEq] at h
      rw [← h.1]
    | none =>
      by_cases hl : l = []
      · subst hl
        rw [h0 hE] at h
        simp only [Run.done.injEq, Prod.mk.injEq] at h
        rw [← h.1]
      · rw [hs l hl hE] at h
        simp only [Run.done.injEq, Prod.mk.injEq] at h
        rw [← h.1]
  · rw [hp i n hE] at h; cases h

theorem UpdateDatabaseInfoForRedirect_serverIndex {W : Type} (info info1 : DatabaseInfo W)
    (addr data : String) (err : Option GoError)
    (h : info.UpdateDatabaseInfoForRedirect addr data = .done (info1, err)) :
    info1.serverIndex = info.serverIndex := by
  obtain ⟨hp, he, h0, hs⟩ := UpdateDatabaseInfoForRedirect_cases info addr data
  rcases hE : ExtractServers (normalizeText addr) with ⟨l, e⟩ | ⟨i, n⟩
  · cases e with
    | some e =>
      rw [he l e hE] at h
      simp only [Run.done.injEq, Prod.mk.injEq] at h
      rw [← h.1]
    | none =>
      by_cases hl : l = []
      · subst hl
        rw [h0 hE] at h
        simp only [Run.done.injEq, Prod.mk.injEq] at h
        rw [← h.1]
      · rw [hs l hl hE] at h
        simp only [Run.done.injEq, Prod.mk.injEq] at h
        rw [← h.1]
  · rw [hp i n hE] at h; cases h

theorem AddServer_serverIndex {W : Type} (info : DatabaseInfo W) (c : ServerAddr) :
    (info.AddServer c).serverIndex = info.serverIndex := by
  unfold DatabaseInfo.AddServer
  split <;> rfl

theorem GetActiveServer_serverIndex {W : Type} (info info1 : DatabaseInfo W) (jump : Bool)
    (r : Option ServerAddr) (h : info.GetActiveServer jump = .done (info1, r)) :
    info1.serverIndex = if jump then incrInt info.serverIndex else info.serverIndex := by
  unfold DatabaseInfo.GetActiveServer at h
  cases jump with
  | false =>
    simp only [Bool.false_eq_true, if_false] at h ⊢
    split at h
    · simp only [Run.done.injEq, Prod.mk.injEq] at h
      rw [← h.1]
    · split at h
      · simp only [Run.done.injEq, Prod.mk.injEq] at h
        rw [← h.1]
      · cases h
  | true =>
    simp only [if_true] at h ⊢
    split at h
    · simp only [Run.done.injEq, Prod.mk.injEq] at h
      rw [← h.1]
    · split at h
      · simp only [Run.done.injEq, Prod.mk.injEq] at h
        rw [← h.1]
      · cases h

theorem incrInt_of_lt (i : Int) (h : i + 1 < 2 ^ 63) : incrInt i = i + 1 := by
  unfold incrInt intSize
  rw [if_pos (by simpa using h)]

/-- One returning call moves a non-negative cursor to 0, leaves it, or adds one. -/
theorem Call_apply_serverIndex {W : Type} (c : Call) (info info1 : DatabaseInfo W)
    (h0 : 0 ≤ info.serverIndex) (hb : info.serverIndex + 1 < 2 ^ 63)
    (h : c.apply info = some info1) :
    0 ≤ info1.serverIndex ∧ info1.serverIndex ≤ info.serverIndex + 1 := by
  cases c with
  | update connStr =>
    simp only [Call.apply] at h
    split at h
    · rename_i m e hu
      cases h
      rw [UpdateDatabaseInfo_serverIndex _ _ _ _ hu]; omega
    · cases h
  | redirect a d =>
    simp only [Call.apply] at h
    split at h
    · rename_i m e hu
      cases h
      rw [UpdateDatabaseInfoForRedirect_serverIndex _ _ _ _ _ hu]; omega
    · cases h
  | add server =>
    simp only [Call.apply, Option.some.injEq] at h
    subst h
    rw [AddServer_serverIndex]; omega
  | reset =>
    simp only [Call.apply, Option.some.injEq] at h
    subst h
    simp only [DatabaseInfo.ResetServerIndex]; omega
  | getActive jump =>
    simp only [Call.apply] at h
    split at h
    · rename_i m e hu
      cases h
      rw [GetActiveServer_serverIndex _ _ _ _ hu]
      cases jump
      · simp only [Bool.false_eq_true, if_false]; omega
      · simp only [if_true]
        rw [incrInt_of_lt _ hb]; omega
    · cases h

theorem runCalls_serverIndex {W : Type} (calls : List Call) (info m : DatabaseInfo W)
    (h0 : 0 ≤ info.serverIndex) (hb : info.serverIndex + calls.length < 2 ^ 63)
    (h : runCalls calls info = some m) :
    0 ≤ m.serverIndex ∧ m.serverIndex ≤ info.serverIndex + calls.length := by
  induction calls generalizing info with
  | nil =>
    simp only [runCalls, Option.some.injEq] at h
    subst h
    simp [h0]
  | cons c rest ih =>
    simp only [runCalls] at h
    simp only [List.length_cons, Nat.cast_add, Nat.cast_one] at hb ⊢
    split at h
    · rename_i info1 hc
      obtain ⟨ha, hb1⟩ := Call_apply_serverIndex c info info1 h0 (by omega) hc
      obtain ⟨hc1, hc2⟩ := ih info1 ha (by omega) h
      exact ⟨hc1, by omega⟩
    · cases h

theorem GetActiveServer_of_nonneg {W : Type} (info : DatabaseInfo W) (i : Nat)
    (h : info.serverIndex = (i : Int)) :
    info.GetActiveServer false = .done (info, info.Servers.get? i) := by
  unfold DatabaseInfo.GetActiveServer
  simp only [Bool.false_eq_true, if_false]
  rw [h]
  by_cases hlt : (i : Int) ≥ (info.Servers.length : Int)
  · rw [if_pos hlt]
    have : info.Servers.length ≤ i := by exact_mod_cast hlt
    rw [List.get?_eq_none.mpr this]
  · rw [if_neg hlt]

theorem GetActiveServer_true_of_nonneg {W : Type} (info : DatabaseInfo W) (i : Nat)
    (h : info.serverIndex = (i : Int)) (hi : (i : Int) + 1 < 2 ^ 63) :
    info.GetActiveServer true =
      .done ({ info with serverIndex := ((i + 1 : Nat) : Int) }, info.Servers.get? (i + 1)) := by
  unfold DatabaseInfo.GetActiveServer
  simp only [if_true]
  rw [h, incrInt_of_lt _ hi]
  by_cases hlt : ((i : Int) + 1) ≥ (info.Servers.length : Int)
  · rw [if_pos hlt]
    have : info.Servers.length ≤ i + 1 := by omega
    rw [List.get?_eq_none.mpr this]
    simp
  · rw [if_neg hlt]
    rfl

theorem GetActiveServerTimes_true_from {W : Type} (k : Nat) (info : DatabaseInfo W) (i : Nat)
    (h : info.serverIndex = (i : Int)) (hk : (i : Int) + k < 2 ^ 63) :
    GetActiveServerTimes true k info =
      .done ({ info with serverIndex := ((i + k : Nat) : Int) },
        (List.range k).map (fun j => info.Servers.get? (i + j + 1))) := by
  induction k generalizing info i with
  | zero =>
    simp only [GetActiveServerTimes, Nat.add_zero, List.range_zero, List.map_nil]
    rw [← h]
  | succ k ih =>
    unfold GetActiveServerTimes
    rw [GetActiveServer_true_of_nonneg info i h (by omega)]
    simp only []
    rw [ih _ (i + 1) rfl (by push_cast; omega)]
    simp only [List.range_succ_eq_map, List.map_cons, List.map_map, Nat.add_zero]
    congr 2
    · congr 2; omega
    · congr 1
      apply List.map_congr_left
      intro j _
      simp only [Function.comp]
      congr 1; omega

theorem range_map_get? {α : Type} (t : List α) (m : Nat) :
    (List.range (t.length + m)).map (fun j => t.get? j) = t.map some ++ List.replicate m none := by
  apply List.ext_get?
  intro i
  simp only [List.get?_eq_getElem?, List.getElem?_map, List.getElem?_range, List.getElem?_append,
    List.length_map, List.getElem?_replicate]
  by_cases h1 : i < t.length
  · have h2 : i < t.length + m := by omega
    simp [h1, h2, List.getElem?_range]
  · by_cases h2 : i < t.length + m
    · have h3 : i - t.length < m := by omega
      have h4 : t.length ≤ i := by omega
      simp [h1, h2, h3, List.getElem?_range, List.getElem?_eq_none h4]
    · have h3 : ¬ (i - t.length < m) := by omega
      simp [h1, h2, h3, List.getElem?_range]
      omega

theorem range_map_get?_succ {α : Type} (l : List α) (m : Nat) :
    (List.range (l.length - 1 + m)).map (fun j => l.get? (j + 1)) =
      l.tail.map some ++ List.replicate m none := by
  cases l with
  | nil => simp
  | cons a t =>
    simp only [List.length_cons, Nat.add_sub_cancel, List.tail_cons]
    rw [← range_map_get? t m]
    simp

theorem IsEqual_comm (a b : ServerAddr) : a.IsEqual b = b.IsEqual a := by
  unfold ServerAddr.IsEqual EqualFold
  rw [Bool.eq_iff_iff]
  simp only [Bool.and_eq_true, decide_eq_true_eq, beq_iff_eq]
  constructor <;> (rintro ⟨h1, h2⟩; exact ⟨h1.symm, h2.symm⟩)

/-! ## The matcher on the text of address groups -/

theorem run_cls_cons (p : Char → Bool) (x : Char) (t : List Char) (c : Caps) (k : Cont) :
    (Re.cls p).run (x :: t) c k = if p x then k t c else none := rfl

theorem run_cls_nil (p : Char → Bool) (c : Caps) (k : Cont) :
    (Re.cls p).run [] c k = none := rfl

theorem run_seq (a b : Re) (s : List Char) (c : Caps) (k : Cont) :
    (Re.seq a b).run s c k = a.run s c (fun s1 c1 => b.run s1 c1 k) := rfl

theorem run_alt (a b : Re) (s : List Char) (c : Caps) (k : Cont) :
    (Re.alt a b).run s c k =
      match a.run s c k with
      | some r => some r
      | none => b.run s c k := rfl

theorem run_star (a : Re) (s : List Char) (c : Caps) (k : Cont) :
    (Re.star a).run s c k = starLoop a.run s.length s c k := rfl

theorem run_cap (i : Nat) (a : Re) (s : List Char) (c : Caps) (k : Cont) :
    (Re.cap i a).run s c k =
      a.run s c (fun s1 c1 => k s1 (c1.set i (String.mk (s.take (s.length - s1.length))))) := rfl

theorem starLoop_stop (m : List Char → Caps → Cont → Option MatchResult) (n : Nat)
    (s : List Char) (c : Caps) (k : Cont) (h : ∀ k1, m s c k1 = none) :
    starLoop m n s c k = k s c := by
  cases n with
  | zero => rfl
  | succ n => simp [starLoop, h]

theorem starLoop_step (m : List Char → Caps → Cont → Option MatchResult) (n : Nat)
    (s : List Char) (c : Caps) (k : Cont) (r : MatchResult)
    (h : m s c (fun s1 c1 => if s1.length < s.length then starLoop m n s1 c1 k else none) =
      some r) :
    starLoop m (n + 1) s c k = some r := by
  simp [starLoop, h]

theorem cls_run_head (p : Char → Bool) (s : List Char) (c : Caps) (k : Cont)
    (h : ∀ x ∈ s.head?, p x = false) : (Re.cls p).run s c k = none := by
  cases s with
  | nil => rfl
  | cons x t => simp [run_cls_cons, h x (by simp)]

theorem ws_skip (s : List Char) (c : Caps) (k : Cont) (h : ∀ x ∈ s.head?, isSpace x = false) :
    Re.ws.run s c k = k s c := by
  unfold Re.ws
  rw [run_star]
  exact starLoop_stop _ _ _ _ _ (fun k1 => cls_run_head _ _ _ k1 h)

theorem lit_run (l : Char) (t : List Char) (c : Caps) (k : Cont) :
    (Re.lit l).run (l :: t) c k = k t c := by
  simp [Re.lit, run_cls_cons]

theorem lit_fail (l : Char) (s : List Char) (c : Caps) (k : Cont)
    (h : ∀ x ∈ s.head?, x ≠ l) : (Re.lit l).run s c k = none := by
  unfold Re.lit
  apply cls_run_head
  intro x hx
  simpa using h x hx

theorem starLoop_cls (p : Char → Bool) (v rest : List Char) (n : Nat) (c : Caps) (k : Cont)
    (r : MatchResult) (hp : ∀ x ∈ v, p x = true) (hrest : ∀ x ∈ rest.head?, p x = false)
    (hn : (v ++ rest).length ≤ n) (hk : k rest c = some r) :
    starLoop (Re.cls p).run n (v ++ rest) c k = some r := by
  induction v generalizing n with
  | nil =>
    rw [List.nil_append, starLoop_stop _ _ _ _ _ (fun k1 => cls_run_head _ _ _ k1 hrest)]
    exact hk
  | cons x v ih =>
    obtain ⟨n1, rfl⟩ : ∃ n1, n = n1 + 1 := by
      cases n with
      | zero => simp at hn
      | succ n1 => exact ⟨n1, rfl⟩
    apply starLoop_step
    rw [List.cons_append, run_cls_cons, if_pos (hp x (by simp)), if_pos (by simp)]
    apply ih n1 (fun y hy => hp y (List.mem_cons_of_mem _ hy))
    simp only [List.cons_append, List.length_cons] at hn
    omega

theorem plus_cls (p : Char → Bool) (v rest : List Char) (c : Caps) (k : Cont)
    (r : MatchResult) (hv : v ≠ []) (hp : ∀ x ∈ v, p x = true)
    (hrest : ∀ x ∈ rest.head?, p x = false) (hk : k rest c = some r) :
    (Re.plus (Re.cls p)).run (v ++ rest) c k = some r := by
  cases v with
  | nil => exact absurd rfl hv
  | cons x v =>
    unfold Re.plus
    rw [run_seq, List.cons_append, run_cls_cons, if_pos (hp x (by simp)), run_star]
    exact starLoop_cls p v rest _ c k r (fun y hy => hp y (List.mem_cons_of_mem _ hy)) hrest
      (le_refl _) hk

theorem foldMatches_self (l : Char) : foldMatches l l = true := by
  simp [foldMatches]

theorem word_run (w : List Char) (t : List Char) (c : Caps) (k : Cont) (hw : w ≠ []) :
    (Re.word w).run (w ++ t) c k = k t c := by
  induction w generalizing c k with
  | nil => exact absurd rfl hw
  | cons a w ih =>
    cases w with
    | nil => simp [Re.word, Re.seqs, run_cls_cons, foldMatches_self]
    | cons b w =>
      have := ih c k (by simp)
      simp only [Re.word, List.map_cons, Re.seqs, run_seq, List.cons_append, run_cls_cons,
        foldMatches_self, if_true] at this ⊢
      exact this

theorem word_fail (l : Char) (w : List Char) (s : List Char) (c : Caps) (k : Cont)
    (h : ∀ x ∈ s.head?, foldMatches l x = false) : (Re.word (l :: w)).run s c k = none := by
  cases w with
  | nil => simp only [Re.word, List.map_cons, List.map_nil, Re.seqs]; exact cls_run_head _ _ _ _ h
  | cons b w =>
    simp only [Re.word, List.map_cons, Re.seqs, run_seq]
    exact cls_run_head _ _ _ _ h

theorem take_append_length {α : Type} (a b : List α) :
    (a ++ b).take ((a ++ b).length - b.length) = a := by
  simp

theorem head?_append_cons {α : Type} (a : List α) (x : α) (b : List α) (q : α → Prop)
    (ha : ∀ y ∈ a, q y) (hx : q x) : ∀ y ∈ (a ++ x :: b).head?, q y := by
  intro y hy
  cases a with
  | nil => simp at hy; subst hy; exact hx
  | cons z a => simp at hy; subst hy; exact ha _ (by simp)

theorem attributeRe_run (i : Nat) (key : List Char) (p : Char → Bool) (v rest : List Char)
    (c : Caps) (k : Cont) (r : MatchResult)
    (hkey : key ≠ []) (hk0 : ∀ l ∈ key, isSpace l = false)
    (hv : v ≠ []) (hp : ∀ x ∈ v, p x = true) (hsp : ∀ x, p x = true → isSpace x = false)
    (hclose : p ')' = false) (hrest : ∀ x ∈ rest.head?, isSpace x = false)
    (hk : k rest ((c.set i (String.mk key)).set (i + 1) (String.mk v)) = some r) :
    (attributeRe i key p).run ('(' :: (key ++ '=' :: (v ++ ')' :: rest))) c k = some r := by
  have h1 : ∀ y ∈ (key ++ '=' :: (v ++ ')' :: rest)).head?, isSpace y = false :=
    head?_append_cons _ _ _ _ hk0 (by decide)
  have h2 : ∀ y ∈ ('=' :: (v ++ ')' :: rest)).head?, isSpace y = false := by
    intro y hy; simp at hy; subst hy; decide
  have h3 : ∀ y ∈ (v ++ ')' :: rest).head?, isSpace y = false :=
    head?_append_cons _ _ _ _ (fun y hy => hsp y (hp y hy)) (by decide)
  have h4 : ∀ y ∈ (')' :: rest).head?, isSpace y = false := by
    intro y hy; simp at hy; subst hy; decide
  have h5 : ∀ y ∈ (')' :: rest).head?, p y = false := by
    intro y hy; simp at hy; subst hy; exact hclose
  simp only [attributeRe, Re.seqs, run_seq]
  rw [lit_run, ws_skip _ _ _ h1, run_cap, word_run _ _ _ _ hkey, ws_skip _ _ _ h2, lit_run,
    ws_skip _ _ _ h3, run_cap]
  apply plus_cls p v (')' :: rest) _ _ r hv hp h5
  rw [ws_skip _ _ _ h4, lit_run, ws_skip _ _ _ hrest, take_append_length, take_append_length]
  exact hk

theorem word_fail2 (l1 l2 : Char) (w : List Char) (x1 : Char) (t : List Char) (c : Caps)
    (k : Cont) (h1 : foldMatches l1 x1 = true) (h2 : ∀ x ∈ t.head?, foldMatches l2 x = false) :
    (Re.word (l1 :: l2 :: w)).run (x1 :: t) c k = none := by
  have := word_fail l2 w t c k h2
  simp only [Re.word, List.map_cons, Re.seqs, run_seq, run_cls_cons, h1, if_true] at this ⊢
  exact this

theorem attributeRe_fail_open (i : Nat) (key : List Char) (p : Char → Bool) (s : List Char)
    (c : Caps) (k : Cont) (h : ∀ x ∈ s.head?, x ≠ '(') :
    (attributeRe i key p).run s c k = none := by
  simp only [attributeRe, Re.seqs, run_seq]
  exact lit_fail _ _ _ _ h

theorem attributeRe_fail_key1 (i : Nat) (l : Char) (w : List Char) (p : Char → Bool) (x : Char)
    (t : List Char) (c : Caps) (k : Cont) (hs : isSpace x = false)
    (h : foldMatches l x = false) :
    (attributeRe i (l :: w) p).run ('(' :: x :: t) c k = none := by
  simp only [attributeRe, Re.seqs, run_seq]
  rw [lit_run, ws_skip _ _ _ (by simpa using hs), run_cap]
  exact word_fail l w _ _ _ (by simpa using h)

theorem attributeRe_fail_key2 (i : Nat) (l1 l2 : Char) (w : List Char) (p : Char → Bool)
    (x1 x2 : Char) (t : List Char) (c : Caps) (k : Cont) (hs : isSpace x1 = false)
    (h1 : foldMatches l1 x1 = true) (h2 : foldMatches l2 x2 = false) :
    (attributeRe i (l1 :: l2 :: w) p).run ('(' :: x1 :: x2 :: t) c k = none := by
  simp only [attributeRe, Re.seqs, run_seq]
  rw [lit_run, ws_skip _ _ _ (by simpa using hs), run_cap]
  exact word_fail2 l1 l2 w x1 _ _ _ h1 (by simpa using h2)

theorem attributeText_append (key v rest : List Char) :
    attributeText key v ++ rest = '(' :: (key ++ '=' :: (v ++ ')' :: rest)) := by
  simp [attributeText]

theorem attributeChoice_close (t : List Char) (c : Caps) (k : Cont) :
    attributeChoice.run (')' :: t) c k = none := by
  have h : ∀ x ∈ (')' :: t).head?, x ≠ '(' := by
    intro x hx; simp at hx; subst hx; decide
  simp only [attributeChoice, run_alt, attributeRe_fail_open _ _ _ _ _ _ h]

theorem isSpace_of_isHostRune (x : Char) (h : isHostRune x = true) : isSpace x = false := by
  simp only [isHostRune, isWordFold, isWord, isDigit, isSpace, Bool.or_eq_true, Bool.and_eq_true,
    decide_eq_true_eq, beq_iff_eq, Bool.or_eq_false_iff, beq_eq_false_iff_ne] at h ⊢
  omega

theorem isSpace_of_isDigit (x : Char) (h : isDigit x = true) : isSpace x = false := by
  simp only [isDigit, isSpace, Bool.or_eq_true, Bool.and_eq_true,
    decide_eq_true_eq, beq_iff_eq, Bool.or_eq_false_iff, beq_eq_false_iff_ne] at h ⊢
  omega

theorem isSpace_of_isWordFold (x : Char) (h : isWordFold x = true) : isSpace x = false := by
  simp only [isWordFold, isWord, isDigit, isSpace, Bool.or_eq_true, Bool.and_eq_true,
    decide_eq_true_eq, beq_iff_eq, Bool.or_eq_false_iff, beq_eq_false_iff_ne] at h ⊢
  omega

theorem attributeChoice_host (v rest : List Char) (c : Caps) (k : Cont) (r : MatchResult)
    (hv : v ≠ []) (hp : ∀ x ∈ v, isHostRune x = true)
    (hrest : ∀ x ∈ rest.head?, isSpace x = false)
    (hk : k rest ((c.set 2 "HOST").set 3 (String.mk v)) = some r) :
    attributeChoice.run (attributeText ['H', 'O', 'S', 'T'] v ++ rest) c k = some r := by
  rw [attributeText_append]
  simp only [attributeChoice, run_alt]
  rw [attributeRe_run 2 _ isHostRune v rest c k r (by simp) (by decide) hv hp
    isSpace_of_isHostRune (by decide) hrest hk]

theorem attributeChoice_port (v rest : List Char) (c : Caps) (k : Cont) (r : MatchResult)
    (hv : v ≠ []) (hp : ∀ x ∈ v, isDigit x = true)
    (hrest : ∀ x ∈ rest.head?, isSpace x = false)
    (hk : k rest ((c.set 4 "PORT").set 5 (String.mk v)) = some r) :
    attributeChoice.run (attributeText ['P', 'O', 'R', 'T'] v ++ rest) c k = some r := by
  rw [attributeText_append]
  simp only [attributeChoice, run_alt, List.cons_append, List.nil_append]
  rw [attributeRe_fail_key1 2 'H' _ _ 'P' _ _ _ (by decide) (by decide)]
  have := attributeRe_run 4 ['P', 'O', 'R', 'T'] isDigit v rest c k r (by simp) (by decide) hv hp
    isSpace_of_isDigit (by decide) hrest hk
  simp only [List.cons_append, List.nil_append] at this
  rw [this]

theorem attributeChoice_protocol (v rest : List Char) (c : Caps) (k : Cont) (r : MatchResult)
    (hv : v ≠ []) (hp : ∀ x ∈ v, isWordFold x = true)
    (hrest : ∀ x ∈ rest.head?, isSpace x = false)
    (hk : k rest ((c.set 8 "PROTOCOL").set 9 (String.mk v)) = some r) :
    attributeChoice.run (attributeText ['P', 'R', 'O', 'T', 'O', 'C', 'O', 'L'] v ++ rest) c k =
      some r := by
  rw [attributeText_append]
  simp only [attributeChoice, run_alt, List.cons_append, List.nil_append]
  rw [attributeRe_fail_key1 2 'H' _ _ 'P' _ _ _ (by decide) (by decide),
    attributeRe_fail_key2 4 'P' 'O' _ _ 'P' 'R' _ _ _ (by decide) (by decide) (by decide),
    attributeRe_fail_key1 6 'C' _ _ 'P' _ _ _ (by decide) (by decide)]
  have := attributeRe_run 8 ['P', 'R', 'O', 'T', 'O', 'C', 'O', 'L'] isWordFold v rest c k r
    (by simp) (by decide) hv hp isSpace_of_isWordFold (by decide) hrest hk
  simp only [List.cons_append, List.nil_append] at this
  rw [this]

theorem starLoop_round (A s1 : List Char) (n : Nat) (c c2 : Caps) (k : Cont) (r : MatchResult)
    (hA : A ≠ []) (hn : 0 < n)
    (hchoice : ∀ (k1 : Cont) (r1 : MatchResult), k1 s1 c2 = some r1 →
      attributeChoice.run (A ++ s1) c k1 = some r1)
    (hk : starLoop (Re.cap 1 attributeChoice).run (n - 1) s1 (c2.set 1 (String.mk A)) k =
      some r) :
    starLoop (Re.cap 1 attributeChoice).run n (A ++ s1) c k = some r := by
  obtain ⟨n1, rfl⟩ : ∃ n1, n = n1 + 1 := ⟨n - 1, by omega⟩
  apply starLoop_step
  rw [run_cap]
  apply hchoice
  have hlen : s1.length < (A ++ s1).length := by
    have : 0 < A.length := List.length_pos.mpr hA
    simp only [List.length_append]; omega
  rw [if_pos hlen, take_append_length]
  exact hk

theorem starLoop_close (n : Nat) (t : List Char) (c : Caps) (k : Cont) :
    starLoop (Re.cap 1 attributeChoice).run n (')' :: t) c k = k (')' :: t) c := by
  apply starLoop_stop
  intro k1
  rw [run_cap]
  exact attributeChoice_close _ _ _

theorem attributeText_ne_nil (key v : List Char) : attributeText key v ≠ [] := by
  simp [attributeText]

theorem head?_attributeText (key v rest : List Char) :
    ∀ x ∈ (attributeText key v ++ rest).head?, isSpace x = false := by
  intro x hx
  simp [attributeText] at hx
  subst hx
  decide

theorem head?_close (rest : List Char) : ∀ x ∈ (')' :: rest).head?, isSpace x = false := by
  intro x hx
  simp at hx
  subst hx
  decide

theorem isHostRune_of_host (c : Char) (h : isWord c = true ∨ c = '.' ∨ c = '-' ∨ c = ':') :
    isHostRune c = true := by
  rcases h with h | h | h | h
  · simp [isHostRune, isWordFold, h]
  · subst h; decide
  · subst h; decide
  · subst h; decide

theorem isWordFold_of_isWord (c : Char) (h : isWord c = true) : isWordFold c = true := by
  simp [isWordFold, h]

theorem matchAt_render (g : AddressGroup) (hg : g.WellFormed) (rest : List Char) :
    connectionAddressRegexp.matchAt 9 (g.render ++ rest) = some (g.slots, rest) := by
  obtain ⟨h, port, proto⟩ := g
  obtain ⟨hh, hh0, hport, hproto⟩ := hg
  have hh1 : ∀ x ∈ h, isHostRune x = true := fun x hx => isHostRune_of_host x (hh0 x hx)
  have hE : ∀ t : List Char, ∀ x ∈ ('=' :: t).head?, isSpace x = false := by
    intro t x hx; simp at hx; subst hx; decide
  cases port with
  | none =>
    cases proto with
    | none =>
      have hr : (⟨h, none, none⟩ : AddressGroup).render ++ rest =
          '(' :: (['A', 'D', 'D', 'R', 'E', 'S', 'S'] ++ '=' ::
            (attributeText ['H', 'O', 'S', 'T'] h ++ ')' :: rest)) := by
        simp [AddressGroup.render, attributeText]
      unfold Re.matchAt
      rw [run_cap, hr]
      simp only [connectionAddressRegexp, Re.seqs, run_seq, Re.plus]
      rw [lit_run, ws_skip _ _ _ (by intro x hx; simp at hx; subst hx; decide),
        word_run _ _ _ _ (by simp), ws_skip _ _ _ (hE _),
        lit_run, ws_skip _ _ _ (head?_attributeText _ _ _), run_cap]
      apply attributeChoice_host h _ _ _ _ hh hh1 (head?_close _)
      rw [run_star, starLoop_close, ws_skip _ _ _ (head?_close _), lit_run, ← hr,
        take_append_length, take_append_length]
      rfl
    | some q =>
      obtain ⟨hq, hq0⟩ := hproto q rfl
      have hq1 : ∀ x ∈ q, isWordFold x = true := fun x hx => isWordFold_of_isWord x (hq0 x hx)
      have hr : (⟨h, none, some q⟩ : AddressGroup).render ++ rest =
          '(' :: (['A', 'D', 'D', 'R', 'E', 'S', 'S'] ++ '=' ::
            (attributeText ['H', 'O', 'S', 'T'] h ++
              (attributeText ['P', 'R', 'O', 'T', 'O', 'C', 'O', 'L'] q ++ ')' :: rest))) := by
        simp [AddressGroup.render, attributeText]
      unfold Re.matchAt
      rw [run_cap, hr]
      simp only [connectionAddressRegexp, Re.seqs, run_seq, Re.plus]
      rw [lit_run, ws_skip _ _ _ (by intro x hx; simp at hx; subst hx; decide),
        word_run _ _ _ _ (by simp), ws_skip _ _ _ (hE _),
        lit_run, ws_skip _ _ _ (head?_attributeText _ _ _), run_cap]
      apply attributeChoice_host h _ _ _ _ hh hh1 (head?_attributeText _ _ _)
      rw [run_star]
      apply starLoop_round _ _ _ _ _ _ _ (attributeText_ne_nil _ _)
        (by simp [attributeText]) (fun k1 r1 hk1 =>
          attributeChoice_protocol q _ _ k1 r1 hq hq1 (head?_close _) hk1)
      rw [starLoop_close, ws_skip _ _ _ (head?_close _), lit_run, ← hr, take_append_length]
      simp only [take_append_length, ← List.append_assoc]
      rfl
  | some p =>
    obtain ⟨hp, hp1, _⟩ := hport p rfl
    cases proto with
    | none =>
      have hr : (⟨h, some p, none⟩ : AddressGroup).render ++ rest =
          '(' :: (['A', 'D', 'D', 'R', 'E', 'S', 'S'] ++ '=' ::
            (attributeText ['H', 'O', 'S', 'T'] h ++
              (attributeText ['P', 'O', 'R', 'T'] p ++ ')' :: rest))) := by
        simp [AddressGroup.render, attributeText]
      unfold Re.matchAt
      rw [run_cap, hr]
      simp only [connectionAddressRegexp, Re.seqs, run_seq, Re.plus]
      rw [lit_run, ws_skip _ _ _ (by intro x hx; simp at hx; subst hx; decide),
        word_run _ _ _ _ (by simp), ws_skip _ _ _ (hE _),
        lit_run, ws_skip _ _ _ (head?_attributeText _ _ _), run_cap]
      apply attributeChoice_host h _ _ _ _ hh hh1 (head?_attributeText _ _ _)
      rw [run_star]
      apply starLoop_round _ _ _ _ _ _ _ (attributeText_ne_nil _ _)
        (by simp [attributeText]) (fun k1 r1 hk1 =>
          attributeChoice_port p _ _ k1 r1 hp hp1 (head?_close _) hk1)
      rw [starLoop_close, ws_skip _ _ _ (head?_close _), lit_run, ← hr, take_append_length]
      simp only [take_append_length, ← List.append_assoc]
      rfl
    | some q =>
      obtain ⟨hq, hq0⟩ := hproto q rfl
      have hq1 : ∀ x ∈ q, isWordFold x = true := fun x hx => isWordFold_of_isWord x (hq0 x hx)
      have hr : (⟨h, some p, some q⟩ : AddressGroup).render ++ rest =
          '(' :: (['A', 'D', 'D', 'R', 'E', 'S', 'S'] ++ '=' ::
            (attributeText ['H', 'O', 'S', 'T'] h ++ (attributeText ['P', 'O', 'R', 'T'] p ++
              (attributeText ['P', 'R', 'O', 'T', 'O', 'C', 'O', 'L'] q ++ ')' :: rest)))) := by
        simp [AddressGroup.render, attributeText]
      unfold Re.matchAt
      rw [run_cap, hr]
      simp only [connectionAddressRegexp, Re.seqs, run_seq, Re.plus]
      rw [lit_run, ws_skip _ _ _ (by intro x hx; simp at hx; subst hx; decide),
        word_run _ _ _ _ (by simp), ws_skip _ _ _ (hE _),
        lit_run, ws_skip _ _ _ (head?_attributeText _ _ _), run_cap]
      apply attributeChoice_host h _ _ _ _ hh hh1 (head?_attributeText _ _ _)
      rw [run_star]
      apply starLoop_round _ _ _ _ _ _ _ (attributeText_ne_nil _ _)
        (by simp [attributeText]) (fun k1 r1 hk1 =>
          attributeChoice_port p _ _ k1 r1 hp hp1 (head?_attributeText _ _ _) hk1)
      apply starLoop_round _ _ _ _ _ _ _ (attributeText_ne_nil _ _)
        (by simp [attributeText]) (fun k1 r1 hk1 =>
          attributeChoice_protocol q _ _ k1 r1 hq hq1 (head?_close _) hk1)
      rw [starLoop_close, ws_skip _ _ _ (head?_close _), lit_run, ← hr, take_append_length]
      simp only [take_append_length, ← List.append_assoc]
      rfl

theorem find_of_matchAt (re : Re) (n : Nat) (s : List Char) (r : MatchResult)
    (h : re.matchAt n s = some r) : re.find n s = some r := by
  cases s with
  | nil => exact h
  | cons x t => simp [Re.find, h]

theorem render_length_pos (g : AddressGroup) : 0 < g.render.length := by
  simp [AddressGroup.render]

theorem findAll_renderGroups (gs : List AddressGroup) (hg : ∀ g ∈ gs, g.WellFormed) (fuel : Nat)
    (hf : gs.length < fuel) :
    connectionAddressRegexp.findAll 9 fuel (renderGroups gs) = gs.map AddressGroup.slots := by
  induction gs generalizing fuel with
  | nil =>
    obtain ⟨f, rfl⟩ : ∃ f, fuel = f + 1 := ⟨fuel - 1, by simp at hf; omega⟩
    have : connectionAddressRegexp.find 9 [] = none := by decide
    simp [Re.findAll, renderGroups, this]
  | cons g gs ih =>
    obtain ⟨f, rfl⟩ : ∃ f, fuel = f + 1 := ⟨fuel - 1, by omega⟩
    have hm := find_of_matchAt _ _ _ _ (matchAt_render g (hg g (by simp)) (renderGroups gs))
    have hlen := render_length_pos g
    simp only [Re.findAll, renderGroups, hm, List.map_cons, List.length_append]
    rw [if_pos (by omega), ih (fun x hx => hg x (by simp [hx])) f (by simpa using hf)]

theorem le_foldl_decimal (t : List Char) (n : Nat) :
    n ≤ t.foldl (fun n c => n * 10 + (c.toNat - 48)) n := by
  induction t generalizing n with
  | nil => exact le_refl _
  | cons c t ih =>
    simp only [List.foldl_cons]
    exact le_trans (by omega) (ih _)

theorem parseUintLoop_digits (t : List Char) (n : Nat) (hd : ∀ c ∈ t, isDigit c = true)
    (hv : t.foldl (fun n c => n * 10 + (c.toNat - 48)) n < 2 ^ 64) :
    parseUintLoop t n = .ok (t.foldl (fun n c => n * 10 + (c.toNat - 48)) n) := by
  induction t generalizing n with
  | nil => rfl
  | cons c t ih =>
    simp only [List.foldl_cons] at hv ⊢
    have h1 := le_foldl_decimal t (n * 10 + (c.toNat - 48))
    simp only [parseUintLoop, hd c (by simp), if_true]
    rw [if_pos (by omega)]
    exact ih _ (fun x hx => hd x (by simp [hx])) hv

theorem Atoi_decimal (p : List Char) (hp : p ≠ []) (hd : ∀ c ∈ p, isDigit c = true)
    (hv : decimalValue p < 2 ^ (intSize - 1)) : Atoi (String.mk p) = .ok (decimalValue p : Int) := by
  cases p with
  | nil => exact absurd rfl hp
  | cons c t =>
    have hc : isDigit c = true := hd c (by simp)
    have hplus : (c == '+') = false := by
      rw [beq_eq_false_iff_ne]; rintro rfl; revert hc; decide
    have hminus : (c == '-') = false := by
      rw [beq_eq_false_iff_ne]; rintro rfl; revert hc; decide
    have hv2 : decimalValue (c :: t) < 2 ^ 64 := by
      have : (2 : Nat) ^ (intSize - 1) < 2 ^ 64 := by decide
      omega
    have hloop := parseUintLoop_digits (c :: t) 0 hd hv2
    have hnot : ¬ (2 ^ (intSize - 1) ≤ decimalValue (c :: t)) := by omega
    unfold Atoi
    simp only [List.head?_cons, hplus, hminus, Bool.or_self, Bool.false_eq_true, if_false]
    have hneg : (some c == some '-') = false := by
      simpa using hminus
    simp [hneg, hloop, decimalValue, hnot] 
    simpa [decimalValue] using hnot

theorem scanMatch_slots (g : AddressGroup) (hg : g.WellFormed) :
    scanMatch g.slots g.slots.length 2 { Protocol := "", Addr := "", Port := 1521 } =
      .done (.ok g.endpoint) := by
  obtain ⟨h, port, proto⟩ := g
  obtain ⟨hh, hh0, hport, hproto⟩ := hg
  have e1 : ToUpper "HOST" = "HOST" := by decide
  have e2 : ToUpper "PORT" = "PORT" := by decide
  have e3 : ToUpper "PROTOCOL" = "PROTOCOL" := by decide
  have e4 : ToUpper "" = "" := by decide
  have n1 : ("HOST" : String) ≠ "PROTOCOL" := by decide
  have n2 : ("HOST" : String) ≠ "PORT" := by decide
  have n3 : ("PORT" : String) ≠ "PROTOCOL" := by decide
  have n4 : ("" : String) ≠ "PROTOCOL" := by decide
  have n5 : ("" : String) ≠ "PORT" := by decide
  have n6 : ("" : String) ≠ "HOST" := by decide
  cases port with
  | none =>
    cases proto with
    | none =>
      simp [AddressGroup.slots, AddressGroup.endpoint, scanMatch, e1, e4, n1, n2, n4, n5, n6]
    | some q =>
      simp [AddressGroup.slots, AddressGroup.endpoint, scanMatch, e1, e3, e4, n1, n2, n4, n5, n6]
  | some p =>
    obtain ⟨hp, hp1, hp2⟩ := hport p rfl
    have ha := Atoi_decimal p hp hp1 hp2
    cases proto with
    | none =>
      simp [AddressGroup.slots, AddressGroup.endpoint, scanMatch, e1, e2, e4, n1, n2, n3, n4, n5,
        n6, ha]
    | some q =>
      simp [AddressGroup.slots, AddressGroup.endpoint, scanMatch, e1, e2, e3, e4, n1, n2, n3, n4,
        n5, n6, ha]

theorem extractLoop_slots (gs : List AddressGroup) (hg : ∀ g ∈ gs, g.WellFormed)
    (acc : List ServerAddr) :
    extractLoop (gs.map AddressGroup.slots) acc =
      .done (acc ++ gs.map AddressGroup.endpoint, none) := by
  induction gs generalizing acc with
  | nil => simp [extractLoop]
  | cons g gs ih =>
    have hw := hg g (by simp)
    have hpos : (g.endpoint).Addr.length > 0 := by
      simp only [AddressGroup.endpoint, String.length]
      exact List.length_pos.mpr hw.1
    simp only [List.map_cons, extractLoop, scanMatch_slots g hw, if_pos hpos]
    rw [ih (fun x hx => hg x (by simp [hx]))]
    simp

theorem render_no_space (g : AddressGroup) (hg : g.WellFormed) :
    ∀ c ∈ g.render, isSpace c = false := by
  obtain ⟨h, port, proto⟩ := g
  obtain ⟨hh, hh0, hport, hproto⟩ := hg
  have hh1 : ∀ x ∈ h, isSpace x = false :=
    fun x hx => isSpace_of_isHostRune x (isHostRune_of_host x (hh0 x hx))
  have hp1 : ∀ p, port = some p → ∀ x ∈ p, isSpace x = false :=
    fun p hp x hx => isSpace_of_isDigit x ((hport p hp).2.1 x hx)
  have hq1 : ∀ q, proto = some q → ∀ x ∈ q, isSpace x = false :=
    fun q hq x hx => isSpace_of_isWordFold x (isWordFold_of_isWord x ((hproto q hq).2 x hx))
  have hfix : ∀ c ∈ ['(', 'A', 'D', 'R', 'E', 'S', '=', 'H', 'O', 'T', ')', 'P', 'C', 'L'],
      isSpace c = false := by decide
  simp only [List.forall_mem_cons, List.not_mem_nil, false_implies, implies_true,
    and_true] at hfix
  obtain ⟨f1, f2, f3, f4, f5, f6, f7, f8, f9, f10, f11, f12, f13, f14⟩ := hfix
  cases port <;> cases proto <;>
    simp only [AddressGroup.render, List.forall_mem_cons, List.forall_mem_append,
      List.not_mem_nil, false_implies, implies_true, and_true, true_and, f1, f2, f3, f4, f5, f6,
      f7, f8, f9, f10, f11, f12, f13, f14, List.mem_singleton, forall_eq] <;>
    first
      | exact hh1
      | exact ⟨hh1, hq1 _ rfl⟩
      | exact ⟨hh1, hp1 _ rfl⟩
      | exact ⟨hh1, hp1 _ rfl, hq1 _ rfl⟩

theorem renderGroups_no_space (gs : List AddressGroup) (hg : ∀ g ∈ gs, g.WellFormed) :
    ∀ c ∈ renderGroups gs, isSpace c = false := by
  induction gs with
  | nil => simp [renderGroups]
  | cons g gs ih =>
    intro c hc
    simp only [renderGroups, List.mem_append] at hc
    rcases hc with hc | hc
    · exact render_no_space g (hg g (by simp)) c hc
    · exact ih (fun x hx => hg x (by simp [hx])) c hc

theorem normalizeText_of_no_space (l : List Char) (h : ∀ c ∈ l, isSpace c = false) :
    normalizeText (String.mk l) = String.mk l := by
  have h1 : ∀ c ∈ l, (c != '\r') = true := by
    intro c hc
    rw [bne_iff_ne]; rintro rfl
    exact absurd (h _ hc) (by decide)
  have h2 : ∀ c ∈ l, (c != '\n') = true := by
    intro c hc
    rw [bne_iff_ne]; rintro rfl
    exact absurd (h _ hc) (by decide)
  simp only [normalizeText, ReplaceAllEmpty]
  rw [List.filter_eq_self.mpr h1, List.filter_eq_self.mpr h2]

theorem length_le_renderGroups (gs : List AddressGroup) : gs.length ≤ (renderGroups gs).length := by
  induction gs with
  | nil => simp
  | cons g gs ih =>
    have := render_length_pos g
    simp only [renderGroups, List.length_cons, List.length_append]
    omega

theorem ExtractServers_renderGroups (gs : List AddressGroup) (hg : ∀ g ∈ gs, g.WellFormed) :
    ExtractServers (String.mk (renderGroups gs)) = .done (gs.map AddressGroup.endpoint, none) := by
  have hl := length_le_renderGroups gs
  unfold ExtractServers Re.FindAllStringSubmatch
  rw [findAll_renderGroups gs hg _ (by simp only [String.length]; omega), extractLoop_slots gs hg]
  simp

/-! ## Fuel and the shape of the sub-matches -/

/-- With a continuation that always fails the iteration fails. -/
theorem starLoop_none (m : List Char → Caps → Cont → Option MatchResult)
    (hm : ∀ s c (k : Cont), (∀ s1 c1, k s1 c1 = none) → m s c k = none)
    (n : Nat) (s : List Char) (c : Caps) (k : Cont) (hk : ∀ s1 c1, k s1 c1 = none) :
    starLoop m n s c k = none := by
  induction n generalizing s c with
  | zero => exact hk s c
  | succ n ih =>
    unfold starLoop
    rw [hm s c _ (fun s1 c1 => by split; exact ih s1 c1; rfl)]
    exact hk s c

/-- The matcher succeeds only through its continuation. -/
theorem run_none (a : Re) (s : List Char) (c : Caps) (k : Cont)
    (hk : ∀ s1 c1, k s1 c1 = none) : a.run s c k = none := by
  induction a generalizing s c k with
  | cls p =>
    cases s with
    | nil => rfl
    | cons x t => simp [run_cls_cons, hk]
  | seq a b iha ihb => rw [run_seq]; exact iha _ _ _ (fun s1 c1 => ihb _ _ _ hk)
  | alt a b iha ihb => rw [run_alt, iha _ _ _ hk, ihb _ _ _ hk]
  | star a iha => rw [run_star]; exact starLoop_none _ (fun s c k hk => iha s c k hk) _ _ _ _ hk
  | cap i a iha => rw [run_cap]; exact iha _ _ _ (fun s1 c1 => hk _ _)

/-- The fuel of an iteration is enough: the length of the input, and any larger number, give
the same result. -/
theorem starLoop_fuel_succ (a : Re) (n : Nat) (s : List Char) (c : Caps) (k : Cont)
    (hn : s.length ≤ n) : starLoop a.run (n + 1) s c k = starLoop a.run n s c k := by
  induction n generalizing s c with
  | zero =>
    have hs : s = [] := List.length_eq_zero.mp (Nat.le_zero.mp hn)
    subst hs
    simp only [starLoop]
    rw [run_none a [] c _ (fun s1 c1 => by simp)]
  | succ n ih =>
    rw [starLoop, starLoop]
    have : (fun s1 c1 => if s1.length < s.length then starLoop a.run (n + 1) s1 c1 k else none) =
        (fun s1 c1 => if s1.length < s.length then starLoop a.run n s1 c1 k else none) := by
      funext s1 c1
      by_cases h : s1.length < s.length
      · rw [if_pos h, if_pos h]; exact ih s1 c1 (by omega)
      · rw [if_neg h, if_neg h]
    rw [this]

/-- The fuel of the sub-match loop is enough: once it covers the entries from `x` on, more fuel
changes nothing. -/
theorem scanMatch_fuel_succ (m : List String) (fuel x : Nat) (server : ServerAddr)
    (h : m.length ≤ x + fuel) : scanMatch m (fuel + 1) x server = scanMatch m fuel x server := by
  induction fuel generalizing x server with
  | zero =>
    have hx : m.get? x = none := List.get?_eq_none.mpr (by omega)
    simp only [scanMatch, hx]
  | succ fuel ih =>
    have i2 : ∀ sv, scanMatch m (fuel + 1) (x + 2) sv = scanMatch m fuel (x + 2) sv :=
      fun sv => ih (x + 2) sv (by omega)
    have i1 : ∀ sv, scanMatch m (fuel + 1) (x + 1) sv = scanMatch m fuel (x + 1) sv :=
      fun sv => ih (x + 1) sv (by omega)
    rw [scanMatch]
    conv => rhs; rw [scanMatch]
    simp only [i1, i2]

/-- The fuel of `FindAllStringSubmatch` is enough. -/
theorem findAll_fuel_succ (re : Re) (n fuel : Nat) (s : List Char) (h : s.length < fuel) :
    re.findAll n (fuel + 1) s = re.findAll n fuel s := by
  induction fuel generalizing s with
  | zero => omega
  | succ fuel ih =>
    rw [Re.findAll]
    conv => rhs; rw [Re.findAll]
    cases hf : re.find n s with
    | none => rfl
    | some r =>
      simp only []
      by_cases hl : r.2.length < s.length
      · rw [if_pos hl, if_pos hl, ih _ (by omega)]
      · rw [if_neg hl, if_neg hl]

/-- A successful iteration ends in a call of its continuation, on a suffix of the input and on
capture slots of the same number. -/
theorem starLoop_some (m : List Char → Caps → Cont → Option MatchResult)
    (hm : ∀ s c (k : Cont) r, m s c k = some r →
      ∃ s1 c1, k s1 c1 = some r ∧ c1.length = c.length ∧ s1.length ≤ s.length)
    (n : Nat) (s : List Char) (c : Caps) (k : Cont) (r : MatchResult)
    (h : starLoop m n s c k = some r) :
    ∃ s1 c1, k s1 c1 = some r ∧ c1.length = c.length ∧ s1.length ≤ s.length := by
  induction n generalizing s c with
  | zero => exact ⟨s, c, h, rfl, le_refl _⟩
  | succ n ih =>
    unfold starLoop at h
    split at h
    · rename_i r1 hr
      cases h
      obtain ⟨s1, c1, h1, h2, h3⟩ := hm _ _ _ _ hr
      split at h1
      · obtain ⟨s2, c2, g1, g2, g3⟩ := ih _ _ h1
        exact ⟨s2, c2, g1, by omega, by omega⟩
      · cases h1
    · exact ⟨s, c, h, rfl, le_refl _⟩

/-- A successful match ends in a call of its continuation, on a suffix of the input and on
capture slots of the same number. -/
theorem run_some (a : Re) (s : List Char) (c : Caps) (k : Cont) (r : MatchResult)
    (h : a.run s c k = some r) :
    ∃ s1 c1, k s1 c1 = some r ∧ c1.length = c.length ∧ s1.length ≤ s.length := by
  induction a generalizing s c k r with
  | cls p =>
    cases s with
    | nil => cases h
    | cons x t =>
      rw [run_cls_cons] at h
      split at h
      · exact ⟨t, c, h, rfl, by simp⟩
      · cases h
  | seq a b iha ihb =>
    rw [run_seq] at h
    obtain ⟨s1, c1, h1, h2, h3⟩ := iha _ _ _ _ h
    obtain ⟨s2, c2, g1, g2, g3⟩ := ihb _ _ _ _ h1
    exact ⟨s2, c2, g1, by omega, by omega⟩
  | alt a b iha ihb =>
    rw [run_alt] at h
    split at h
    · rename_i r1 hr
      cases h
      exact iha _ _ _ _ hr
    · exact ihb _ _ _ _ h
  | star a iha =>
    rw [run_star] at h
    exact starLoop_some _ (fun s c k r h => iha s c k r h) _ _ _ _ _ h
  | cap i a iha =>
    rw [run_cap] at h
    obtain ⟨s1, c1, h1, h2, h3⟩ := iha _ _ _ _ h
    exact ⟨s1, _, h1, by simp [h2], h3⟩

/-- The sub-matches of a match are one more than the capture groups, and the match leaves a
suffix of the input. -/
theorem matchAt_some (re : Re) (n : Nat) (s : List Char) (r : MatchResult)
    (h : re.matchAt n s = some r) : r.1.length = n + 1 ∧ r.2.length ≤ s.length := by
  obtain ⟨s1, c1, h1, h2, h3⟩ := run_some _ _ _ _ _ h
  cases h1
  simp only [List.length_set, List.length_replicate] at h2
  exact ⟨h2, h3⟩

theorem find_some (re : Re) (n : Nat) (s : List Char) (r : MatchResult)
    (h : re.find n s = some r) : r.1.length = n + 1 ∧ r.2.length ≤ s.length := by
  induction s with
  | nil => exact matchAt_some re n [] r h
  | cons x t ih =>
    simp only [Re.find] at h
    split at h
    · rename_i r1 hr
      cases h
      exact matchAt_some re n _ _ hr
    · obtain ⟨h1, h2⟩ := ih h
      exact ⟨h1, by simp only [List.length_cons]; omega⟩

/-- The method `FindStringSubmatch` returns `nil` or one entry for each capture group besides the
whole match. -/
theorem FindStringSubmatch_length (re : Re) (n : Nat) (s : String) :
    re.FindStringSubmatch n s = [] ∨ (re.FindStringSubmatch n s).length = n + 1 := by
  unfold Re.FindStringSubmatch
  split
  · rename_i r hr
    exact Or.inr (find_some re n _ r hr).1
  · exact Or.inl rfl

/-- Every match returned by `FindAllStringSubmatch` has one entry for each capture group besides
the whole match. -/
theorem findAll_length (re : Re) (n fuel : Nat) (s : List Char) :
    ∀ m ∈ re.findAll n fuel s, m.length = n + 1 := by
  induction fuel generalizing s with
  | zero => simp [Re.findAll]
  | succ fuel ih =>
    intro m hm
    simp only [Re.findAll] at hm
    split at hm
    · cases hm
    · rename_i r hr
      simp only [List.mem_cons] at hm
      rcases hm with hm | hm
      · subst hm; exact (find_some re n s r hr).1
      · split at hm
        · exact ih _ m hm
        · cases hm

/-- An identity pattern finds no value exactly when it has no match in the text. -/
theorem foundValue_eq_none_iff (re : Re) (text : String) :
    foundValue re text = none ↔ re.find 1 text.data = none := by
  unfold foundValue Re.FindStringSubmatch
  cases hf : re.find 1 text.data with
  | none => simp
  | some r =>
    have hl := (find_some re 1 _ r hf).1
    simp only [List.get?_eq_none, reduceCtorEq, iff_false, not_le]
    omega

/-! ## Letter case -/

theorem inRun_iff (lo hi step n : Nat) :
    inRun lo hi step n = true ↔ lo ≤ n ∧ n ≤ hi ∧ (n - lo) % step = 0 := by
  simp [inRun, Nat.ble_eq, Nat.beq_eq_true_eq]

theorem runAll_sound (p : Nat → Nat → Bool) (lo hi step plus minus : Nat)
    (h : runAll p (lo, hi, step, plus, minus) = true) (n : Nat)
    (hn : inRun lo hi step n = true) : p n (n + plus - minus) = true := by
  obtain ⟨h1, h2, h3⟩ := (inRun_iff _ _ _ _).mp hn
  simp only [runAll, Bool.and_eq_true, List.all_eq_true, List.mem_range] at h
  obtain ⟨hs, h⟩ := h
  have hs : 0 < step := by simpa [Nat.blt_eq] using hs
  have hk : (n - lo) / step < (hi - lo) / step + 1 :=
    Nat.lt_succ_of_le (Nat.div_le_div_right (by omega))
  have hd : (n - lo) / step * step = n - lo := Nat.div_mul_cancel (Nat.dvd_of_mod_eq_zero h3)
  have := h _ hk
  have e : lo + (n - lo) / step * step = n := by omega
  rwa [e] at this

/-- What holds of every entry of a list of runs and of the identity holds of the look-up. -/
theorem caseLookup_all (P : Nat → Nat → Prop) (p : Nat → Nat → Bool)
    (hp : ∀ n v, p n v = true → P n v) (h0 : ∀ n, P n n) (b : List CaseRun)
    (hb : b.all (runAll p) = true) (n : Nat) : P n (caseLookup b n) := by
  induction b with
  | nil => exact h0 n
  | cons r rest ih =>
    obtain ⟨lo, hi, step, plus, minus⟩ := r
    simp only [List.all_cons, Bool.and_eq_true] at hb
    simp only [caseLookup, caseRun]
    cases hr : inRun lo hi step n with
    | true => exact hp _ _ (runAll_sound p lo hi step plus minus hb.1 n hr)
    | false => exact ih hb.2

theorem tableAll_sound (P : Nat → Nat → Prop) (p : Nat → Nat → Bool)
    (hp : ∀ n v, p n v = true → P n v) (h0 : ∀ n, P n n) (t : List (List CaseRun))
    (ht : tableAll p t = true) (f : Nat → Nat)
    (hf : ∀ n, f n = n ∨ ∃ b ∈ t, f n = caseLookup b n) (n : Nat) : P n (f n) := by
  rcases hf n with h | ⟨b, hb, h⟩
  · rw [h]; exact h0 n
  · rw [h]
    refine caseLookup_all P p hp h0 b ?_ n
    simp only [tableAll, List.all_eq_true] at ht
    exact List.all_eq_true.mpr (ht b hb)

theorem upperTail_cases (n : Nat) :
    upperTail n = n ∨ ∃ b ∈ upperRuns, upperTail n = caseLookup b n := by
  unfold upperTail
  cases Nat.ble n 0x188
  case true => exact Or.inr ⟨upperRuns.getD 0 [], by decide, rfl⟩
  rw [cond_false]
  cases Nat.ble n 0x1BF
  case true => exact Or.inr ⟨upperRuns.getD 1 [], by decide, rfl⟩
  rw [cond_false]
  cases Nat.ble n 0x233
  case true => exact Or.inr ⟨upperRuns.getD 2 [], by decide, rfl⟩
  rw [cond_false]
  cases Nat.ble n 0x260
  case true => exact Or.inr ⟨upperRuns.getD 3 [], by decide, rfl⟩
  rw [cond_false]
  cases Nat.ble n 0x27D
  case true => exact Or.inr ⟨upperRuns.getD 4 [], by decide, rfl⟩
  rw [cond_false]
  cases Nat.ble n 0x377
  case true => exact Or.inr ⟨upperRuns.getD 5 [], by decide, rfl⟩
  rw [cond_false]
  cases Nat.ble n 0x3EF
  case true => exact Or.inr ⟨upperRuns.getD 6 [], by decide, rfl⟩
  rw [cond_false]
  cases Nat.ble n 0x52F
  case true => exact Or.inr ⟨upperRuns.getD 7 [], by decide, rfl⟩
  rw [cond_false]
  cases Nat.ble n 0x1D7D
  case true => exact Or.inr ⟨upperRuns.getD 8 [], by decide, rfl⟩
  rw [cond_false]
  cases Nat.ble n 0x1F77
  case true => exact Or.inr ⟨upperRuns.getD 9 [], by decide, rfl⟩
  rw [cond_false]
  cases Nat.ble n 0x1FF3
  case true => exact Or.inr ⟨upperRuns.getD 10 [], by decide, rfl⟩
  rw [cond_false]
  cases Nat.ble n 0x2CF3
  case true => exact Or.inr ⟨upperRuns.getD 11 [], by decide, rfl⟩
  rw [cond_false]
  cases Nat.ble n 0xA7C3
  case true => exact Or.inr ⟨upperRuns.getD 12 [], by decide, rfl⟩
  rw [cond_false]
  cases Nat.ble n 0x105BC
  case true => exact Or.inr ⟨upperRuns.getD 13 [], by decide, rfl⟩
  rw [cond_false]
  cases Nat.ble n 0x1E943
  case true => exact Or.inr ⟨upperRuns.getD 14 [], by decide, rfl⟩
  rw [cond_false]
  exact Or.inl rfl

theorem orbitTail_cases (n : Nat) :
    orbitTail n = n ∨ ∃ b ∈ orbitRuns, orbitTail n = caseLookup b n := by
  unfold orbitTail
  cases Nat.ble n 0x199
  case true => exact Or.inr ⟨orbitRuns.getD 0 [], by decide, rfl⟩
  rw [cond_false]
  cases Nat.ble n 0x1DC
  case true => exact Or.inr ⟨orbitRuns.getD 1 [], by decide, rfl⟩
  rw [cond_false]
  cases Nat.ble n 0x243
  case true => exact Or.inr ⟨orbitRuns.getD 2 [], by decide, rfl⟩
  rw [cond_false]
  cases Nat.ble n 0x280
  case true => exact Or.inr ⟨orbitRuns.getD 3 [], by decide, rfl⟩
  rw [cond_false]
  cases Nat.ble n 0x3B9
  case true => exact Or.inr ⟨orbitRuns.getD 4 [], by decide, rfl⟩
  rw [cond_false]
  cases Nat.ble n 0x3EF
  case true => exact Or.inr ⟨orbitRuns.getD 5 [], by decide, rfl⟩
  rw [cond_false]
  cases Nat.ble n 0x4CE
  case true => exact Or.inr ⟨orbitRuns.getD 6 [], by decide, rfl⟩
  rw [cond_false]
  cases Nat.ble n 0x1E95
  case true => exact Or.inr ⟨orbitRuns.getD 7 [], by decide, rfl⟩
  rw [cond_false]
  cases Nat.ble n 0x1FB9
  case true => exact Or.inr ⟨orbitRuns.getD 8 [], by decide, rfl⟩
  rw [cond_false]
  cases Nat.ble n 0x2126
  case true => exact Or.inr ⟨orbitRuns.getD 9 [], by decide, rfl⟩
  rw [cond_false]
  cases Nat.ble n 0x2C6C
  case true => exact Or.inr ⟨orbitRuns.getD 10 [], by decide, rfl⟩
  rw [cond_false]
  cases Nat.ble n 0xA649
  case true => exact Or.inr ⟨orbitRuns.getD 11 [], by decide, rfl⟩
  rw [cond_false]
  cases Nat.ble n 0xA7AA
  case true => exact Or.inr ⟨orbitRuns.getD 12 [], by decide, rfl⟩
  rw [cond_false]
  cases Nat.ble n 0xA7D9
  case true => exact Or.inr ⟨orbitRuns.getD 13 [], by decide, rfl⟩
  rw [cond_false]
  cases Nat.ble n 0x16E7F
  case true => exact Or.inr ⟨orbitRuns.getD 14 [], by decide, rfl⟩
  rw [cond_false]
  cases Nat.ble n 0x1E943
  case true => exact Or.inr ⟨orbitRuns.getD 15 [], by decide, rfl⟩
  rw [cond_false]
  exact Or.inl rfl

theorem caseFoldTail_cases (n : Nat) :
    caseFoldTail n = n ∨ ∃ b ∈ caseFoldRuns, caseFoldTail n = caseLookup b n := by
  unfold caseFoldTail
  cases Nat.ble n 0x187
  case true => exact Or.inr ⟨caseFoldRuns.getD 0 [], by decide, rfl⟩
  rw [cond_false]
  cases Nat.ble n 0x19F
  case true => exact Or.inr ⟨caseFoldRuns.getD 1 [], by decide, rfl⟩
  rw [cond_false]
  cases Nat.ble n 0x1C5
  case true => exact Or.inr ⟨caseFoldRuns.getD 2 [], by decide, rfl⟩
  rw [cond_false]
  cases Nat.ble n 0x23B
  case true => exact Or.inr ⟨caseFoldRuns.getD 3 [], by decide, rfl⟩
  rw [cond_false]
  cases Nat.ble n 0x38C
  case true => exact Or.inr ⟨caseFoldRuns.getD 4 [], by decide, rfl⟩
  rw [cond_false]
  cases Nat.ble n 0x3F5
  case true => exact Or.inr ⟨caseFoldRuns.getD 5 [], by decide, rfl⟩
  rw [cond_false]
  cases Nat.ble n 0x10C7
  case true => exact Or.inr ⟨caseFoldRuns.getD 6 [], by decide, rfl⟩
  rw [cond_false]
  cases Nat.ble n 0x1E9B
  case true => exact Or.inr ⟨caseFoldRuns.getD 7 [], by decide, rfl⟩
  rw [cond_false]
  cases Nat.ble n 0x1FBB
  case true => exact Or.inr ⟨caseFoldRuns.getD 8 [], by decide, rfl⟩
  rw [cond_false]
  cases Nat.ble n 0x212A
  case true => exact Or.inr ⟨caseFoldRuns.getD 9 [], by decide, rfl⟩
  rw [cond_false]
  cases Nat.ble n 0x2C6F
  case true => exact Or.inr ⟨caseFoldRuns.getD 10 [], by decide, rfl⟩
  rw [cond_false]
  cases Nat.ble n 0xA786
  case true => exact Or.inr ⟨caseFoldRuns.getD 11 [], by decide, rfl⟩
  rw [cond_false]
  cases Nat.ble n 0xA7C2
  case true => exact Or.inr ⟨caseFoldRuns.getD 12 [], by decide, rfl⟩
  rw [cond_false]
  cases Nat.ble n 0x10594
  case true => exact Or.inr ⟨caseFoldRuns.getD 13 [], by decide, rfl⟩
  rw [cond_false]
  cases Nat.ble n 0x1E921
  case true => exact Or.inr ⟨caseFoldRuns.getD 14 [], by decide, rfl⟩
  rw [cond_false]
  exact Or.inl rfl

/-- What holds of every ASCII code point, of every entry of the table and of the identity holds
of a mapping with an ASCII branch and a table. -/
theorem code_all (P : Nat → Nat → Prop) (p : Nat → Nat → Bool)
    (hp : ∀ n v, p n v = true → P n v) (h0 : ∀ n, P n n) (A T : Nat → Nat)
    (t : List (List CaseRun)) (hT : ∀ n, T n = n ∨ ∃ b ∈ t, T n = caseLookup b n)
    (hA : (List.range 128).all (fun n => p n (A n)) = true) (ht : tableAll p t = true)
    (n : Nat) : P n (bif Nat.ble n 127 then A n else T n) := by
  cases hn : Nat.ble n 127 with
  | true =>
    rw [cond_true]
    have : n < 128 := Nat.lt_succ_of_le (Nat.le_of_ble_eq_true hn)
    exact hp _ _ (List.all_eq_true.mp hA n (List.mem_range.mpr this))
  | false =>
    rw [cond_false]
    exact tableAll_sound P p hp h0 t ht T hT n

set_option maxRecDepth 100000 in
theorem upperCode_valid (n : Nat) (h : validCode n = true) : validCode (upperCode n) = true :=
  code_all (fun n v => validCode n = true → validCode v = true) (fun _ v => validCode v)
    (fun _ _ hv _ => hv) (fun _ hn => hn) asciiUpperCode upperTail upperRuns upperTail_cases
    (by decide!) (by decide!) n h

set_option maxRecDepth 100000 in
theorem foldCode_valid (n : Nat) (h : validCode n = true) : validCode (foldCode n) = true :=
  code_all (fun n v => validCode n = true → validCode v = true) (fun _ v => validCode v)
    (fun _ _ hv _ => hv) (fun _ hn => hn) asciiUpperCode orbitTail orbitRuns orbitTail_cases
    (by decide!) (by decide!) n h

set_option maxRecDepth 100000 in
theorem caseFoldCode_valid (n : Nat) (h : validCode n = true) :
    validCode (caseFoldCode n) = true :=
  code_all (fun n v => validCode n = true → validCode v = true) (fun _ v => validCode v)
    (fun _ _ hv _ => hv) (fun _ hn => hn) asciiLowerCode caseFoldTail caseFoldRuns caseFoldTail_cases
    (by decide!) (by decide!) n h

set_option maxRecDepth 100000 in
/-- The smallest rune of an orbit has the case folding of every rune of the orbit. -/
theorem caseFoldCode_foldCode (n : Nat) : caseFoldCode (foldCode n) = caseFoldCode n :=
  code_all (fun n v => caseFoldCode v = caseFoldCode n)
    (fun n v => Nat.beq (caseFoldCode v) (caseFoldCode n))
    (fun _ _ h => Nat.eq_of_beq_eq_true h) (fun _ => rfl) asciiUpperCode orbitTail orbitRuns orbitTail_cases
    (by decide!) (by decide!) n

set_option maxRecDepth 100000 in
/-- A rune and its case folding are in the same orbit. -/
theorem foldCode_caseFoldCode (n : Nat) : foldCode (caseFoldCode n) = foldCode n :=
  code_all (fun n v => foldCode v = foldCode n)
    (fun n v => Nat.beq (foldCode v) (foldCode n))
    (fun _ _ h => Nat.eq_of_beq_eq_true h) (fun _ => rfl) asciiLowerCode caseFoldTail caseFoldRuns
    caseFoldTail_cases (by decide!) (by decide!) n

set_option maxRecDepth 100000 in
/-- Upper-casing keeps the case folding of a rune, except for U+0131 (dotless i). -/
theorem caseFoldCode_upperCode (n : Nat) (h : n ≠ 0x131) :
    caseFoldCode (upperCode n) = caseFoldCode n :=
  code_all (fun n v => n ≠ 0x131 → caseFoldCode v = caseFoldCode n)
    (fun n v => Nat.beq n 0x131 || Nat.beq (caseFoldCode v) (caseFoldCode n))
    (fun n v h hn => by
      rcases Bool.or_eq_true _ _ ▸ h with h1 | h1
      · exact absurd (Nat.eq_of_beq_eq_true h1) hn
      · exact Nat.eq_of_beq_eq_true h1)
    (fun _ _ => rfl) asciiUpperCode upperTail upperRuns upperTail_cases (by decide!) (by decide!) n h

set_option maxRecDepth 100000 in
/-- Only `I` and `i` fold to `i`. -/
theorem caseFoldCode_eq_i (n : Nat) (h : caseFoldCode n = 0x69) : n = 0x49 ∨ n = 0x69 :=
  code_all (fun n v => v = 0x69 → n = 0x49 ∨ n = 0x69)
    (fun n v => !(Nat.beq v 0x69) || (Nat.beq n 0x49 || Nat.beq n 0x69))
    (fun n v h hv => by
      subst hv
      simp only [Nat.beq_refl, Bool.not_true, Bool.false_or, Bool.or_eq_true] at h
      rcases h with h | h
      · exact Or.inl (Nat.eq_of_beq_eq_true h)
      · exact Or.inr (Nat.eq_of_beq_eq_true h))
    (fun _ h => Or.inr h) asciiLowerCode caseFoldTail caseFoldRuns caseFoldTail_cases
    (by decide!) (by decide!) n h

set_option maxRecDepth 100000 in
/-- Only U+0131 folds to U+0131. -/
theorem caseFoldCode_eq_dotless (n : Nat) (h : caseFoldCode n = 0x131) : n = 0x131 :=
  code_all (fun n v => v = 0x131 → n = 0x131)
    (fun n v => !(Nat.beq v 0x131) || Nat.beq n 0x131)
    (fun n v h hv => by
      subst hv
      simp only [Nat.beq_refl, Bool.not_true, Bool.false_or] at h
      exact Nat.eq_of_beq_eq_true h)
    (fun _ h => h) asciiLowerCode caseFoldTail caseFoldRuns caseFoldTail_cases
    (by decide!) (by decide!) n h

theorem toNat_inj (a b : Char) (h : a.toNat = b.toNat) : a = b := by
  rw [← Char.ofNat_toNat a, ← Char.ofNat_toNat b, h]

theorem validCode_iff (n : Nat) : validCode n = true ↔ n.isValidChar := by
  simp [validCode, Nat.isValidChar, Nat.blt_eq]

theorem toNat_ofNat_of_valid (n : Nat) (h : validCode n = true) : (Char.ofNat n).toNat = n := by
  have hv : n.isValidChar := (validCode_iff n).mp h
  simp only [Char.ofNat, hv, dite_true, Char.ofNatAux, Char.toNat]
  rfl

theorem toNat_ofNat_of_lt (n : Nat) (h : n < 0xD800) : (Char.ofNat n).toNat = n :=
  toNat_ofNat_of_valid n ((validCode_iff n).mpr (Or.inl h))

theorem validCode_toNat (c : Char) : validCode c.toNat = true :=
  (validCode_iff _).mpr c.valid

theorem toNat_upperRune (c : Char) : (upperRune c).toNat = upperCode c.toNat :=
  toNat_ofNat_of_valid _ (upperCode_valid _ (validCode_toNat c))

theorem toNat_foldKey (c : Char) : (foldKey c).toNat = foldCode c.toNat :=
  toNat_ofNat_of_valid _ (foldCode_valid _ (validCode_toNat c))

theorem toNat_caseFold (c : Char) : (caseFold c).toNat = caseFoldCode c.toNat :=
  toNat_ofNat_of_valid _ (caseFoldCode_valid _ (validCode_toNat c))

theorem eq_iff_toNat (a b : Char) : a = b ↔ a.toNat = b.toNat :=
  ⟨fun h => by rw [h], toNat_inj a b⟩

/-- Two code points are in the same orbit of `unicode.SimpleFold` exactly when they have the
same simple case folding. -/
theorem foldCode_eq_iff (p q : Nat) : foldCode p = foldCode q ↔ caseFoldCode p = caseFoldCode q := by
  constructor
  · intro h
    rw [← caseFoldCode_foldCode p, ← caseFoldCode_foldCode q, h]
  · intro h
    rw [← foldCode_caseFoldCode p, ← foldCode_caseFoldCode q, h]

theorem upperCode_dotless : upperCode 0x131 = 0x49 := by decide

theorem caseFoldCode_I : caseFoldCode 0x49 = 0x69 := by decide

theorem caseFoldCode_dotless : caseFoldCode 0x131 = 0x131 := by decide

theorem sameKey_code_dotless (b : Nat) (hb : b ≠ 0x131) :
    foldCode (upperCode 0x131) = foldCode (upperCode b) ↔
      upperCode 0x131 = upperCode b ∨ caseFoldCode 0x131 = caseFoldCode b := by
  rw [foldCode_eq_iff, caseFoldCode_upperCode b hb, upperCode_dotless, caseFoldCode_I,
    caseFoldCode_dotless]
  constructor
  · intro h
    left
    rcases caseFoldCode_eq_i b h.symm with rfl | rfl <;> decide
  · rintro (h | h)
    · rw [← caseFoldCode_upperCode b hb, ← h]
      decide
    · exact absurd (caseFoldCode_eq_dotless b h.symm) hb

/-- On code points: the keys `foldCode (upperCode ·)` that `IsEqual` compares are equal exactly
when the upper cases are equal or the simple case foldings are equal. -/
theorem sameKey_code (a b : Nat) :
    foldCode (upperCode a) = foldCode (upperCode b) ↔
      upperCode a = upperCode b ∨ caseFoldCode a = caseFoldCode b := by
  by_cases ha : a = 0x131
  · by_cases hb : b = 0x131
    · subst ha hb; simp
    · subst ha; exact sameKey_code_dotless b hb
  · by_cases hb : b = 0x131
    · subst hb
      have := sameKey_code_dotless a ha
      constructor
      · intro h
        rcases this.mp h.symm with h1 | h1
        · exact Or.inl h1.symm
        · exact Or.inr h1.symm
      · rintro (h | h)
        · exact (this.mpr (Or.inl h.symm)).symm
        · exact (this.mpr (Or.inr h.symm)).symm
    · rw [foldCode_eq_iff, caseFoldCode_upperCode a ha, caseFoldCode_upperCode b hb]
      constructor
      · intro h; exact Or.inr h
      · rintro (h | h)
        · rw [← caseFoldCode_upperCode a ha, ← caseFoldCode_upperCode b hb, h]
        · exact h

/-- Two runes have the same key `foldKey (upperRune ·)` exactly when they have the same upper
case or the same simple case folding. -/
theorem sameKey_iff (x y : Char) :
    foldKey (upperRune x) = foldKey (upperRune y) ↔
      upperRune x = upperRune y ∨ caseFold x = caseFold y := by
  rw [eq_iff_toNat, eq_iff_toNat (upperRune x), eq_iff_toNat (caseFold x), toNat_foldKey,
    toNat_foldKey, toNat_upperRune, toNat_upperRune, toNat_caseFold, toNat_caseFold]
  exact sameKey_code x.toNat y.toNat

theorem upperCode_ascii (n : Nat) (h : n < 128) :
    upperCode n = if 97 ≤ n ∧ n ≤ 122 then n - 32 else n := by
  have h1 : Nat.ble n 127 = true := Nat.ble_eq_true_of_le (by omega)
  unfold upperCode asciiUpperCode
  rw [h1, cond_true]
  by_cases h2 : 97 ≤ n ∧ n ≤ 122
  · rw [if_pos h2, Nat.ble_eq_true_of_le h2.1, Nat.ble_eq_true_of_le h2.2]; rfl
  · rw [if_neg h2]
    cases h3 : Nat.ble 97 n with
    | false => rfl
    | true =>
      cases h4 : Nat.ble n 122 with
      | false => rfl
      | true => exact absurd ⟨Nat.le_of_ble_eq_true h3, Nat.le_of_ble_eq_true h4⟩ h2

theorem foldCode_ascii (n : Nat) (h : n < 128) :
    foldCode n = if 97 ≤ n ∧ n ≤ 122 then n - 32 else n := by
  have h1 : Nat.ble n 127 = true := Nat.ble_eq_true_of_le (by omega)
  have := upperCode_ascii n h
  unfold upperCode at this
  unfold foldCode
  rw [h1, cond_true] at this ⊢
  exact this

/-- On ASCII runes the key that `IsEqual` compares is the upper case of the rune, and two keys
are equal exactly when the runes have the same ASCII lower case. -/
theorem sameKey_ascii (x y : Char) (hx : x.toNat < 128) (hy : y.toNat < 128) :
    foldKey (upperRune x) = foldKey (upperRune y) ↔ asciiLower x = asciiLower y := by
  rw [eq_iff_toNat, eq_iff_toNat (asciiLower x), toNat_foldKey, toNat_foldKey, toNat_upperRune,
    toNat_upperRune, upperCode_ascii _ hx, upperCode_ascii _ hy]
  have lx : (asciiLower x).toNat = if 65 ≤ x.toNat ∧ x.toNat ≤ 90 then x.toNat + 32 else x.toNat := by
    unfold asciiLower
    split
    · exact toNat_ofNat_of_lt _ (by omega)
    · rfl
  have ly : (asciiLower y).toNat = if 65 ≤ y.toNat ∧ y.toNat ≤ 90 then y.toNat + 32 else y.toNat := by
    unfold asciiLower
    split
    · exact toNat_ofNat_of_lt _ (by omega)
    · rfl
  rw [lx, ly]
  have fx : ∀ n, n < 128 → foldCode (if 97 ≤ n ∧ n ≤ 122 then n - 32 else n) =
      if 97 ≤ n ∧ n ≤ 122 then n - 32 else n := by
    intro n hn
    rw [foldCode_ascii _ (by split <;> omega)]
    split_ifs <;> omega
  rw [fx _ hx, fx _ hy]
  split_ifs <;> omega

theorem map_eq_map_iff_forall₂ {α β : Type} (f : α → β) (l1 l2 : List α) :
    l1.map f = l2.map f ↔ List.Forall₂ (fun x y => f x = f y) l1 l2 := by
  induction l1 generalizing l2 with
  | nil =>
    cases l2 with
    | nil => simp
    | cons b l2 => simp
  | cons a l1 ih =>
    cases l2 with
    | nil => simp
    | cons b l2 => simp [ih]

/-- The method `IsEqual` compares the hosts ignoring letter case and the ports. -/
theorem IsEqual_iff (a b : ServerAddr) :
    a.IsEqual b = true ↔ equalIgnoringCase a.Addr b.Addr ∧ a.Port = b.Port := by
  unfold ServerAddr.IsEqual EqualFold ToUpper equalIgnoringCase
  simp only [Bool.and_eq_true, beq_iff_eq, List.map_map]
  rw [map_eq_map_iff_forall₂]
  have : (fun x y => (foldKey ∘ upperRune) x = (foldKey ∘ upperRune) y) = sameLetter := by
    funext x y
    exact propext (sameKey_iff x y)
  rw [this]

theorem IsEqual_of_eq (a b : ServerAddr) (h1 : a.Addr = b.Addr) (h2 : a.Port = b.Port) :
    a.IsEqual b = true := by
  simp [ServerAddr.IsEqual, EqualFold, h1, h2]

/-- An ASCII letter and its lower case have the same upper case. -/
theorem upperRune_asciiLower (c : Char) : upperRune (asciiLower c) = upperRune c := by
  unfold asciiLower
  by_cases h : 65 ≤ c.toNat ∧ c.toNat ≤ 90
  · rw [if_pos h]
    have h1 : (Char.ofNat (c.toNat + 32)).toNat = c.toNat + 32 := toNat_ofNat_of_lt _ (by omega)
    apply toNat_inj
    rw [toNat_upperRune, toNat_upperRune, h1, upperCode_ascii _ (by omega),
      upperCode_ascii _ (by omega), if_pos (by omega), if_neg (by omega)]
    omega
  · rw [if_neg h]

/-- Texts that agree up to the case of their ASCII letters have the same upper case. -/
theorem ToUpper_of_asciiLower (s t : String)
    (h : s.data.map asciiLower = t.data.map asciiLower) : ToUpper s = ToUpper t := by
  unfold ToUpper
  congr 1
  have := congrArg (List.map upperRune) h
  simpa [List.map_map, Function.comp_def, upperRune_asciiLower] using this

theorem forall₂_congr_mem {α : Type} (R S : α → α → Prop) (l1 l2 : List α)
    (h : ∀ x ∈ l1, ∀ y ∈ l2, (R x y ↔ S x y)) :
    List.Forall₂ R l1 l2 ↔ List.Forall₂ S l1 l2 := by
  induction l1 generalizing l2 with
  | nil =>
    cases l2 with
    | nil => simp
    | cons b l2 => simp
  | cons a l1 ih =>
    cases l2 with
    | nil => simp
    | cons b l2 =>
      simp only [List.forall₂_cons]
      rw [h a (List.mem_cons_self _ _) b (List.mem_cons_self _ _),
        ih l2 (fun x hx y hy => h x (List.mem_cons_of_mem _ hx) y (List.mem_cons_of_mem _ hy))]

/-- Away from U+0131 the keys that `IsEqual` compares are equal exactly when the simple case
foldings are. -/
theorem sameKey_caseFold (x y : Char) (hx : x.toNat ≠ 0x131) (hy : y.toNat ≠ 0x131) :
    foldKey (upperRune x) = foldKey (upperRune y) ↔ caseFold x = caseFold y := by
  rw [eq_iff_toNat, eq_iff_toNat (caseFold x), toNat_foldKey, toNat_foldKey, toNat_upperRune,
    toNat_upperRune, toNat_caseFold, toNat_caseFold, foldCode_eq_iff,
    caseFoldCode_upperCode _ hx, caseFoldCode_upperCode _ hy]

/-- The method `IsEqual`, rune by rune. -/
theorem IsEqual_iff_keys (a b : ServerAddr) :
    a.IsEqual b = true ↔
      List.Forall₂ (fun x y => foldKey (upperRune x) = foldKey (upperRune y))
        a.Addr.data b.Addr.data ∧ a.Port = b.Port := by
  unfold ServerAddr.IsEqual EqualFold ToUpper
  simp only [Bool.and_eq_true, beq_iff_eq, List.map_map]
  rw [map_eq_map_iff_forall₂]
  rfl

/-- On hosts without U+0131 the method `IsEqual` is the caseless match of Unicode (equal simple
case foldings) together with the equality of the ports. -/
theorem IsEqual_iff_caseFold (a b : ServerAddr) (ha : ∀ x ∈ a.Addr.data, x.toNat ≠ 0x131)
    (hb : ∀ y ∈ b.Addr.data, y.toNat ≠ 0x131) :
    a.IsEqual b = true ↔
      a.Addr.data.map caseFold = b.Addr.data.map caseFold ∧ a.Port = b.Port := by
  rw [IsEqual_iff_keys, map_eq_map_iff_forall₂,
    forall₂_congr_mem _ (fun x y => caseFold x = caseFold y) _ _
      (fun x hx y hy => sameKey_caseFold x y (ha x hx) (hb y hy))]

/-- On ASCII hosts the method `IsEqual` is the equality up to the case of the letters `A` to `Z`
together with the equality of the ports. -/
theorem IsEqual_iff_ascii (a b : ServerAddr) (ha : ∀ x ∈ a.Addr.data, x.toNat < 128)
    (hb : ∀ y ∈ b.Addr.data, y.toNat < 128) :
    a.IsEqual b = true ↔
      a.Addr.data.map asciiLower = b.Addr.data.map asciiLower ∧ a.Port = b.Port := by
  rw [IsEqual_iff_keys, map_eq_map_iff_forall₂,
    forall₂_congr_mem _ (fun x y => asciiLower x = asciiLower y) _ _
      (fun x hx y hy => sameKey_ascii x y (ha x hx) (hb y hy))]

/-- Hosts with the same simple case folding are equal ignoring letter case. -/
theorem equalIgnoringCase_of_caseFold (s t : String)
    (h : s.data.map caseFold = t.data.map caseFold) : equalIgnoringCase s t := by
  unfold equalIgnoringCase
  rw [map_eq_map_iff_forall₂] at h
  exact h.imp (fun _ _ e => Or.inr e)

/-- Hosts that differ in the case of ASCII letters only are equal ignoring letter case. -/
theorem equalIgnoringCase_of_asciiLower (s t : String)
    (h : s.data.map asciiLower = t.data.map asciiLower) : equalIgnoringCase s t := by
  unfold equalIgnoringCase
  rw [map_eq_map_iff_forall₂] at h
  refine h.imp (fun x y e => Or.inl ?_)
  rw [← upperRune_asciiLower x, ← upperRune_asciiLower y, e]

theorem DBAPrivilegeFromString_of_name (p : String × DBAPrivilege) (hp : p ∈ privilegeNames)
    (s : String) (h : ToUpper s = p.1) : DBAPrivilegeFromString s = p.2 := by
  simp only [privilegeNames, List.mem_cons, List.mem_singleton, List.not_mem_nil, or_false] at hp
  unfold DBAPrivilegeFromString
  rw [h]
  rcases hp with rfl | rfl | rfl | rfl | rfl | rfl | rfl <;> decide

theorem DBAPrivilegeFromString_default (s : String)
    (h : ∀ p ∈ privilegeNames, ToUpper s ≠ p.1) : DBAPrivilegeFromString s = NONE := by
  simp only [privilegeNames, List.forall_mem_cons, List.not_mem_nil, false_implies,
    implies_true, and_true] at h
  obtain ⟨h1, h2, h3, h4, h5, h6, h7⟩ := h
  unfold DBAPrivilegeFromString
  rw [if_neg h1, if_neg h2, if_neg h3, if_neg h4, if_neg h5, if_neg h6, if_neg h7]

/-! ## `AddServer` on lists of candidates -/

theorem AddServer_noDuplicates_step {W : Type} (info : DatabaseInfo W) (c : ServerAddr)
    (h : NoDuplicates info.Servers) : NoDuplicates (info.AddServer c).Servers := by
  unfold DatabaseInfo.AddServer
  split
  · exact h
  · rename_i hany
    unfold NoDuplicates at h ⊢
    simp only []
    rw [List.pairwise_append]
    refine ⟨h, List.pairwise_singleton _ _, ?_⟩
    intro a ha b hb
    simp only [List.mem_singleton] at hb
    subst hb
    rw [IsEqual_comm]
    cases hq : b.IsEqual a with
    | false => rfl
    | true => exact absurd (List.any_eq_true.mpr ⟨a, ha, hq⟩) hany

theorem addAll_noDuplicates {W : Type} (cs : List ServerAddr) (info : DatabaseInfo W)
    (h : NoDuplicates info.Servers) : NoDuplicates (addAll info cs).Servers := by
  induction cs generalizing info with
  | nil => exact h
  | cons c cs ih =>
    simp only [addAll, List.foldl_cons]
    exact ih _ (AddServer_noDuplicates_step info c h)

/-- Candidates equal to an endpoint the model already holds are not added. -/
theorem addAll_of_equal {W : Type} (cs : List ServerAddr) (info : DatabaseInfo W)
    (h : ∀ c ∈ cs, ∃ s ∈ info.Servers, c.IsEqual s = true) : addAll info cs = info := by
  induction cs with
  | nil => rfl
  | cons c cs ih =>
    have hc : info.AddServer c = info := by
      unfold DatabaseInfo.AddServer
      rw [if_pos (List.any_eq_true.mpr (h c (by simp)))]
    simp only [addAll, List.foldl_cons, hc]
    exact ih (fun x hx => h x (by simp [hx]))

/-- Of candidates that are pairwise equal under `IsEqual`, `AddServer` keeps the first only. -/
theorem addAll_empty_of_equal {W : Type} (c : ServerAddr) (cs : List ServerAddr)
    (h : ∀ x ∈ cs, x.IsEqual c = true) :
    (addAll (DatabaseInfo.empty W) (c :: cs)).Servers = [c] := by
  have h1 : (DatabaseInfo.empty W).AddServer c = { DatabaseInfo.empty W with Servers := [c] } := by
    simp [DatabaseInfo.AddServer, DatabaseInfo.empty]
  simp only [addAll, List.foldl_cons, h1]
  have := addAll_of_equal cs ({ DatabaseInfo.empty W with Servers := [c] } : DatabaseInfo W)
    (fun x hx => ⟨c, by simp, h x hx⟩)
  simp only [addAll] at this
  rw [this]

/-! ## The matcher is sound for the relation `Re.Sem` -/

theorem starLoop_sem (a : Re)
    (hm : ∀ s c (k : Cont) r, a.run s c k = some r →
      ∃ w s1 c1, s = w ++ s1 ∧ Re.Sem a w c c1 ∧ k s1 c1 = some r)
    (n : Nat) (s : List Char) (c : Caps) (k : Cont) (r : MatchResult)
    (h : starLoop a.run n s c k = some r) :
    ∃ w s1 c1, s = w ++ s1 ∧ Re.Sem (.star a) w c c1 ∧ k s1 c1 = some r := by
  induction n generalizing s c with
  | zero => exact ⟨[], s, c, rfl, Re.Sem.starNil a c, h⟩
  | succ n ih =>
    unfold starLoop at h
    split at h
    · rename_i r1 hr
      cases h
      obtain ⟨w1, s1, c1, e1, g1, h1⟩ := hm _ _ _ _ hr
      split at h1
      · obtain ⟨w2, s2, c2, e2, g2, h2⟩ := ih _ _ h1
        refine ⟨w1 ++ w2, s2, c2, ?_, Re.Sem.starCons a w1 w2 c c1 c2 g1 g2, h2⟩
        rw [e1, e2, List.append_assoc]
      · cases h1
    · exact ⟨[], s, c, rfl, Re.Sem.starNil a c, h⟩

/-- A successful run of the matcher is a match in the relational reading. -/
theorem run_sem (a : Re) (s : List Char) (c : Caps) (k : Cont) (r : MatchResult)
    (h : a.run s c k = some r) :
    ∃ w s1 c1, s = w ++ s1 ∧ Re.Sem a w c c1 ∧ k s1 c1 = some r := by
  induction a generalizing s c k r with
  | cls p =>
    cases s with
    | nil => cases h
    | cons x t =>
      rw [run_cls_cons] at h
      split at h
      · rename_i hp
        exact ⟨[x], t, c, rfl, Re.Sem.cls p x c hp, h⟩
      · cases h
  | seq a b iha ihb =>
    rw [run_seq] at h
    obtain ⟨w1, s1, c1, e1, g1, h1⟩ := iha _ _ _ _ h
    obtain ⟨w2, s2, c2, e2, g2, h2⟩ := ihb _ _ _ _ h1
    exact ⟨w1 ++ w2, s2, c2, by rw [e1, e2, List.append_assoc],
      Re.Sem.seq a b w1 w2 c c1 c2 g1 g2, h2⟩
  | alt a b iha ihb =>
    rw [run_alt] at h
    split at h
    · rename_i r1 hr
      cases h
      obtain ⟨w, s1, c1, e1, g1, h1⟩ := iha _ _ _ _ hr
      exact ⟨w, s1, c1, e1, Re.Sem.altLeft a b w c c1 g1, h1⟩
    · obtain ⟨w, s1, c1, e1, g1, h1⟩ := ihb _ _ _ _ h
      exact ⟨w, s1, c1, e1, Re.Sem.altRight a b w c c1 g1, h1⟩
  | star a iha =>
    rw [run_star] at h
    exact starLoop_sem a (fun s c k r h => iha s c k r h) _ _ _ _ _ h
  | cap i a iha =>
    rw [run_cap] at h
    obtain ⟨w, s1, c1, e1, g1, h1⟩ := iha _ _ _ _ h
    subst e1
    rw [take_append_length] at h1
    exact ⟨w, s1, _, rfl, Re.Sem.cap i a w c c1 g1, h1⟩


/-- Induction over the rounds of an iteration. -/
theorem sem_star_induction (a : Re) (P : List Char → Caps → Caps → Prop)
    (h0 : ∀ c, P [] c c)
    (hs : ∀ w1 w2 c c1 c2, Re.Sem a w1 c c1 → P w2 c1 c2 → P (w1 ++ w2) c c2)
    (w : List Char) (c c1 : Caps) (h : Re.Sem (.star a) w c c1) : P w c c1 := by
  generalize e : Re.star a = r at h
  induction h with
  | cls => cases e
  | seq => cases e
  | altLeft => cases e
  | altRight => cases e
  | starNil b c => exact h0 c
  | starCons b w1 w2 c c1 c2 g1 _ _ ih2 =>
    cases e
    exact hs w1 w2 c c1 c2 g1 (ih2 rfl)
  | cap => cases e

theorem sem_cls (p : Char → Bool) (w : List Char) (c c1 : Caps) (h : Re.Sem (.cls p) w c c1) :
    c1 = c ∧ ∃ x, w = [x] ∧ p x = true := by
  cases h with
  | cls _ x _ hp => exact ⟨rfl, x, rfl, hp⟩

theorem sem_seq (a b : Re) (w : List Char) (c c2 : Caps) (h : Re.Sem (.seq a b) w c c2) :
    ∃ w1 w2 c1, w = w1 ++ w2 ∧ Re.Sem a w1 c c1 ∧ Re.Sem b w2 c1 c2 := by
  cases h with
  | seq _ _ w1 w2 _ c1 _ g1 g2 => exact ⟨w1, w2, c1, rfl, g1, g2⟩

theorem sem_alt (a b : Re) (w : List Char) (c c1 : Caps) (h : Re.Sem (.alt a b) w c c1) :
    Re.Sem a w c c1 ∨ Re.Sem b w c c1 := by
  cases h with
  | altLeft _ _ _ _ _ g => exact Or.inl g
  | altRight _ _ _ _ _ g => exact Or.inr g

theorem sem_cap (i : Nat) (a : Re) (w : List Char) (c c2 : Caps)
    (h : Re.Sem (.cap i a) w c c2) :
    ∃ c1, Re.Sem a w c c1 ∧ c2 = c1.set i (String.mk w) := by
  cases h with
  | cap _ _ _ _ c1 g => exact ⟨c1, g, rfl⟩

theorem sem_star_cls (p : Char → Bool) (w : List Char) (c c1 : Caps)
    (h : Re.Sem (.star (.cls p)) w c c1) : c1 = c ∧ ∀ x ∈ w, p x = true := by
  refine sem_star_induction (.cls p) (fun w c c1 => c1 = c ∧ ∀ x ∈ w, p x = true) ?_ ?_ w c c1 h
  · intro c; exact ⟨rfl, by simp⟩
  · intro w1 w2 c c1 c2 g1 ⟨e2, h2⟩
    obtain ⟨e1, x, rfl, hx⟩ := sem_cls p w1 c c1 g1
    subst e1 e2
    refine ⟨rfl, ?_⟩
    intro y hy
    simp only [List.singleton_append, List.mem_cons] at hy
    rcases hy with rfl | hy
    · exact hx
    · exact h2 y hy

theorem sem_ws (w : List Char) (c c1 : Caps) (h : Re.Sem Re.ws w c c1) : c1 = c :=
  (sem_star_cls isSpace w c c1 h).1

theorem sem_lit (l : Char) (w : List Char) (c c1 : Caps) (h : Re.Sem (Re.lit l) w c c1) :
    c1 = c :=
  (sem_cls _ w c c1 h).1

theorem sem_plus_cls (p : Char → Bool) (w : List Char) (c c1 : Caps)
    (h : Re.Sem (Re.plus (.cls p)) w c c1) : c1 = c ∧ w ≠ [] ∧ ∀ x ∈ w, p x = true := by
  obtain ⟨w1, w2, c', rfl, g1, g2⟩ := sem_seq _ _ _ _ _ h
  obtain ⟨e1, x, rfl, hx⟩ := sem_cls p w1 c c' g1
  obtain ⟨e2, h2⟩ := sem_star_cls p w2 c' c1 g2
  subst e1 e2
  refine ⟨rfl, by simp, ?_⟩
  intro y hy
  simp only [List.singleton_append, List.mem_cons] at hy
  rcases hy with rfl | hy
  · exact hx
  · exact h2 y hy

theorem sem_word (key : List Char) (hk : key ≠ []) (w : List Char) (c c1 : Caps)
    (h : Re.Sem (Re.word key) w c c1) :
    c1 = c ∧ List.Forall₂ (fun l x => foldMatches l x = true) key w := by
  induction key generalizing w c c1 with
  | nil => exact absurd rfl hk
  | cons a key ih =>
    cases key with
    | nil =>
      simp only [Re.word, List.map_cons, List.map_nil, Re.seqs] at h
      obtain ⟨e1, x, rfl, hx⟩ := sem_cls _ w c c1 h
      exact ⟨e1, List.Forall₂.cons hx List.Forall₂.nil⟩
    | cons b key =>
      simp only [Re.word, List.map_cons, Re.seqs] at h
      obtain ⟨w1, w2, c', rfl, g1, g2⟩ := sem_seq _ _ _ _ _ h
      obtain ⟨e1, x, rfl, hx⟩ := sem_cls _ w1 c c' g1
      subst e1
      have := ih (by simp) w2 c' c1 (by simpa only [Re.word, List.map_cons] using g2)
      exact ⟨this.1, List.Forall₂.cons hx this.2⟩

/-- What an attribute of an address group does to the capture slots: slot `i` gets a spelling of
the key, slot `i + 1` a non-empty value of the admitted runes. -/
theorem sem_attributeRe (i : Nat) (key : List Char) (hk : key ≠ []) (p : Char → Bool)
    (w : List Char) (c c1 : Caps) (h : Re.Sem (attributeRe i key p) w c c1) :
    ∃ kw v, c1 = (c.set i (String.mk kw)).set (i + 1) (String.mk v) ∧
      List.Forall₂ (fun l x => foldMatches l x = true) key kw ∧ v ≠ [] ∧
      ∀ x ∈ v, p x = true := by
  simp only [attributeRe, Re.seqs] at h
  obtain ⟨_, _, a1, _, g1, h⟩ := sem_seq _ _ _ _ _ h
  obtain ⟨_, _, a2, _, g2, h⟩ := sem_seq _ _ _ _ _ h
  obtain ⟨kw, _, a3, _, g3, h⟩ := sem_seq _ _ _ _ _ h
  obtain ⟨_, _, a4, _, g4, h⟩ := sem_seq _ _ _ _ _ h
  obtain ⟨_, _, a5, _, g5, h⟩ := sem_seq _ _ _ _ _ h
  obtain ⟨_, _, a6, _, g6, h⟩ := sem_seq _ _ _ _ _ h
  obtain ⟨v, _, a7, _, g7, h⟩ := sem_seq _ _ _ _ _ h
  obtain ⟨_, _, a8, _, g8, h⟩ := sem_seq _ _ _ _ _ h
  obtain ⟨_, _, a9, _, g9, h⟩ := sem_seq _ _ _ _ _ h
  have e1 := sem_lit _ _ _ _ g1
  have e2 := sem_ws _ _ _ g2
  obtain ⟨b3, g3, e3⟩ := sem_cap _ _ _ _ _ g3
  obtain ⟨e3', hkw⟩ := sem_word key hk _ _ _ g3
  have e4 := sem_ws _ _ _ g4
  have e5 := sem_lit _ _ _ _ g5
  have e6 := sem_ws _ _ _ g6
  obtain ⟨b7, g7, e7⟩ := sem_cap _ _ _ _ _ g7
  obtain ⟨e7', hv, hpv⟩ := sem_plus_cls p _ _ _ g7
  have e8 := sem_ws _ _ _ g8
  have e9 := sem_lit _ _ _ _ g9
  have e10 := sem_ws _ _ _ h
  subst e1 e2 e3' e3 e4 e5 e6 e7' e7 e8 e9 e10
  exact ⟨kw, v, rfl, hkw, hv, hpv⟩


/-! ## The sub-matches of the address pattern, for every text -/

theorem foldMatches_upper (l x : Char) (hl : 65 ≤ l.toNat ∧ l.toNat ≤ 90 ∧ l.toNat ≠ 75)
    (h : foldMatches l x = true) : upperRune x = l := by
  apply toNat_inj
  rw [toNat_upperRune]
  simp only [foldMatches, Bool.or_eq_true, Bool.and_eq_true, beq_iff_eq, decide_eq_true_eq] at h
  rcases h with (((h | h) | h) | h) | h
  · subst h
    rw [upperCode_ascii _ (by omega), if_neg (by omega)]
  · rw [upperCode_ascii _ (by omega), if_pos (by omega)]
    omega
  · omega
  · rw [h.2]
    have : upperCode 0x17F = 83 := by decide
    rw [this]
    omega
  · omega

theorem word_upper (key kw : List Char)
    (hkey : ∀ l ∈ key, 65 ≤ l.toNat ∧ l.toNat ≤ 90 ∧ l.toNat ≠ 75)
    (h : List.Forall₂ (fun l x => foldMatches l x = true) key kw) :
    ToUpper (String.mk kw) = String.mk key := by
  unfold ToUpper
  congr 1
  induction h with
  | nil => rfl
  | @cons l x key kw hx _ ih =>
    simp only [List.map_cons, List.cons.injEq]
    exact ⟨foldMatches_upper l x (hkey l (List.mem_cons_self _ _)) hx,
      ih (fun l hl => hkey l (List.mem_cons_of_mem _ hl))⟩

theorem SlotPair_of_attribute (key kw v : List Char) (p : Char → Bool)
    (hkey : ∀ l ∈ key, 65 ≤ l.toNat ∧ l.toNat ≤ 90 ∧ l.toNat ≠ 75)
    (h : List.Forall₂ (fun l x => foldMatches l x = true) key kw) (hv : v ≠ [])
    (hp : ∀ x ∈ v, p x = true) : SlotPair (String.mk kw) (String.mk v) (String.mk key) p := by
  refine Or.inr ⟨word_upper key kw hkey h, ?_, hp⟩
  intro e
  exact hv (congrArg String.data e)

/-- One round of the iteration of the address pattern keeps the shape of the slots. -/
theorem sem_attributeChoice (w : List Char) (c c1 : Caps)
    (h : Re.Sem (Re.cap 1 attributeChoice) w c c1) (hc : AddressSlots c) : AddressSlots c1 := by
  obtain ⟨c', g, rfl⟩ := sem_cap _ _ _ _ _ h
  obtain ⟨whole, last, hk, hv, pk, pv, ck, cv, qk, qv, rfl, h1, h2, h3, h4⟩ := hc
  unfold attributeChoice at g
  rcases sem_alt _ _ _ _ _ g with h | h
  · obtain ⟨kw, v, rfl, g1, g2, g3⟩ := sem_attributeRe _ _ (by simp) _ _ _ _ h
    exact ⟨whole, _, _, _, pk, pv, ck, cv, qk, qv, rfl,
      SlotPair_of_attribute _ kw v _ (by decide) g1 g2 g3, h2, h3, h4⟩
  rcases sem_alt _ _ _ _ _ h with h | h
  · obtain ⟨kw, v, rfl, g1, g2, g3⟩ := sem_attributeRe _ _ (by simp) _ _ _ _ h
    exact ⟨whole, _, hk, hv, _, _, ck, cv, qk, qv, rfl, h1,
      SlotPair_of_attribute _ kw v _ (by decide) g1 g2 g3, h3, h4⟩
  rcases sem_alt _ _ _ _ _ h with h | h
  · obtain ⟨kw, v, rfl, g1, g2, g3⟩ := sem_attributeRe _ _ (by simp) _ _ _ _ h
    exact ⟨whole, _, hk, hv, pk, pv, _, _, qk, qv, rfl, h1, h2,
      SlotPair_of_attribute _ kw v _ (by decide) g1 g2 g3, h4⟩
  · obtain ⟨kw, v, rfl, g1, g2, g3⟩ := sem_attributeRe _ _ (by simp) _ _ _ _ h
    exact ⟨whole, _, hk, hv, pk, pv, ck, cv, _, _, rfl, h1, h2, h3,
      SlotPair_of_attribute _ kw v _ (by decide) g1 g2 g3⟩

/-- A match of the address pattern leaves slots of the expected shape. -/
theorem sem_connectionAddressRegexp (w : List Char) (c1 : Caps)
    (h : Re.Sem (Re.cap 0 connectionAddressRegexp) w (List.replicate (9 + 1) "") c1) :
    AddressSlots c1 := by
  obtain ⟨c', g0, rfl⟩ := sem_cap _ _ _ _ _ h
  simp only [connectionAddressRegexp, Re.seqs] at g0
  obtain ⟨_, _, a1, _, g1, h⟩ := sem_seq _ _ _ _ _ g0
  obtain ⟨_, _, a2, _, g2, h⟩ := sem_seq _ _ _ _ _ h
  obtain ⟨_, _, a3, _, g3, h⟩ := sem_seq _ _ _ _ _ h
  obtain ⟨_, _, a4, _, g4, h⟩ := sem_seq _ _ _ _ _ h
  obtain ⟨_, _, a5, _, g5, h⟩ := sem_seq _ _ _ _ _ h
  obtain ⟨_, _, a6, _, g6, h⟩ := sem_seq _ _ _ _ _ h
  obtain ⟨_, _, a7, _, g7, h⟩ := sem_seq _ _ _ _ _ h
  obtain ⟨_, _, a8, _, g8, h⟩ := sem_seq _ _ _ _ _ h
  have e1 := sem_lit _ _ _ _ g1
  have e2 := sem_ws _ _ _ g2
  have e3 := (sem_word _ (by simp) _ _ _ g3).1
  have e4 := sem_ws _ _ _ g4
  have e5 := sem_lit _ _ _ _ g5
  have e6 := sem_ws _ _ _ g6
  have e8 := sem_ws _ _ _ g8
  have e9 := sem_lit _ _ _ _ h
  subst e1 e2 e3 e4 e5 e6
  subst e9 e8
  have h0 : AddressSlots (List.replicate (9 + 1) "") :=
    ⟨"", "", "", "", "", "", "", "", "", "", rfl, Or.inl ⟨rfl, rfl⟩, Or.inl ⟨rfl, rfl⟩,
      Or.inl ⟨rfl, rfl⟩, Or.inl ⟨rfl, rfl⟩⟩
  obtain ⟨_, _, b, _, g, gs⟩ := sem_seq _ _ _ _ _ g7
  have hb := sem_attributeChoice _ _ _ g h0
  have hc : AddressSlots c' :=
    sem_star_induction _ (fun _ c c1 => AddressSlots c → AddressSlots c1) (fun _ hc => hc)
      (fun w1 w2 c c1 c2 g1 ih hc => ih (sem_attributeChoice w1 c c1 g1 hc)) _ _ _ gs hb
  obtain ⟨whole, last, hk, hv, pk, pv, ck, cv, qk, qv, rfl, h1, h2, h3, h4⟩ := hc
  exact ⟨_, last, hk, hv, pk, pv, ck, cv, qk, qv, rfl, h1, h2, h3, h4⟩

theorem matchAt_slots (s : List Char) (r : MatchResult)
    (h : connectionAddressRegexp.matchAt 9 s = some r) : AddressSlots r.1 := by
  obtain ⟨w, s1, c1, _, hs, hk⟩ := run_sem _ _ _ _ _ h
  cases hk
  exact sem_connectionAddressRegexp w c1 hs

theorem find_slots (s : List Char) (r : MatchResult)
    (h : connectionAddressRegexp.find 9 s = some r) : AddressSlots r.1 := by
  induction s with
  | nil => exact matchAt_slots [] r h
  | cons x t ih =>
    simp only [Re.find] at h
    split at h
    · rename_i r1 hr
      cases h
      exact matchAt_slots _ _ hr
    · exact ih h

theorem findAll_slots (fuel : Nat) (s : List Char) :
    ∀ m ∈ connectionAddressRegexp.findAll 9 fuel s, AddressSlots m := by
  induction fuel generalizing s with
  | zero => simp [Re.findAll]
  | succ fuel ih =>
    intro m hm
    simp only [Re.findAll] at hm
    split at hm
    · cases hm
    · rename_i r hr
      simp only [List.mem_cons] at hm
      rcases hm with hm | hm
      · subst hm; exact find_slots s r hr
      · split at hm
        · exact ih _ m hm
        · cases hm

/-- Every match that `ExtractServers` iterates over has the slot shape of the address pattern. -/
theorem FindAllStringSubmatch_slots (text : String) :
    ∀ m ∈ connectionAddressRegexp.FindAllStringSubmatch 9 text, AddressSlots m :=
  findAll_slots _ _


/-! ## The loops of `ExtractServers` on the sub-matches -/

theorem ne_empty_of_ToUpper (k key : String) (h : ToUpper k = key) (hk : key ≠ "") : k ≠ "" := by
  intro e
  subst e
  exact hk h.symm

/-- The inner loop on a match none of whose COMMUNITY value spells a key: the host, the port
and the protocol are read from the slots 3, 5 and 9. -/
theorem scanMatch_plain (m : List String) (hm : AddressSlots m) (hp : PlainMatch m) :
    scanMatch m m.length 2 { Protocol := "", Addr := "", Port := 1521 } =
      match matchPort m with
      | .error e => .done (.error e)
      | .ok p => .done (.ok { Protocol := m.getD 9 "", Addr := m.getD 3 "", Port := p }) := by
  obtain ⟨whole, last, hk, hv, pk, pv, ck, cv, qk, qv, rfl, h1, h2, h3, h4⟩ := hm
  obtain ⟨p1, p2, p3⟩ := hp
  simp only [List.getD_cons_succ, List.getD_cons_zero] at p1 p2 p3
  have e4 : ToUpper "" = "" := by decide
  have n1 : ("HOST" : String) ≠ "PROTOCOL" := by decide
  have n2 : ("HOST" : String) ≠ "PORT" := by decide
  have n3 : ("PORT" : String) ≠ "PROTOCOL" := by decide
  have n4 : ("" : String) ≠ "PROTOCOL" := by decide
  have n5 : ("" : String) ≠ "PORT" := by decide
  have n6 : ("" : String) ≠ "HOST" := by decide
  have n7 : ("COMMUNITY" : String) ≠ "PROTOCOL" := by decide
  have n8 : ("COMMUNITY" : String) ≠ "PORT" := by decide
  have n9 : ("COMMUNITY" : String) ≠ "HOST" := by decide
  rcases h1 with ⟨rfl, rfl⟩ | ⟨a1, -, -⟩ <;> rcases h2 with ⟨rfl, rfl⟩ | ⟨a2, -, -⟩ <;>
    rcases h3 with ⟨rfl, rfl⟩ | ⟨a3, -, -⟩ <;> rcases h4 with ⟨rfl, rfl⟩ | ⟨a4, -, -⟩ <;>
    (try have b2 := ne_empty_of_ToUpper _ _ a2 (by decide)) <;>
    (try cases hA : Atoi pv) <;>
    simp_all [scanMatch, matchPort, defaultPort]




/-- The inner loop on a match whose PORT value fails `strconv.Atoi`: the error is returned, on
whatever the other slots hold. -/
theorem scanMatch_bad_port (m : List String) (hm : AddressSlots m) (e : GoError)
    (he : matchPort m = .error e) :
    scanMatch m m.length 2 { Protocol := "", Addr := "", Port := 1521 } = .done (.error e) := by
  obtain ⟨whole, last, hk, hv, pk, pv, ck, cv, qk, qv, rfl, h1, h2, h3, h4⟩ := hm
  have e4 : ToUpper "" = "" := by decide
  have n1 : ("HOST" : String) ≠ "PROTOCOL" := by decide
  have n2 : ("HOST" : String) ≠ "PORT" := by decide
  have n3 : ("PORT" : String) ≠ "PROTOCOL" := by decide
  have n4 : ("" : String) ≠ "PROTOCOL" := by decide
  have n5 : ("" : String) ≠ "PORT" := by decide
  have n6 : ("" : String) ≠ "HOST" := by decide
  rcases h2 with ⟨rfl, rfl⟩ | ⟨a2, -, -⟩
  · simp [matchPort] at he
  have b2 := ne_empty_of_ToUpper _ _ a2 (by decide)
  simp only [matchPort, List.getD_cons_succ, List.getD_cons_zero, if_neg b2] at he
  rcases h1 with ⟨rfl, rfl⟩ | ⟨a1, -, -⟩ <;> simp_all [scanMatch]

theorem length_pos_iff_ne_empty (s : String) : s.length > 0 ↔ s ≠ "" := by
  constructor
  · intro h e
    subst e
    exact absurd h (by decide)
  · intro h
    have : s.data ≠ [] := fun e => h (String.ext e)
    exact List.length_pos.mpr this

/-- Every endpoint the outer loop returns has a non-empty host. -/
theorem extractLoop_hosts (ms : List (List String)) (acc servers : List ServerAddr)
    (err : Option GoError) (hacc : ∀ s ∈ acc, s.Addr ≠ "")
    (h : extractLoop ms acc = .done (servers, err)) : ∀ s ∈ servers, s.Addr ≠ "" := by
  induction ms generalizing acc with
  | nil =>
    simp only [extractLoop, Run.done.injEq, Prod.mk.injEq] at h
    rw [← h.1]
    exact hacc
  | cons m rest ih =>
    unfold extractLoop at h
    split at h
    · cases h
    · simp only [Run.done.injEq, Prod.mk.injEq] at h
      rw [← h.1]
      simp
    · rename_i server _
      split at h
      · rename_i hl
        refine ih _ ?_ h
        intro s hs
        rcases List.mem_append.mp hs with hs | hs
        · exact hacc s hs
        · rw [List.mem_singleton.mp hs]
          exact (length_pos_iff_ne_empty _).mp hl
      · exact ih _ hacc h

/-- The outer loop on matches none of which has a COMMUNITY value spelling a key or a PORT value
that fails to parse. -/
theorem extractLoop_plain (ms : List (List String)) (acc : List ServerAddr)
    (hs : ∀ m ∈ ms, AddressSlots m) (hp : ∀ m ∈ ms, PlainMatch m)
    (hport : ∀ m ∈ ms, ∃ p, matchPort m = .ok p) :
    extractLoop ms acc = .done (acc ++ ms.filterMap matchEndpoint, none) := by
  induction ms generalizing acc with
  | nil => simp [extractLoop]
  | cons m rest ih =>
    have i := fun acc => ih acc (fun x hx => hs x (List.mem_cons_of_mem _ hx))
      (fun x hx => hp x (List.mem_cons_of_mem _ hx))
      (fun x hx => hport x (List.mem_cons_of_mem _ hx))
    obtain ⟨p, hpm⟩ := hport m (List.mem_cons_self _ _)
    unfold extractLoop
    rw [scanMatch_plain m (hs m (List.mem_cons_self _ _)) (hp m (List.mem_cons_self _ _)), hpm]
    simp only []
    by_cases h3 : m.getD 3 "" = ""
    · have hl : ¬ (m.getD 3 "").length > 0 := by rw [h3]; decide
      have hme : matchEndpoint m = none := by
        unfold matchEndpoint
        rw [if_pos h3]
      rw [if_neg hl, i, List.filterMap_cons, hme]
    · have hl : (m.getD 3 "").length > 0 := (length_pos_iff_ne_empty _).mpr h3
      have hme : matchEndpoint m =
          some { Protocol := m.getD 9 "", Addr := m.getD 3 "", Port := p } := by
        unfold matchEndpoint
        rw [if_neg h3, hpm]
      rw [if_pos hl, i, List.filterMap_cons, hme]
      simp only [List.append_assoc, List.singleton_append]

/-- Once a match has a PORT value that fails to parse, the outer loop returns no endpoint. -/
theorem extractLoop_bad_port (ms : List (List String)) (acc : List ServerAddr)
    (hs : ∀ m ∈ ms, AddressSlots m) (m : List String) (hm : m ∈ ms) (e : GoError)
    (he : matchPort m = .error e) (servers : List ServerAddr) (err : Option GoError)
    (h : extractLoop ms acc = .done (servers, err)) : servers = [] ∧ ∃ e1, err = some e1 := by
  induction ms generalizing acc with
  | nil => cases hm
  | cons m0 rest ih =>
    unfold extractLoop at h
    split at h
    · cases h
    · simp only [Run.done.injEq, Prod.mk.injEq] at h
      exact ⟨h.1.symm, _, h.2.symm⟩
    · rename_i server hsc
      have hrest : m ∈ rest := by
        rcases List.mem_cons.mp hm with hm | hm
        · subst hm
          rw [scanMatch_bad_port m (hs m (List.mem_cons_self _ _)) e he] at hsc
          cases hsc
        · exact hm
      have i := fun acc => ih acc (fun x hx => hs x (List.mem_cons_of_mem _ hx)) hrest
      split at h
      · exact i _ h
      · exact i _ h

/-- The first match whose PORT value fails to parse ends the outer loop with the error of
`strconv.Atoi`, when no earlier match has a COMMUNITY value spelling a key. -/
theorem extractLoop_first_bad_port (pre post : List (List String)) (m : List String)
    (acc : List ServerAddr) (hs : ∀ x ∈ pre ++ m :: post, AddressSlots x)
    (hp : ∀ x ∈ pre, PlainMatch x) (hport : ∀ x ∈ pre, ∃ p, matchPort x = .ok p)
    (e : GoError) (he : matchPort m = .error e) :
    extractLoop (pre ++ m :: post) acc = .done ([], some e) := by
  induction pre generalizing acc with
  | nil =>
    simp only [List.nil_append, extractLoop]
    rw [scanMatch_bad_port m (hs m (by simp)) e he]
  | cons m0 rest ih =>
    have i := fun acc => ih acc (fun x hx => hs x (by
      simp only [List.cons_append, List.mem_cons]; exact Or.inr hx))
      (fun x hx => hp x (List.mem_cons_of_mem _ hx))
      (fun x hx => hport x (List.mem_cons_of_mem _ hx))
    obtain ⟨p, hpm⟩ := hport m0 (List.mem_cons_self _ _)
    simp only [List.cons_append]
    unfold extractLoop
    rw [scanMatch_plain m0 (hs m0 (by simp)) (hp m0 (List.mem_cons_self _ _)), hpm]
    simp only []
    split
    · exact i _
    · exact i _

/-- The outer loop returns on matches none of which has a COMMUNITY value spelling a key. -/
theorem extractLoop_plain_done (ms : List (List String)) (acc : List ServerAddr)
    (hs : ∀ m ∈ ms, AddressSlots m) (hp : ∀ m ∈ ms, PlainMatch m) :
    ∃ res, extractLoop ms acc = .done res := by
  induction ms generalizing acc with
  | nil => exact ⟨_, rfl⟩
  | cons m rest ih =>
    have i := fun acc => ih acc (fun x hx => hs x (List.mem_cons_of_mem _ hx))
      (fun x hx => hp x (List.mem_cons_of_mem _ hx))
    unfold extractLoop
    rw [scanMatch_plain m (hs m (List.mem_cons_self _ _)) (hp m (List.mem_cons_self _ _))]
    cases matchPort m with
    | error e => exact ⟨_, rfl⟩
    | ok p =>
      simp only []
      split
      · exact i _
      · exact i _

theorem exists_of_toBool (x : Except GoError Int) (h : x.toBool = true) : ∃ p, x = .ok p := by
  cases x with
  | ok p => exact ⟨p, rfl⟩
  | error e => cases h

/-! ## The identity patterns and the occurrences of an attribute -/

theorem sem_lit_word (l : Char) (w : List Char) (c c1 : Caps) (h : Re.Sem (Re.lit l) w c c1) :
    w = [l] ∧ c1 = c := by
  obtain ⟨e, x, rfl, hx⟩ := sem_cls _ w c c1 h
  simp only [beq_iff_eq] at hx
  subst hx
  exact ⟨rfl, e⟩

theorem sem_identityRe (key : List Char) (hk : key ≠ []) (w : List Char) (c c1 : Caps)
    (h : Re.Sem (identityRe key) w c c1) :
    ∃ v, IdentityOccurrence key v w ∧ c1 = c.set 1 (String.mk v) := by
  simp only [identityRe, Re.seqs] at h
  obtain ⟨w1, _, a1, rfl, g1, r1⟩ := sem_seq _ _ _ _ _ h
  obtain ⟨w2, _, a2, rfl, g2, r2⟩ := sem_seq _ _ _ _ _ r1
  obtain ⟨w3, _, a3, rfl, g3, r3⟩ := sem_seq _ _ _ _ _ r2
  obtain ⟨w4, _, a4, rfl, g4, r4⟩ := sem_seq _ _ _ _ _ r3
  obtain ⟨w5, _, a5, rfl, g5, r5⟩ := sem_seq _ _ _ _ _ r4
  obtain ⟨w6, _, a6, rfl, g6, r6⟩ := sem_seq _ _ _ _ _ r5
  obtain ⟨w7, _, a7, rfl, g7, r7⟩ := sem_seq _ _ _ _ _ r6
  obtain ⟨w8, w9, a8, rfl, g8, g9⟩ := sem_seq _ _ _ _ _ r7
  obtain ⟨rfl, e1⟩ := sem_lit_word _ _ _ _ g1
  obtain ⟨e2, s2⟩ := sem_star_cls _ _ _ _ g2
  obtain ⟨e3, hkw⟩ := sem_word key hk _ _ _ g3
  obtain ⟨e4, s4⟩ := sem_star_cls _ _ _ _ g4
  obtain ⟨rfl, e5⟩ := sem_lit_word _ _ _ _ g5
  obtain ⟨e6, s6⟩ := sem_star_cls _ _ _ _ g6
  obtain ⟨b7, g7b, e7⟩ := sem_cap _ _ _ _ _ g7
  obtain ⟨e7', hv, hpv⟩ := sem_plus_cls _ _ _ _ g7b
  obtain ⟨e8, s8⟩ := sem_star_cls _ _ _ _ g8
  obtain ⟨rfl, e9⟩ := sem_lit_word _ _ _ _ g9
  subst e1 e2 e3 e4 e5 e6 e7' e7 e8 e9
  exact ⟨w7, ⟨w2, w3, w4, w6, w8, rfl, s2, hkw, s4, s6, hv, hpv, s8⟩, rfl⟩

theorem matchAt_occurs (key : List Char) (hk : key ≠ []) (s : List Char) (r : MatchResult)
    (h : (identityRe key).matchAt 1 s = some r) :
    ∃ v, OccursAt key v s ∧ r.1.get? 1 = some (String.mk v) := by
  obtain ⟨w, s1, c1, hs, hsem, hr⟩ := run_sem _ _ _ _ _ h
  obtain ⟨c2, hsem2, e2⟩ := sem_cap _ _ _ _ _ hsem
  obtain ⟨v, hv, e3⟩ := sem_identityRe key hk w _ _ hsem2
  subst e3 e2
  cases hr
  exact ⟨v, ⟨w, s1, hs, hv⟩, rfl⟩

theorem foldMatches_not_space (l x : Char) (hl : isSpace l = false)
    (h : foldMatches l x = true) : isSpace x = false := by
  simp only [foldMatches, Bool.or_eq_true, Bool.and_eq_true, beq_iff_eq, decide_eq_true_eq] at h
  simp only [isSpace, Bool.or_eq_false_iff, beq_eq_false_iff_ne, ne_eq] at hl ⊢
  rcases h with (((h | h) | h) | h) | h
  · subst h; exact hl
  · refine ⟨⟨⟨⟨?_, ?_⟩, ?_⟩, ?_⟩, ?_⟩ <;> omega
  · refine ⟨⟨⟨⟨?_, ?_⟩, ?_⟩, ?_⟩, ?_⟩ <;> omega
  · refine ⟨⟨⟨⟨?_, ?_⟩, ?_⟩, ?_⟩, ?_⟩ <;> omega
  · refine ⟨⟨⟨⟨?_, ?_⟩, ?_⟩, ?_⟩, ?_⟩ <;> omega

theorem isNameRune_not_space (x : Char) (h : isNameRune x = true) : isSpace x = false := by
  simp only [isNameRune, isWordFold, isWord, isDigit, Bool.or_eq_true, Bool.and_eq_true,
    beq_iff_eq, decide_eq_true_eq] at h
  simp only [isSpace, Bool.or_eq_false_iff, beq_eq_false_iff_ne, ne_eq]
  refine ⟨⟨⟨⟨?_, ?_⟩, ?_⟩, ?_⟩, ?_⟩ <;> omega

theorem isSpace_not_nameRune (x : Char) (h : isSpace x = true) : isNameRune x = false := by
  cases hn : isNameRune x with
  | false => rfl
  | true => rw [isNameRune_not_space x hn] at h; cases h

theorem ws_run (ws rest : List Char) (c : Caps) (k : Cont) (r : MatchResult)
    (hws : ∀ x ∈ ws, isSpace x = true) (hrest : ∀ x ∈ rest.head?, isSpace x = false)
    (hk : k rest c = some r) : Re.ws.run (ws ++ rest) c k = some r := by
  unfold Re.ws
  rw [run_star]
  exact starLoop_cls isSpace ws rest _ c k r hws hrest (le_refl _) hk

theorem word_run_fold (key kw : List Char) (t : List Char) (c : Caps) (k : Cont)
    (hkey : key ≠ []) (h : List.Forall₂ (fun l x => foldMatches l x = true) key kw) :
    (Re.word key).run (kw ++ t) c k = k t c := by
  induction h generalizing c k with
  | nil => exact absurd rfl hkey
  | @cons l x key kw hx hrest ih =>
    cases hrest with
    | nil => simp [Re.word, Re.seqs, run_cls_cons, hx]
    | @cons l2 x2 key2 kw2 hx2 hrest2 =>
      have := ih c k (by simp)
      simp only [Re.word, List.map_cons, Re.seqs, run_seq, List.cons_append, run_cls_cons,
        hx, hx2, if_true] at this ⊢
      exact this

theorem identityRe_run (key ws1 kw ws2 ws3 v ws4 rest : List Char) (c : Caps) (k : Cont)
    (r : MatchResult) (hkey : key ≠ []) (hk0 : ∀ l ∈ key, isSpace l = false)
    (h1 : ∀ x ∈ ws1, isSpace x = true)
    (hkw : List.Forall₂ (fun l x => foldMatches l x = true) key kw)
    (h2 : ∀ x ∈ ws2, isSpace x = true) (h3 : ∀ x ∈ ws3, isSpace x = true)
    (hv : v ≠ []) (hp : ∀ x ∈ v, isNameRune x = true) (h4 : ∀ x ∈ ws4, isSpace x = true)
    (hk : k rest (c.set 1 (String.mk v)) = some r) :
    (identityRe key).run
      ('(' :: (ws1 ++ (kw ++ (ws2 ++ '=' :: (ws3 ++ (v ++ (ws4 ++ ')' :: rest))))))) c k =
        some r := by
  have a1 : ∀ y ∈ (kw ++ (ws2 ++ '=' :: (ws3 ++ (v ++ (ws4 ++ ')' :: rest))))).head?,
      isSpace y = false := by
    cases hkw with
    | nil => exact absurd rfl hkey
    | @cons l x key kw hx _ =>
      intro y hy
      simp only [List.cons_append, List.head?_cons, Option.mem_def, Option.some.injEq] at hy
      subst hy
      exact foldMatches_not_space l _ (hk0 l (List.mem_cons_self _ _)) hx
  have a2 : ∀ y ∈ ('=' :: (ws3 ++ (v ++ (ws4 ++ ')' :: rest)))).head?, isSpace y = false := by
    intro y hy; simp at hy; subst hy; decide
  have a3 : ∀ y ∈ (v ++ (ws4 ++ ')' :: rest)).head?, isSpace y = false := by
    cases v with
    | nil => exact absurd rfl hv
    | cons x v =>
      intro y hy
      simp only [List.cons_append, List.head?_cons, Option.mem_def, Option.some.injEq] at hy
      subst hy
      exact isNameRune_not_space _ (hp _ (List.mem_cons_self _ _))
  have a4 : ∀ y ∈ (ws4 ++ ')' :: rest).head?, isNameRune y = false :=
    head?_append_cons _ _ _ _ (fun y hy => isSpace_not_nameRune y (h4 y hy)) (by decide)
  have a5 : ∀ y ∈ (')' :: rest).head?, isSpace y = false := by
    intro y hy; simp at hy; subst hy; decide
  simp only [identityRe, Re.seqs, run_seq]
  rw [lit_run]
  apply ws_run ws1 _ _ _ _ h1 a1
  rw [word_run_fold key kw _ _ _ hkey hkw]
  apply ws_run ws2 _ _ _ _ h2 a2
  rw [lit_run]
  apply ws_run ws3 _ _ _ _ h3 a3
  rw [run_cap]
  apply plus_cls isNameRune v _ _ _ r hv hp a4
  apply ws_run ws4 _ _ _ _ h4 a5
  rw [lit_run, take_append_length]
  exact hk

theorem occurs_matchAt (key v s : List Char) (hkey : key ≠ [])
    (hk0 : ∀ l ∈ key, isSpace l = false) (h : OccursAt key v s) :
    ∃ whole rest, (identityRe key).matchAt 1 s = some ([whole, String.mk v], rest) := by
  obtain ⟨w, rest, rfl, ws1, kw, ws2, ws3, ws4, rfl, h1, hkw, h2, h3, hv, hp, h4⟩ := h
  have hshape : ('(' :: (ws1 ++ (kw ++ (ws2 ++ '=' :: (ws3 ++ (v ++ (ws4 ++ [')']))))))) ++ rest =
      '(' :: (ws1 ++ (kw ++ (ws2 ++ '=' :: (ws3 ++ (v ++ (ws4 ++ ')' :: rest)))))) := by
    simp
  refine ⟨String.mk ('(' :: (ws1 ++ (kw ++ (ws2 ++ '=' :: (ws3 ++ (v ++ (ws4 ++ [')']))))))),
    rest, ?_⟩
  unfold Re.matchAt
  rw [run_cap, hshape]
  refine identityRe_run key ws1 kw ws2 ws3 v ws4 rest _ _ _ hkey hk0 h1 hkw h2 h3 hv hp h4 ?_
  rw [← hshape, take_append_length]
  rfl

theorem find_skip (re : Re) (n : Nat) (pre s : List Char)
    (h : ∀ p1 s1, pre = p1 ++ s1 → s1 ≠ [] → re.matchAt n (s1 ++ s) = none) :
    re.find n (pre ++ s) = re.find n s := by
  induction pre with
  | nil => rfl
  | cons x pre ih =>
    have h0 := h [] (x :: pre) rfl (by simp)
    rw [List.cons_append] at h0
    rw [List.cons_append, Re.find, h0]
    exact ih (fun p1 s1 e hs => h (x :: p1) s1 (by rw [e]; rfl) hs)

theorem find_none (re : Re) (n : Nat) (text : List Char)
    (h : ∀ pre s, text = pre ++ s → re.matchAt n s = none) : re.find n text = none := by
  induction text with
  | nil => exact h [] [] rfl
  | cons x t ih =>
    rw [Re.find, h [] (x :: t) rfl]
    exact ih (fun pre s e => h (x :: pre) s (by rw [e]; rfl))

theorem find_head (re : Re) (n : Nat) (s : List Char) (r : MatchResult)
    (h : re.matchAt n s = some r) : re.find n s = some r := by
  cases s with
  | nil => exact h
  | cons x t => rw [Re.find, h]

/-- An identity pattern finds the value of the first occurrence of its attribute. -/
theorem foundValue_first (key : List Char) (hkey : key ≠ [])
    (hk0 : ∀ l ∈ key, isSpace l = false) (text : String) (v : List Char)
    (h : FirstOccurrence key text.data v) :
    foundValue (identityRe key) text = some (String.mk v) := by
  obtain ⟨pre, s, ht, ho, hfirst⟩ := h
  obtain ⟨whole, rest, hm⟩ := occurs_matchAt key v s hkey hk0 ho
  have hskip : ∀ p1 s1, pre = p1 ++ s1 → s1 ≠ [] →
      (identityRe key).matchAt 1 (s1 ++ s) = none := by
    intro p1 s1 e hs
    cases hr : (identityRe key).matchAt 1 (s1 ++ s) with
    | none => rfl
    | some r =>
      obtain ⟨v1, hv1, _⟩ := matchAt_occurs key hkey _ r hr
      exact absurd hv1 (hfirst p1 s1 v1 e hs)
  unfold foundValue Re.FindStringSubmatch
  rw [ht, find_skip _ _ pre s hskip, find_head _ _ s _ hm]
  rfl

/-- An identity pattern finds nothing in a text without an occurrence of its attribute. -/
theorem foundValue_none (key : List Char) (hkey : key ≠ []) (text : String)
    (h : NoOccurrence key text.data) : foundValue (identityRe key) text = none := by
  rw [foundValue_eq_none_iff]
  apply find_none
  intro pre s e
  cases hr : (identityRe key).matchAt 1 s with
  | none => rfl
  | some r =>
    obtain ⟨v1, hv1, _⟩ := matchAt_occurs key hkey _ r hr
    exact absurd hv1 (h pre s v1 e)

theorem find_some_split (re : Re) (n : Nat) (text : List Char) (r : MatchResult)
    (h : re.find n text = some r) :
    ∃ pre s, text = pre ++ s ∧ re.matchAt n s = some r ∧
      ∀ p1 s1, pre = p1 ++ s1 → s1 ≠ [] → re.matchAt n (s1 ++ s) = none := by
  induction text with
  | nil =>
    refine ⟨[], [], rfl, h, ?_⟩
    intro p1 s1 e hs
    exact absurd (List.append_eq_nil.mp e.symm).2 hs
  | cons x t ih =>
    rw [Re.find] at h
    cases hm : re.matchAt n (x :: t) with
    | some r1 =>
      rw [hm] at h
      cases h
      refine ⟨[], x :: t, rfl, hm, ?_⟩
      intro p1 s1 e hs
      exact absurd (List.append_eq_nil.mp e.symm).2 hs
    | none =>
      rw [hm] at h
      obtain ⟨pre, s, ht, hs, hpre⟩ := ih h
      refine ⟨x :: pre, s, by rw [ht]; rfl, hs, ?_⟩
      intro p1 s1 e hne
      cases p1 with
      | nil =>
        simp only [List.nil_append] at e
        subst e
        rw [List.cons_append, ← ht]
        exact hm
      | cons y p1 =>
        simp only [List.cons_append, List.cons.injEq] at e
        exact hpre p1 s1 e.2 hne

theorem find_none_split (re : Re) (n : Nat) (text : List Char) (h : re.find n text = none) :
    ∀ pre s, text = pre ++ s → re.matchAt n s = none := by
  induction text with
  | nil =>
    intro pre s e
    obtain ⟨-, rfl⟩ := List.append_eq_nil.mp e.symm
    exact h
  | cons x t ih =>
    rw [Re.find] at h
    cases hm : re.matchAt n (x :: t) with
    | some r1 => rw [hm] at h; cases h
    | none =>
      rw [hm] at h
      intro pre s e
      cases pre with
      | nil =>
        simp only [List.nil_append] at e
        subst e
        exact hm
      | cons y pre =>
        simp only [List.cons_append, List.cons.injEq] at e
        exact ih h pre s e.2

/-- The value an identity pattern finds is the value of the first occurrence of its attribute. -/
theorem foundValue_some (key : List Char) (hkey : key ≠ [])
    (hk0 : ∀ l ∈ key, isSpace l = false) (text x : String)
    (h : foundValue (identityRe key) text = some x) :
    ∃ v, x = String.mk v ∧ FirstOccurrence key text.data v := by
  unfold foundValue Re.FindStringSubmatch at h
  cases hf : (identityRe key).find 1 text.data with
  | none => rw [hf] at h; cases h
  | some r =>
    rw [hf] at h
    obtain ⟨pre, s, ht, hm, hpre⟩ := find_some_split _ _ _ _ hf
    obtain ⟨v, hv, hr⟩ := matchAt_occurs key hkey s r hm
    simp only [] at h
    rw [hr] at h
    cases h
    refine ⟨v, rfl, pre, s, ht, hv, ?_⟩
    intro p1 s1 v1 e hs ho
    obtain ⟨whole, rest, hm1⟩ := occurs_matchAt key v1 _ hkey hk0 ho
    rw [hpre p1 s1 e hs] at hm1
    cases hm1

theorem noOccurrence_of_foundValue (key : List Char) (hkey : key ≠ [])
    (hk0 : ∀ l ∈ key, isSpace l = false) (text : String)
    (h : foundValue (identityRe key) text = none) : NoOccurrence key text.data := by
  rw [foundValue_eq_none_iff] at h
  intro pre s v e ho
  obtain ⟨whole, rest, hm1⟩ := occurs_matchAt key v _ hkey hk0 ho
  rw [find_none_split _ _ _ h pre s e] at hm1
  cases hm1

theorem FirstOccurrence_ne_nil (key text v : List Char) (h : FirstOccurrence key text v) :
    v ≠ [] := by
  obtain ⟨_, _, _, ⟨_, _, _, _, _, _, _, _, _, _, _, _, _, hv, _⟩, _⟩ := h
  exact hv

/-- The value of an identity field after a successful update of a fresh model, against the
occurrences of the attribute in the text. -/
theorem identity_field (key : List Char) (hkey : key ≠ [])
    (hk0 : ∀ l ∈ key, isSpace l = false) (text : String) :
    (∀ v, FirstOccurrence key text.data v ↔
      v ≠ [] ∧ (foundValue (identityRe key) text).getD "" = String.mk v) ∧
    (NoOccurrence key text.data ↔ (foundValue (identityRe key) text).getD "" = "") := by
  cases hf : foundValue (identityRe key) text with
  | none =>
    have hno := noOccurrence_of_foundValue key hkey hk0 text hf
    refine ⟨fun v => ⟨?_, ?_⟩, ⟨fun _ => rfl, fun _ => hno⟩⟩
    · intro h
      rw [foundValue_first key hkey hk0 text v h] at hf
      cases hf
    · rintro ⟨hv, e⟩
      exact absurd (congrArg String.data e).symm hv
  | some x =>
    obtain ⟨v0, rfl, h0⟩ := foundValue_some key hkey hk0 text x hf
    have hv0 := FirstOccurrence_ne_nil _ _ _ h0
    refine ⟨fun v => ⟨?_, ?_⟩, ⟨?_, ?_⟩⟩
    · intro h
      have := foundValue_first key hkey hk0 text v h
      rw [hf] at this
      exact ⟨FirstOccurrence_ne_nil _ _ _ h, by simpa using this⟩
    · rintro ⟨_, e⟩
      have e1 : v0 = v := congrArg String.data e
      subst e1
      exact h0
    · intro h
      rw [foundValue_none key hkey text h] at hf
      cases hf
    · intro e
      exact absurd (congrArg String.data e) hv0

/-- The value of an identity field after a successful update, against the occurrences of the
attribute in the text: the value of the first occurrence, the previous value when there is
none; one of the two cases holds. -/
theorem identity_value (key : List Char) (hkey : key ≠ [])
    (hk0 : ∀ l ∈ key, isSpace l = false) (text old : String) :
    (∀ v, FirstOccurrence key text.data v →
      (foundValue (identityRe key) text).getD old = String.mk v) ∧
    (NoOccurrence key text.data → (foundValue (identityRe key) text).getD old = old) ∧
    ((∃ v, FirstOccurrence key text.data v) ∨ NoOccurrence key text.data) := by
  refine ⟨?_, ?_, ?_⟩
  · intro v h
    rw [foundValue_first key hkey hk0 text v h]
    rfl
  · intro h
    rw [foundValue_none key hkey text h]
    rfl
  · cases hf : foundValue (identityRe key) text with
    | none => exact Or.inr (noOccurrence_of_foundValue key hkey hk0 text hf)
    | some x =>
      obtain ⟨v, _, hv⟩ := foundValue_some key hkey hk0 text x hf
      exact Or.inl ⟨v, hv⟩

/-- The endpoints of matches that all have one: as many as the matches. -/
theorem filterMap_length_of_some {α β : Type} (f : α → Option β) (l : List α)
    (h : ∀ x ∈ l, ∃ y, f x = some y) : (l.filterMap f).length = l.length := by
  induction l with
  | nil => rfl
  | cons a l ih =>
    obtain ⟨y, hy⟩ := h a (List.mem_cons_self _ _)
    rw [List.filterMap_cons, hy]
    simp only [List.length_cons]
    rw [ih (fun x hx => h x (List.mem_cons_of_mem _ hx))]

/-! ## The claims -/

/-- C1, for a non-empty list of groups. For every non-empty list of address groups written
`(ADDRESS=(HOST=h)(PORT=p)(PROTOCOL=proto))`, where `h` is a non-empty string of word characters,
dots, hyphens and colons, the PORT attribute is optional and `p` a decimal numeral below `2^63`,
the PROTOCOL attribute is optional and `proto` a non-empty string of word characters,
`UpdateDatabaseInfo` on the concatenated text returns no error and leaves in `Servers` one
endpoint for each group, in the order of the text, with the host, the protocol (empty when
absent) and the port (1521 when absent) of its group. -/
theorem UpdateDatabaseInfo_renderGroups {W : Type} (info : DatabaseInfo W)
    (gs : List AddressGroup) (hne : gs ≠ []) (hg : ∀ g ∈ gs, g.WellFormed) :
    ∃ info1 : DatabaseInfo W,
      info.UpdateDatabaseInfo (String.mk (renderGroups gs)) = .done (info1, none) ∧
      info1.Servers = gs.map AddressGroup.endpoint ∧ info1.Servers.length = gs.length := by
  have hn := normalizeText_of_no_space _ (renderGroups_no_space gs hg)
  have hE := ExtractServers_renderGroups gs hg
  rw [← hn] at hE
  have hl : gs.map AddressGroup.endpoint ≠ [] := by simpa using hne
  exact ⟨_, (UpdateDatabaseInfo_cases info _).2.2.2 _ hl hE, rfl, by simp⟩

/-- C1 fails as stated for the empty list of groups: the descriptor is then empty and
`UpdateDatabaseInfo` returns the no-address error; it also fails for a protocol value that is
not made of word characters, such as `a-b`, since the group is then no match of the pattern. -/
theorem UpdateDatabaseInfo_renderGroups_counterexample :
    (DatabaseInfo.empty Unit).UpdateDatabaseInfo (String.mk (renderGroups [])) =
      .done (DatabaseInfo.empty Unit, some .noAddress) ∧
    (DatabaseInfo.empty Unit).UpdateDatabaseInfo
        (String.mk (renderGroups [⟨['d', 'b', '1'], none, some ['a', '-', 'b']⟩])) =
      .done (DatabaseInfo.empty Unit, some .noAddress) :=
  ⟨by decide, by decide⟩

/-- C1 as amended, on the two groups of `exampleGroups`. -/
theorem UpdateDatabaseInfo_renderGroups_witness :
    String.mk (renderGroups exampleGroups) =
      "(ADDRESS=(HOST=db1)(PORT=1522)(PROTOCOL=tcp))(ADDRESS=(HOST=db-2.example.com))" ∧
    exampleGroups.map AddressGroup.endpoint =
      [{ Protocol := "tcp", Addr := "db1", Port := 1522 },
        { Protocol := "", Addr := "db-2.example.com", Port := 1521 }] ∧
    ∃ info1 : DatabaseInfo Unit,
      exampleModel.UpdateDatabaseInfo (String.mk (renderGroups exampleGroups)) =
        .done (info1, none) ∧
      info1.Servers = exampleGroups.map AddressGroup.endpoint ∧
      info1.Servers.length = exampleGroups.length :=
  ⟨by decide, by decide,
    UpdateDatabaseInfo_renderGroups exampleModel exampleGroups (List.cons_ne_nil _ _) (by decide)⟩

/-- C2. Whenever `UpdateDatabaseInfo` returns no error, `Servers` is non-empty and is what
`ExtractServers` returns on the text without carriage returns and line feeds, `connStr` is that
normalized text (so it holds neither CR nor LF), each of `ServiceName`, `SID`, `InstanceName` is
the value its pattern finds in the normalized text, or its previous value when the pattern finds
none, and the cursor and every other field are unchanged.  The value found is the value of the
first occurrence of the attribute in the normalized text; the previous value is kept exactly
when the text has no occurrence; one of the two is the case. -/
theorem UpdateDatabaseInfo_success {W : Type} (info info1 : DatabaseInfo W) (text : String)
    (h : info.UpdateDatabaseInfo text = .done (info1, none)) :
    info1.Servers ≠ [] ∧
    ExtractServers (normalizeText text) = .done (info1.Servers, none) ∧
    info1.connStr = normalizeText text ∧
    (normalizeText text).data = text.data.filter (fun c => c != '\r' && c != '\n') ∧
    '\r' ∉ info1.connStr.data ∧ '\n' ∉ info1.connStr.data ∧
    info1.ServiceName = (foundValue serviceNameRegexp (normalizeText text)).getD info.ServiceName ∧
    info1.SID = (foundValue sidRegexp (normalizeText text)).getD info.SID ∧
    info1.InstanceName =
      (foundValue instanceNameRegexp (normalizeText text)).getD info.InstanceName ∧
    info1.serverIndex = info.serverIndex ∧ info1.UserID = info.UserID ∧
    info1.Password = info.Password ∧ info1.ProxyClientName = info.ProxyClientName ∧
    info1.DBName = info.DBName ∧ info1.DBAPrivilege = info.DBAPrivilege ∧
    info1.AuthType = info.AuthType ∧ info1.Wallet = info.Wallet ∧
    info1.Location = info.Location ∧
    ((∀ v, FirstOccurrence "SERVICE_NAME".data (normalizeText text).data v →
        info1.ServiceName = String.mk v) ∧
      (NoOccurrence "SERVICE_NAME".data (normalizeText text).data →
        info1.ServiceName = info.ServiceName) ∧
      ((∃ v, FirstOccurrence "SERVICE_NAME".data (normalizeText text).data v) ∨
        NoOccurrence "SERVICE_NAME".data (normalizeText text).data)) ∧
    ((∀ v, FirstOccurrence "SID".data (normalizeText text).data v → info1.SID = String.mk v) ∧
      (NoOccurrence "SID".data (normalizeText text).data → info1.SID = info.SID) ∧
      ((∃ v, FirstOccurrence "SID".data (normalizeText text).data v) ∨
        NoOccurrence "SID".data (normalizeText text).data)) ∧
    ((∀ v, FirstOccurrence "INSTANCE_NAME".data (normalizeText text).data v →
        info1.InstanceName = String.mk v) ∧
      (NoOccurrence "INSTANCE_NAME".data (normalizeText text).data →
        info1.InstanceName = info.InstanceName) ∧
      ((∃ v, FirstOccurrence "INSTANCE_NAME".data (normalizeText text).data v) ∨
        NoOccurrence "INSTANCE_NAME".data (normalizeText text).data)) := by
  obtain ⟨hp, he, h0, hs⟩ := UpdateDatabaseInfo_cases info text
  have hb := normalizeText_no_line_break text
  have k1 := identity_value "SERVICE_NAME".data (by decide) (by decide) (normalizeText text)
    info.ServiceName
  have k2 := identity_value "SID".data (by decide) (by decide) (normalizeText text) info.SID
  have k3 := identity_value "INSTANCE_NAME".data (by decide) (by decide) (normalizeText text)
    info.InstanceName
  rcases hE : ExtractServers (normalizeText text) with ⟨l, err⟩ | ⟨i, n⟩
  · cases err with
    | some e => rw [he l e hE] at h; simp at h
    | none =>
      by_cases hl : l = []
      · subst hl; rw [h0 hE] at h; simp at h
      · rw [hs l hl hE] at h
        simp only [Run.done.injEq, Prod.mk.injEq, and_true] at h
        subst h
        exact ⟨hl, rfl, rfl, normalizeText_data text, hb.1, hb.2, rfl, rfl, rfl, rfl, rfl, rfl,
          rfl, rfl, rfl, rfl, rfl, rfl, k1, k2, k3⟩
  · rw [hp i n hE] at h; cases h

/-- C2, at a model that holds a SID and a two-line descriptor with a service name: the service
name of the first occurrence is stored, the SID, of which the text has no occurrence, is
kept. -/
theorem UpdateDatabaseInfo_success_witness :
    exampleModel.UpdateDatabaseInfo "(ADDRESS=(HOST=db3)\r\n(PORT=1523))(SERVICE_NAME=orcl)" =
      .done ({ exampleModel with
        Servers := [{ Protocol := "", Addr := "db3", Port := 1523 }]
        connStr := "(ADDRESS=(HOST=db3)(PORT=1523))(SERVICE_NAME=orcl)"
        ServiceName := "orcl" }, none) ∧
    ({ exampleModel with
        Servers := [{ Protocol := "", Addr := "db3", Port := 1523 }]
        connStr := "(ADDRESS=(HOST=db3)(PORT=1523))(SERVICE_NAME=orcl)"
        ServiceName := "orcl" } : DatabaseInfo Unit).SID = "OLD" ∧
    ExtractServers (normalizeText "(ADDRESS=(HOST=db3)\r\n(PORT=1523))(SERVICE_NAME=orcl)") =
      .done ([{ Protocol := "", Addr := "db3", Port := 1523 }], none) ∧
    NoOccurrence "SID".data
      (normalizeText "(ADDRESS=(HOST=db3)\r\n(PORT=1523))(SERVICE_NAME=orcl)").data ∧
    ({ exampleModel with
        Servers := [{ Protocol := "", Addr := "db3", Port := 1523 }]
        connStr := "(ADDRESS=(HOST=db3)(PORT=1523))(SERVICE_NAME=orcl)"
        ServiceName := "orcl" } : DatabaseInfo Unit).SID = exampleModel.SID ∧
    FirstOccurrence "SERVICE_NAME".data
      (normalizeText "(ADDRESS=(HOST=db3)\r\n(PORT=1523))(SERVICE_NAME=orcl)").data "orcl".data :=
  ⟨by decide, by decide,
    (UpdateDatabaseInfo_success exampleModel
      { exampleModel with
        Servers := [{ Protocol := "", Addr := "db3", Port := 1523 }]
        connStr := "(ADDRESS=(HOST=db3)(PORT=1523))(SERVICE_NAME=orcl)"
        ServiceName := "orcl" }
      "(ADDRESS=(HOST=db3)\r\n(PORT=1523))(SERVICE_NAME=orcl)" (by decide)).2.1,
    noOccurrence_of_foundValue "SID".data (by decide) (by decide) _ (by decide),
    (UpdateDatabaseInfo_success exampleModel
      { exampleModel with
        Servers := [{ Protocol := "", Addr := "db3", Port := 1523 }]
        connStr := "(ADDRESS=(HOST=db3)(PORT=1523))(SERVICE_NAME=orcl)"
        ServiceName := "orcl" }
      "(ADDRESS=(HOST=db3)\r\n(PORT=1523))(SERVICE_NAME=orcl)"
      (by decide)).2.2.2.2.2.2.2.2.2.2.2.2.2.2.2.2.2.2.2.1.2.1
      (noOccurrence_of_foundValue "SID".data (by decide) (by decide) _ (by decide)),
    ((identity_field "SERVICE_NAME".data (by decide) (by decide)
      (normalizeText "(ADDRESS=(HOST=db3)\r\n(PORT=1523))(SERVICE_NAME=orcl)")).1
        "orcl".data).mpr ⟨by decide, by decide⟩⟩

/-- C3, as the code has it. On a descriptor that is empty or in which the address pattern finds
no match, `UpdateDatabaseInfo` returns the no-address error; `Servers` is then empty, whatever it
held before, and every other field (cursor, `connStr`, identity fields) is unchanged. -/
theorem UpdateDatabaseInfo_noAddress {W : Type} (info : DatabaseInfo W) (text : String)
    (h : text = "" ∨ connectionAddressRegexp.FindAllStringSubmatch 9 (normalizeText text) = []) :
    info.UpdateDatabaseInfo text = .done ({ info with Servers := [] }, some .noAddress) := by
  have hm : connectionAddressRegexp.FindAllStringSubmatch 9 (normalizeText text) = [] := by
    rcases h with h | h
    · subst h; decide
    · exact h
  apply (UpdateDatabaseInfo_cases info text).2.2.1
  simp [ExtractServers, hm, extractLoop]

/-- C3 fails as stated: a model that holds two endpoints has none after `UpdateDatabaseInfo`
on the empty descriptor. -/
theorem UpdateDatabaseInfo_noAddress_counterexample :
    ∃ info1 : DatabaseInfo Unit,
      exampleModel.UpdateDatabaseInfo "" = .done (info1, some .noAddress) ∧
      exampleModel.Servers = [exampleServer, exampleServer2] ∧ info1.Servers = [] ∧
      info1 ≠ exampleModel :=
  ⟨{ exampleModel with Servers := [] }, by decide, by decide, by decide, by decide⟩

/-- C3 as amended, on a descriptor with identity attributes and no address group. -/
theorem UpdateDatabaseInfo_noAddress_witness :
    exampleModel.UpdateDatabaseInfo "(DESCRIPTION=(CONNECT_DATA=(SID=orcl)))" =
      .done ({ exampleModel with Servers := [] }, some .noAddress) :=
  UpdateDatabaseInfo_noAddress exampleModel _ (Or.inr (by decide))

/-- C4, as the code has it. Whenever `ExtractServers` on the normalized descriptor returns an
error, that error is the integer parsing error of `strconv.Atoi`, `UpdateDatabaseInfo` returns
it, `Servers` is empty after the call and every other field is unchanged. -/
theorem UpdateDatabaseInfo_atoi_error {W : Type} (info : DatabaseInfo W) (text : String)
    (l : List ServerAddr) (e : GoError)
    (h : ExtractServers (normalizeText text) = .done (l, some e)) :
    (∃ num kind, e = .numError num kind) ∧
    info.UpdateDatabaseInfo text = .done ({ info with Servers := [] }, some e) := by
  obtain ⟨hl, he⟩ := extractLoop_error _ _ _ _ h
  subst hl
  exact ⟨he, (UpdateDatabaseInfo_cases info text).2.1 _ _ h⟩

/-- C4 fails as stated: with `(PORT=abc)` the group is no match of the address pattern, so the
call returns the no-address error, not a parsing error, and the two endpoints the model held are
gone; next to a valid group the same `(PORT=abc)` group is skipped and the call succeeds. -/
theorem UpdateDatabaseInfo_atoi_error_counterexample :
    exampleModel.UpdateDatabaseInfo "(ADDRESS=(HOST=db3)(PORT=abc))" =
      .done ({ exampleModel with Servers := [] }, some .noAddress) ∧
    exampleModel.Servers ≠ [] ∧
    (DatabaseInfo.empty Unit).UpdateDatabaseInfo
        "(ADDRESS=(HOST=db1))(ADDRESS=(HOST=db3)(PORT=abc))" =
      .done ({ DatabaseInfo.empty Unit with
        Servers := [{ Protocol := "", Addr := "db1", Port := 1521 }]
        connStr := "(ADDRESS=(HOST=db1))(ADDRESS=(HOST=db3)(PORT=abc))" }, none) :=
  ⟨by decide, by decide, by decide⟩

/-- C4 as amended, on a port beyond the `int` range. -/
theorem UpdateDatabaseInfo_atoi_error_witness :
    ExtractServers (normalizeText "(ADDRESS=(HOST=db3)(PORT=99999999999999999999))") =
      .done ([], some (.numError "99999999999999999999" .range)) ∧
    exampleModel.UpdateDatabaseInfo "(ADDRESS=(HOST=db3)(PORT=99999999999999999999))" =
      .done ({ exampleModel with Servers := [] },
        some (.numError "99999999999999999999" .range)) :=
  ⟨by decide,
    (UpdateDatabaseInfo_atoi_error exampleModel
      "(ADDRESS=(HOST=db3)(PORT=99999999999999999999))" [] _ (by decide)).2⟩

/-- C5. Whenever `UpdateDatabaseInfoForRedirect` returns no error, `Servers` is non-empty and is
what `ExtractServers` returns on the redirect address without carriage returns and line feeds,
`connStr` is empty, each identity field is the value its pattern finds in the reconnect data
without carriage returns and line feeds (the redirect address plays no part) or its previous
value, and the cursor and every other field are unchanged.  The normalized texts are the texts
with every CR and LF dropped; the value found is the value of the first occurrence of the
attribute in the normalized reconnect data, and the previous value is kept exactly when that
text has no occurrence.  On the redirect address
`(ADDRESS=(HOST=10.0.0.5)(PORT=1522)(PROTOCOL=tcp))` with reconnect data `(SID=PRODDB)` the
result has the one endpoint 10.0.0.5, 1522, tcp, the SID `PRODDB` and an empty `connStr`. -/
theorem UpdateDatabaseInfoForRedirect_success {W : Type} :
    (∀ (info info1 : DatabaseInfo W) (addr data : String),
      info.UpdateDatabaseInfoForRedirect addr data = .done (info1, none) →
      info1.Servers ≠ [] ∧
      ExtractServers (normalizeText addr) = .done (info1.Servers, none) ∧
      info1.connStr = "" ∧
      info1.ServiceName =
        (foundValue serviceNameRegexp (normalizeText data)).getD info.ServiceName ∧
      info1.SID = (foundValue sidRegexp (normalizeText data)).getD info.SID ∧
      info1.InstanceName =
        (foundValue instanceNameRegexp (normalizeText data)).getD info.InstanceName ∧
      info1.serverIndex = info.serverIndex ∧ info1.UserID = info.UserID ∧
      info1.Password = info.Password ∧ info1.ProxyClientName = info.ProxyClientName ∧
      info1.DBName = info.DBName ∧ info1.DBAPrivilege = info.DBAPrivilege ∧
      info1.AuthType = info.AuthType ∧ info1.Wallet = info.Wallet ∧
      info1.Location = info.Location ∧
      (normalizeText addr).data = addr.data.filter (fun c => c != '\r' && c != '\n') ∧
      (normalizeText data).data = data.data.filter (fun c => c != '\r' && c != '\n') ∧
      '\r' ∉ (normalizeText addr).data ∧ '\n' ∉ (normalizeText addr).data ∧
      '\r' ∉ (normalizeText data).data ∧ '\n' ∉ (normalizeText data).data ∧
      ((∀ v, FirstOccurrence "SERVICE_NAME".data (normalizeText data).data v →
          info1.ServiceName = String.mk v) ∧
        (NoOccurrence "SERVICE_NAME".data (normalizeText data).data →
          info1.ServiceName = info.ServiceName) ∧
        ((∃ v, FirstOccurrence "SERVICE_NAME".data (normalizeText data).data v) ∨
          NoOccurrence "SERVICE_NAME".data (normalizeText data).data)) ∧
      ((∀ v, FirstOccurrence "SID".data (normalizeText data).data v → info1.SID = String.mk v) ∧
        (NoOccurrence "SID".data (normalizeText data).data → info1.SID = info.SID) ∧
        ((∃ v, FirstOccurrence "SID".data (normalizeText data).data v) ∨
          NoOccurrence "SID".data (normalizeText data).data)) ∧
      ((∀ v, FirstOccurrence "INSTANCE_NAME".data (normalizeText data).data v →
          info1.InstanceName = String.mk v) ∧
        (NoOccurrence "INSTANCE_NAME".data (normalizeText data).data →
          info1.InstanceName = info.InstanceName) ∧
        ((∃ v, FirstOccurrence "INSTANCE_NAME".data (normalizeText data).data v) ∨
          NoOccurrence "INSTANCE_NAME".data (normalizeText data).data))) ∧
    (∀ info : DatabaseInfo W,
      info.UpdateDatabaseInfoForRedirect "(ADDRESS=(HOST=10.0.0.5)(PORT=1522)(PROTOCOL=tcp))"
          "(SID=PRODDB)" =
        .done ({ info with
          Servers := [{ Protocol := "tcp", Addr := "10.0.0.5", Port := 1522 }]
          SID := "PRODDB"
          connStr := "" }, none)) := by
  constructor
  · intro info info1 addr data h
    obtain ⟨h1, h2, h3⟩ := UpdateDatabaseInfoForRedirect_done info info1 addr data h
    have k1 := identity_value "SERVICE_NAME".data (by decide) (by decide) (normalizeText data)
      info.ServiceName
    have k2 := identity_value "SID".data (by decide) (by decide) (normalizeText data) info.SID
    have k3 := identity_value "INSTANCE_NAME".data (by decide) (by decide) (normalizeText data)
      info.InstanceName
    have ba := normalizeText_no_line_break addr
    have bd := normalizeText_no_line_break data
    rw [h3]
    exact ⟨h1, h2, rfl, rfl, rfl, rfl, rfl, rfl, rfl, rfl, rfl, rfl, rfl, rfl, rfl,
      normalizeText_data addr, normalizeText_data data, ba.1, ba.2, bd.1, bd.2, k1, k2, k3⟩
  · intro info
    have hE : ExtractServers (normalizeText "(ADDRESS=(HOST=10.0.0.5)(PORT=1522)(PROTOCOL=tcp))") =
        .done ([{ Protocol := "tcp", Addr := "10.0.0.5", Port := 1522 }], none) := by decide
    have h1 : foundValue serviceNameRegexp (normalizeText "(SID=PRODDB)") = none := by decide
    have h2 : foundValue sidRegexp (normalizeText "(SID=PRODDB)") = some "PRODDB" := by decide
    have h3 : foundValue instanceNameRegexp (normalizeText "(SID=PRODDB)") = none := by decide
    rw [(UpdateDatabaseInfoForRedirect_cases info _ _).2.2.2 _ (by simp) hE, h1, h2, h3]
    rfl

/-- C5, at a model that holds two endpoints and the SID `OLD`: the endpoints are replaced, the
SID found in the reconnect data is stored; and on texts with line breaks, which are dropped
before the patterns are applied, a service name in the redirect address having no effect. -/
theorem UpdateDatabaseInfoForRedirect_success_witness :
    exampleModel.UpdateDatabaseInfoForRedirect
        "(ADDRESS=(HOST=10.0.0.5)(PORT=1522)(PROTOCOL=tcp))" "(SID=PRODDB)" =
      .done ({ exampleModel with
        Servers := [{ Protocol := "tcp", Addr := "10.0.0.5", Port := 1522 }]
        SID := "PRODDB"
        connStr := "" }, none) ∧
    exampleModel.UpdateDatabaseInfoForRedirect
        "(ADDRESS=(HOST=10.0.0.5)\r\n(PORT=15\n22))(SERVICE_NAME=x)" "(SID=PROD\r\nDB)\n" =
      .done ({ exampleModel with
        Servers := [{ Protocol := "", Addr := "10.0.0.5", Port := 1522 }]
        SID := "PRODDB"
        connStr := "" }, none) ∧
    ExtractServers (normalizeText "(ADDRESS=(HOST=10.0.0.5)\r\n(PORT=15\n22))(SERVICE_NAME=x)") =
      .done ([{ Protocol := "", Addr := "10.0.0.5", Port := 1522 }], none) ∧
    normalizeText "(SID=PROD\r\nDB)\n" = "(SID=PRODDB)" ∧
    FirstOccurrence "SID".data (normalizeText "(SID=PROD\r\nDB)\n").data "PRODDB".data ∧
    NoOccurrence "SERVICE_NAME".data (normalizeText "(SID=PROD\r\nDB)\n").data ∧
    exampleModel.ServiceName = "" :=
  ⟨(UpdateDatabaseInfoForRedirect_success (W := Unit)).2 exampleModel, by decide,
    ((UpdateDatabaseInfoForRedirect_success (W := Unit)).1 exampleModel
      { exampleModel with
        Servers := [{ Protocol := "", Addr := "10.0.0.5", Port := 1522 }]
        SID := "PRODDB"
        connStr := "" }
      "(ADDRESS=(HOST=10.0.0.5)\r\n(PORT=15\n22))(SERVICE_NAME=x)" "(SID=PROD\r\nDB)\n"
      (by decide)).2.1,
    by decide,
    ((identity_field "SID".data (by decide) (by decide)
      (normalizeText "(SID=PROD\r\nDB)\n")).1 "PRODDB".data).mpr ⟨by decide, by decide⟩,
    noOccurrence_of_foundValue "SERVICE_NAME".data (by decide) (by decide) _ (by decide),
    by decide⟩

/-- C6, as the code has it. For two models on which the same redirect succeeds, the endpoint
sequence and `connStr` are the same afterwards, and so is each identity field whose pattern
finds a value in the reconnect data; an identity field whose pattern finds none keeps, in each
model, the value that model held before the call. -/
theorem redirect_prior_state {W : Type} (m1 m2 r1 r2 : DatabaseInfo W) (addr data : String)
    (h1 : m1.UpdateDatabaseInfoForRedirect addr data = .done (r1, none))
    (h2 : m2.UpdateDatabaseInfoForRedirect addr data = .done (r2, none)) :
    r1.Servers = r2.Servers ∧ r1.connStr = r2.connStr ∧
    (foundValue serviceNameRegexp (normalizeText data) ≠ none → r1.ServiceName = r2.ServiceName) ∧
    (foundValue sidRegexp (normalizeText data) ≠ none → r1.SID = r2.SID) ∧
    (foundValue instanceNameRegexp (normalizeText data) ≠ none →
      r1.InstanceName = r2.InstanceName) ∧
    (foundValue serviceNameRegexp (normalizeText data) = none →
      r1.ServiceName = m1.ServiceName ∧ r2.ServiceName = m2.ServiceName) ∧
    (foundValue sidRegexp (normalizeText data) = none → r1.SID = m1.SID ∧ r2.SID = m2.SID) ∧
    (foundValue instanceNameRegexp (normalizeText data) = none →
      r1.InstanceName = m1.InstanceName ∧ r2.InstanceName = m2.InstanceName) := by
  obtain ⟨_, e1, q1⟩ := UpdateDatabaseInfoForRedirect_done m1 r1 addr data h1
  obtain ⟨_, e2, q2⟩ := UpdateDatabaseInfoForRedirect_done m2 r2 addr data h2
  have hs : r1.Servers = r2.Servers := by
    rw [e1] at e2
    simpa using e2
  refine ⟨hs, ?_, ?_, ?_, ?_, ?_, ?_, ?_⟩
  · rw [q1, q2]
  · intro hf; rw [q1, q2]; exact getD_of_ne_none _ _ _ hf
  · intro hf; rw [q1, q2]; exact getD_of_ne_none _ _ _ hf
  · intro hf; rw [q1, q2]; exact getD_of_ne_none _ _ _ hf
  · intro hf; constructor
    · rw [q1]; simp [hf]
    · rw [q2]; simp [hf]
  · intro hf; constructor
    · rw [q1]; simp [hf]
    · rw [q2]; simp [hf]
  · intro hf; constructor
    · rw [q1]; simp [hf]
    · rw [q2]; simp [hf]

/-- C6 fails as stated: the same redirect, whose reconnect data names a service and no SID,
succeeds on two models that differ in their SID and leaves each with its own SID. -/
theorem redirect_prior_state_counterexample :
    ({ DatabaseInfo.empty Unit with SID := "OLD1" }).UpdateDatabaseInfoForRedirect
        "(ADDRESS=(HOST=10.0.0.5)(PORT=1522))" "(SERVICE_NAME=svc)" =
      .done ({ DatabaseInfo.empty Unit with
        Servers := [{ Protocol := "", Addr := "10.0.0.5", Port := 1522 }]
        SID := "OLD1", ServiceName := "svc" }, none) ∧
    ({ DatabaseInfo.empty Unit with SID := "OLD2" }).UpdateDatabaseInfoForRedirect
        "(ADDRESS=(HOST=10.0.0.5)(PORT=1522))" "(SERVICE_NAME=svc)" =
      .done ({ DatabaseInfo.empty Unit with
        Servers := [{ Protocol := "", Addr := "10.0.0.5", Port := 1522 }]
        SID := "OLD2", ServiceName := "svc" }, none) ∧
    ("OLD1" : String) ≠ "OLD2" :=
  ⟨by decide, by decide, by decide⟩

/-- C6 as amended, on the two models of the counterexample: same endpoints, same service name,
and each keeps its SID. -/
theorem redirect_prior_state_witness :
    foundValue serviceNameRegexp (normalizeText "(SERVICE_NAME=svc)") ≠ none ∧
      ({ DatabaseInfo.empty Unit with
        Servers := [{ Protocol := "", Addr := "10.0.0.5", Port := 1522 }]
        SID := "OLD1", ServiceName := "svc" } : DatabaseInfo Unit).ServiceName =
      ({ DatabaseInfo.empty Unit with
        Servers := [{ Protocol := "", Addr := "10.0.0.5", Port := 1522 }]
        SID := "OLD2", ServiceName := "svc" } : DatabaseInfo Unit).ServiceName :=
  ⟨by decide, (redirect_prior_state
    ({ DatabaseInfo.empty Unit with SID := "OLD1" })
    ({ DatabaseInfo.empty Unit with SID := "OLD2" })
    ({ DatabaseInfo.empty Unit with
      Servers := [{ Protocol := "", Addr := "10.0.0.5", Port := 1522 }]
      SID := "OLD1", ServiceName := "svc" })
    ({ DatabaseInfo.empty Unit with
      Servers := [{ Protocol := "", Addr := "10.0.0.5", Port := 1522 }]
      SID := "OLD2", ServiceName := "svc" })
    "(ADDRESS=(HOST=10.0.0.5)(PORT=1522))" "(SERVICE_NAME=svc)" (by decide) (by decide)).2.2.1
    (by decide)⟩

/-- C7, as the code has it. From a cursor at 0, the `k`-th call `GetActiveServer(true)` returns
the endpoint at index `k` of `Servers` counted from 0, that is the endpoint after the `k`-th one,
and none once `k` reaches `len(Servers)`, for any number of calls below `2^63`: the first
`len(Servers) - 1` calls return the endpoints from the second one on, in list order, and every
further call returns none; the endpoint at index 0 is returned by no advancing call.
`ResetServerIndex` then puts the cursor back to 0. -/
theorem GetActiveServer_advance {W : Type} (info : DatabaseInfo W)
    (h0 : info.serverIndex = 0) :
    (∀ k : Nat, (k : Int) < 2 ^ 63 →
      GetActiveServerTimes true k info =
        .done ({ info with serverIndex := (k : Int) },
          (List.range k).map (fun j => info.Servers.get? (j + 1)))) ∧
    (∀ m : Nat, ((info.Servers.length - 1 + m : Nat) : Int) < 2 ^ 63 →
      GetActiveServerTimes true (info.Servers.length - 1 + m) info =
        .done ({ info with serverIndex := ((info.Servers.length - 1 + m : Nat) : Int) },
          info.Servers.tail.map some ++ List.replicate m none)) ∧
    (∀ k : Nat,
      ({ info with serverIndex := (k : Int) } : DatabaseInfo W).ResetServerIndex = info) := by
  have key : ∀ k : Nat, (k : Int) < 2 ^ 63 →
      GetActiveServerTimes true k info =
        .done ({ info with serverIndex := (k : Int) },
          (List.range k).map (fun j => info.Servers.get? (j + 1))) := by
    intro k hk
    have := GetActiveServerTimes_true_from k info 0 (by simpa using h0) (by simpa using hk)
    simpa using this
  refine ⟨key, ?_, ?_⟩
  · intro m hm
    rw [key _ hm, range_map_get?_succ]
  · intro k
    unfold DatabaseInfo.ResetServerIndex
    simp only []
    rw [← h0]

/-- C7 fails as stated: on a model with the two endpoints `exampleServer`, `exampleServer2` and
the cursor at 0, two calls `GetActiveServer(true)` return the second endpoint and then none; the
first endpoint is not returned. -/
theorem GetActiveServer_advance_counterexample :
    exampleModel.serverIndex = 0 ∧ exampleModel.Servers = [exampleServer, exampleServer2] ∧
    GetActiveServerTimes true 2 exampleModel =
      .done ({ exampleModel with serverIndex := 2 }, [some exampleServer2, none]) ∧
    [some exampleServer2, none] ≠ [some exampleServer, some exampleServer2] :=
  ⟨by decide, by decide, by decide, by decide⟩

/-- C7 as amended, at the model of the counterexample and four calls. -/
theorem GetActiveServer_advance_witness :
    GetActiveServerTimes true (exampleModel.Servers.length - 1 + 3) exampleModel =
      .done ({ exampleModel with
        serverIndex := ((exampleModel.Servers.length - 1 + 3 : Nat) : Int) },
        exampleModel.Servers.tail.map some ++ List.replicate 3 none) :=
  (GetActiveServer_advance exampleModel (by decide)).2.1 3 (by decide)

/-- C8, as the code has it. In every state reached from the empty model by fewer than `2^63`
calls of `UpdateDatabaseInfo`, `UpdateDatabaseInfoForRedirect`, `AddServer`, `ResetServerIndex`
and `GetActiveServer`, each of which returns (with or without an error), the cursor is at least 0
and at most the number of calls made; it is not bounded by `len(Servers)`. -/
theorem serverIndex_reachable {W : Type} (calls : List Call) (m : DatabaseInfo W)
    (hn : (calls.length : Int) < 2 ^ 63)
    (h : runCalls calls (DatabaseInfo.empty W) = some m) :
    0 ≤ m.serverIndex ∧ m.serverIndex ≤ (calls.length : Int) := by
  have := runCalls_serverIndex calls (DatabaseInfo.empty W) m (by simp [DatabaseInfo.empty])
    (by simpa [DatabaseInfo.empty] using hn) h
  simpa [DatabaseInfo.empty] using this

/-- C8 fails as stated: one call `GetActiveServer(true)` on the empty model leaves the cursor at
1 with no endpoint in `Servers`. -/
theorem serverIndex_reachable_counterexample :
    runCalls [Call.getActive true] (DatabaseInfo.empty Unit) =
      some { DatabaseInfo.empty Unit with serverIndex := 1 } ∧
    ¬ (({ DatabaseInfo.empty Unit with serverIndex := 1 } : DatabaseInfo Unit).serverIndex ≤
      (({ DatabaseInfo.empty Unit with serverIndex := 1 } : DatabaseInfo Unit).Servers.length :
        Int)) :=
  ⟨by decide, by decide⟩

/-- C8 as amended, after an advance, a failed parse and another advance. -/
theorem serverIndex_reachable_witness :
    runCalls [Call.getActive true, Call.update "", Call.getActive true]
        (DatabaseInfo.empty Unit) = some { DatabaseInfo.empty Unit with serverIndex := 2 } ∧
    0 ≤ ({ DatabaseInfo.empty Unit with serverIndex := 2 } : DatabaseInfo Unit).serverIndex ∧
    ({ DatabaseInfo.empty Unit with serverIndex := 2 } : DatabaseInfo Unit).serverIndex ≤
      (([Call.getActive true, Call.update "", Call.getActive true] : List Call).length : Int) :=
  ⟨by decide,
    serverIndex_reachable [Call.getActive true, Call.update "", Call.getActive true] _
      (by decide) (by decide)⟩

/-- C9. On a model whose cursor is not negative, `GetActiveServer(false)` returns with the model
unchanged (cursor and endpoint list included) and yields the endpoint at the cursor position when
the cursor is below `len(Servers)`, none otherwise; hence any number of consecutive calls leave
the model unchanged and all return that same result. -/
theorem GetActiveServer_false {W : Type} (info : DatabaseInfo W) (h : 0 ≤ info.serverIndex) :
    info.GetActiveServer false =
      .done (info, if info.serverIndex < (info.Servers.length : Int)
        then info.Servers.get? info.serverIndex.toNat else none) ∧
    ∀ n : Nat, GetActiveServerTimes false n info =
      .done (info, List.replicate n (if info.serverIndex < (info.Servers.length : Int)
        then info.Servers.get? info.serverIndex.toNat else none)) := by
  have hi : info.serverIndex = (info.serverIndex.toNat : Int) := (Int.toNat_of_nonneg h).symm
  have h1 : info.GetActiveServer false =
      .done (info, if info.serverIndex < (info.Servers.length : Int)
        then info.Servers.get? info.serverIndex.toNat else none) := by
    rw [GetActiveServer_of_nonneg info _ hi]
    by_cases hlt : info.serverIndex < (info.Servers.length : Int)
    · rw [if_pos hlt]
    · rw [if_neg hlt]
      have : info.Servers.length ≤ info.serverIndex.toNat := by omega
      rw [List.get?_eq_none.mpr this]
  refine ⟨h1, ?_⟩
  intro n
  induction n with
  | zero => rfl
  | succ n ih =>
    unfold GetActiveServerTimes
    rw [h1]
    simp only []
    rw [ih]
    rfl

/-- C9, at a model with two endpoints and the cursor on the second. -/
theorem GetActiveServer_false_witness :
    ({ exampleModel with serverIndex := 1 } : DatabaseInfo Unit).GetActiveServer false =
      .done ({ exampleModel with serverIndex := 1 }, some exampleServer2) :=
  (GetActiveServer_false ({ exampleModel with serverIndex := 1 } : DatabaseInfo Unit)
    (by decide)).1

/-- C10. When some endpoint of `Servers` is equal to the candidate under `IsEqual`, `AddServer`
leaves the model unchanged; when none is, the model after the call differs only in `Servers`,
which is the previous sequence followed by the candidate. -/
theorem AddServer_spec {W : Type} (info : DatabaseInfo W) (c : ServerAddr) :
    ((∃ s ∈ info.Servers, s.IsEqual c = true) → info.AddServer c = info) ∧
    ((∀ s ∈ info.Servers, s.IsEqual c = false) →
      info.AddServer c = { info with Servers := info.Servers ++ [c] }) := by
  constructor
  · rintro ⟨s, hs, he⟩
    unfold DatabaseInfo.AddServer
    rw [if_pos]
    rw [List.any_eq_true]
    exact ⟨s, hs, by rw [IsEqual_comm]; exact he⟩
  · intro h
    unfold DatabaseInfo.AddServer
    rw [if_neg]
    rw [List.any_eq_true]
    rintro ⟨s, hs, he⟩
    rw [IsEqual_comm, h s hs] at he
    cases he

/-- C10, at a model with two endpoints: a candidate that differs from the first endpoint in
letter case and protocol only is not added, a candidate on another port is appended; and at a
model with a Cyrillic host, to which the same host in upper case is not added. -/
theorem AddServer_spec_witness :
    exampleModel.AddServer { Protocol := "tcps", Addr := "DB1", Port := 1521 } = exampleModel ∧
    exampleModel.AddServer { Protocol := "tcp", Addr := "db1", Port := 1522 } =
      { exampleModel with Servers := exampleModel.Servers ++
        [{ Protocol := "tcp", Addr := "db1", Port := 1522 }] } ∧
    ({ DatabaseInfo.empty Unit with Servers := [{ Protocol := "", Addr := "ж", Port := 1 }] }
        : DatabaseInfo Unit).AddServer { Protocol := "", Addr := "Ж", Port := 1 } =
      { DatabaseInfo.empty Unit with Servers := [{ Protocol := "", Addr := "ж", Port := 1 }] } :=
  ⟨(AddServer_spec exampleModel { Protocol := "tcps", Addr := "DB1", Port := 1521 }).1
      ⟨exampleServer, by decide, by decide⟩,
    (AddServer_spec exampleModel { Protocol := "tcp", Addr := "db1", Port := 1522 }).2
      (by decide),
    (AddServer_spec
      { DatabaseInfo.empty Unit with Servers := [{ Protocol := "", Addr := "ж", Port := 1 }] }
      { Protocol := "", Addr := "Ж", Port := 1 }).1
      ⟨{ Protocol := "", Addr := "ж", Port := 1 }, by decide, by decide⟩⟩

/-- C11. `a.IsEqual(b)` is true exactly when the hosts are equal ignoring letter case and the
ports are equal: rune by rune the hosts have the same upper case or the same simple case folding
of Unicode.  On hosts without U+0131 (dotless i, whose upper case is `I`) this is the caseless
match of Unicode, equal simple case foldings; on ASCII hosts it is equality up to the case of
the letters `A` to `Z`.  Replacing the `Protocol` of either endpoint does not change the
result. -/
theorem IsEqual_spec (a b : ServerAddr) :
    (a.IsEqual b = true ↔ equalIgnoringCase a.Addr b.Addr ∧ a.Port = b.Port) ∧
    ((∀ x ∈ a.Addr.data, x.toNat ≠ 0x131) → (∀ y ∈ b.Addr.data, y.toNat ≠ 0x131) →
      (a.IsEqual b = true ↔
        a.Addr.data.map caseFold = b.Addr.data.map caseFold ∧ a.Port = b.Port)) ∧
    ((∀ x ∈ a.Addr.data, x.toNat < 128) → (∀ y ∈ b.Addr.data, y.toNat < 128) →
      (a.IsEqual b = true ↔
        a.Addr.data.map asciiLower = b.Addr.data.map asciiLower ∧ a.Port = b.Port)) ∧
    (∀ p q : String, ({ a with Protocol := p } : ServerAddr).IsEqual { b with Protocol := q } =
      a.IsEqual b) :=
  ⟨IsEqual_iff a b, IsEqual_iff_caseFold a b, IsEqual_iff_ascii a b, fun _ _ => rfl⟩

/-- C11, on hosts that differ in letter case only (ASCII, Greek, Cyrillic, Latin with marks, the
sharp s, the micro sign, the Kelvin sign, the dotless i), and on endpoints that differ in the
port or in the host. -/
theorem IsEqual_spec_witness :
    ({ Protocol := "tcp", Addr := "DB1.Example.com", Port := 1521 } : ServerAddr).IsEqual
      { Protocol := "tcps", Addr := "db1.example.COM", Port := 1521 } = true ∧
    ({ Protocol := "tcp", Addr := "db1", Port := 1521 } : ServerAddr).IsEqual
      { Protocol := "tcp", Addr := "db1", Port := 1522 } = false ∧
    ({ Protocol := "tcp", Addr := "db1", Port := 1521 } : ServerAddr).IsEqual
      { Protocol := "tcp", Addr := "db2", Port := 1521 } = false ∧
    ({ Protocol := "", Addr := "αßµāжK", Port := 1 } : ServerAddr).IsEqual
      { Protocol := "", Addr := "ΑẞμĀЖk", Port := 1 } = true ∧
    ({ Protocol := "", Addr := "ı", Port := 1 } : ServerAddr).IsEqual
      { Protocol := "", Addr := "i", Port := 1 } = true ∧
    ({ Protocol := "", Addr := "İ", Port := 1 } : ServerAddr).IsEqual
      { Protocol := "", Addr := "i", Port := 1 } = false ∧
    ("αßµāжK".data.map caseFold = "ΑẞμĀЖk".data.map caseFold ∧
      (1 : Int) = 1) ∧
    ("DB1".data.map asciiLower = "db1".data.map asciiLower ∧ (1521 : Int) = 1521) ∧
    (equalIgnoringCase "ı" "i" ∧ (1 : Int) = 1) :=
  ⟨by decide, by decide, by decide, by decide, by decide, by decide,
    ((IsEqual_spec { Protocol := "", Addr := "αßµāжK", Port := 1 }
      { Protocol := "", Addr := "ΑẞμĀЖk", Port := 1 }).2.1 (by decide)
        (by decide)).mp (by decide),
    ((IsEqual_spec { Protocol := "tcp", Addr := "DB1", Port := 1521 }
      { Protocol := "tcps", Addr := "db1", Port := 1521 }).2.2.1 (by decide) (by decide)).mp
        (by decide),
    (IsEqual_spec { Protocol := "", Addr := "ı", Port := 1 }
      { Protocol := "", Addr := "i", Port := 1 }).1.mp (by decide)⟩

/-- C12, as the code has it. Whenever `UpdateDatabaseInfo` on a fresh model returns no error
(there is then at least one endpoint), each of `ServiceName`, `SID` and `InstanceName` is the
value of the first occurrence of its attribute in the text without carriage returns and line
feeds, whatever occurrences follow, and is empty exactly when that text has no occurrence of the
attribute. -/
theorem UpdateDatabaseInfo_first_match {W : Type} (text : String) (info1 : DatabaseInfo W)
    (h : (DatabaseInfo.empty W).UpdateDatabaseInfo text = .done (info1, none)) :
    info1.Servers ≠ [] ∧
    (∀ v, FirstOccurrence "SERVICE_NAME".data (normalizeText text).data v ↔
      v ≠ [] ∧ info1.ServiceName = String.mk v) ∧
    (NoOccurrence "SERVICE_NAME".data (normalizeText text).data ↔ info1.ServiceName = "") ∧
    (∀ v, FirstOccurrence "SID".data (normalizeText text).data v ↔
      v ≠ [] ∧ info1.SID = String.mk v) ∧
    (NoOccurrence "SID".data (normalizeText text).data ↔ info1.SID = "") ∧
    (∀ v, FirstOccurrence "INSTANCE_NAME".data (normalizeText text).data v ↔
      v ≠ [] ∧ info1.InstanceName = String.mk v) ∧
    (NoOccurrence "INSTANCE_NAME".data (normalizeText text).data ↔ info1.InstanceName = "") := by
  obtain ⟨hp, he, h0, hs⟩ := UpdateDatabaseInfo_cases (DatabaseInfo.empty W) text
  have k1 := identity_field "SERVICE_NAME".data (by decide) (by decide) (normalizeText text)
  have k2 := identity_field "SID".data (by decide) (by decide) (normalizeText text)
  have k3 := identity_field "INSTANCE_NAME".data (by decide) (by decide) (normalizeText text)
  rcases hE : ExtractServers (normalizeText text) with ⟨l, err⟩ | ⟨i, n⟩
  · cases err with
    | some e => rw [he l e hE] at h; simp at h
    | none =>
      by_cases hl : l = []
      · subst hl; rw [h0 hE] at h; simp at h
      · rw [hs l hl hE] at h
        simp only [Run.done.injEq, Prod.mk.injEq, and_true] at h
        subst h
        exact ⟨hl, k1.1, k1.2, k2.1, k2.2, k3.1, k3.2⟩
  · rw [hp i n hE] at h; cases h

/-- C12 as stated fails: this descriptor has a valid address group and a service name, and the
update ends with the error of the second group, the service name left empty. -/
theorem UpdateDatabaseInfo_first_match_counterexample :
    ExtractServers "(ADDRESS=(HOST=a))" =
      .done ([{ Protocol := "", Addr := "a", Port := 1521 }], none) ∧
    foundValue serviceNameRegexp
      "(ADDRESS=(HOST=a))(ADDRESS=(HOST=b)(PORT=99999999999999999999))(SERVICE_NAME=orcl)" =
        some "orcl" ∧
    (DatabaseInfo.empty Unit).UpdateDatabaseInfo
      "(ADDRESS=(HOST=a))(ADDRESS=(HOST=b)(PORT=99999999999999999999))(SERVICE_NAME=orcl)" =
        .done (DatabaseInfo.empty Unit, some (.numError "99999999999999999999" .range)) ∧
    (DatabaseInfo.empty Unit).ServiceName = "" := by
  decide

/-- C12 at a descriptor with two service names and a SID: the first service name is kept, the
instance name stays empty. -/
theorem UpdateDatabaseInfo_first_match_witness :
    (DatabaseInfo.empty Unit).UpdateDatabaseInfo
        "(ADDRESS=(HOST=db1))(SERVICE_NAME=orcl)(SID=x)(SERVICE_NAME=other)" =
      .done ({ DatabaseInfo.empty Unit with
        Servers := [{ Protocol := "", Addr := "db1", Port := 1521 }]
        connStr := "(ADDRESS=(HOST=db1))(SERVICE_NAME=orcl)(SID=x)(SERVICE_NAME=other)"
        ServiceName := "orcl"
        SID := "x" }, none) ∧
    FirstOccurrence "SERVICE_NAME".data
      (normalizeText "(ADDRESS=(HOST=db1))(SERVICE_NAME=orcl)(SID=x)(SERVICE_NAME=other)").data
      "orcl".data ∧
    FirstOccurrence "SID".data
      (normalizeText "(ADDRESS=(HOST=db1))(SERVICE_NAME=orcl)(SID=x)(SERVICE_NAME=other)").data
      "x".data ∧
    NoOccurrence "INSTANCE_NAME".data
      (normalizeText "(ADDRESS=(HOST=db1))(SERVICE_NAME=orcl)(SID=x)(SERVICE_NAME=other)").data :=
  ⟨by decide,
    ((UpdateDatabaseInfo_first_match
      "(ADDRESS=(HOST=db1))(SERVICE_NAME=orcl)(SID=x)(SERVICE_NAME=other)"
      { DatabaseInfo.empty Unit with
        Servers := [{ Protocol := "", Addr := "db1", Port := 1521 }]
        connStr := "(ADDRESS=(HOST=db1))(SERVICE_NAME=orcl)(SID=x)(SERVICE_NAME=other)"
        ServiceName := "orcl"
        SID := "x" } (by decide)).2.1 "orcl".data).mpr ⟨by decide, by decide⟩,
    ((UpdateDatabaseInfo_first_match
      "(ADDRESS=(HOST=db1))(SERVICE_NAME=orcl)(SID=x)(SERVICE_NAME=other)"
      { DatabaseInfo.empty Unit with
        Servers := [{ Protocol := "", Addr := "db1", Port := 1521 }]
        connStr := "(ADDRESS=(HOST=db1))(SERVICE_NAME=orcl)(SID=x)(SERVICE_NAME=other)"
        ServiceName := "orcl"
        SID := "x" } (by decide)).2.2.2.1 "x".data).mpr ⟨by decide, by decide⟩,
    (UpdateDatabaseInfo_first_match
      "(ADDRESS=(HOST=db1))(SERVICE_NAME=orcl)(SID=x)(SERVICE_NAME=other)"
      { DatabaseInfo.empty Unit with
        Servers := [{ Protocol := "", Addr := "db1", Port := 1521 }]
        connStr := "(ADDRESS=(HOST=db1))(SERVICE_NAME=orcl)(SID=x)(SERVICE_NAME=other)"
        ServiceName := "orcl"
        SID := "x" } (by decide)).2.2.2.2.2.2.mpr (by decide)⟩

/-- C13 does not hold of the code. With the community value `host` the loop of `ExtractServers`
takes sub-match 7 for the key HOST and stores sub-match 8, the text `PROTOCOL`, as the host; with
the value `protocol` it stores `PROTOCOL` as the protocol; with the value `port` it passes
`PROTOCOL` to `strconv.Atoi` and returns its error; with the value `host` and no PROTOCOL
attribute the host is overwritten with the empty string and the group is dropped.  A community
value such as `net1` changes nothing. -/
theorem community_value_as_key :
    ExtractServers "(ADDRESS=(HOST=db1)(PROTOCOL=tcp))" =
      .done ([{ Protocol := "tcp", Addr := "db1", Port := 1521 }], none) ∧
    ExtractServers "(ADDRESS=(HOST=db1)(COMMUNITY=host)(PROTOCOL=tcp))" =
      .done ([{ Protocol := "", Addr := "PROTOCOL", Port := 1521 }], none) ∧
    ExtractServers "(ADDRESS=(HOST=db1)(COMMUNITY=protocol)(PROTOCOL=tcp))" =
      .done ([{ Protocol := "PROTOCOL", Addr := "db1", Port := 1521 }], none) ∧
    ExtractServers "(ADDRESS=(HOST=db1)(COMMUNITY=port)(PROTOCOL=tcp))" =
      .done ([], some (.numError "PROTOCOL" .invalid)) ∧
    ExtractServers "(ADDRESS=(HOST=db1)(COMMUNITY=host))" = .done ([], none) ∧
    ExtractServers "(ADDRESS=(HOST=db1)(COMMUNITY=net1)(PROTOCOL=tcp))" =
      .done ([{ Protocol := "tcp", Addr := "db1", Port := 1521 }], none) := by
  refine ⟨by decide, by decide, by decide, by decide, by decide, by decide⟩

/-- C14, as the code has it. For every input text: every endpoint `ExtractServers` returns has a
non-empty host; every match of the address pattern has the slot shape `AddressSlots`; when no
match has a COMMUNITY value spelling HOST, PORT or PROTOCOL and no PORT value fails to parse, the
result is the list of the endpoints of the matches, in order, a match contributing its endpoint
exactly when it has one; and a match without HOST sub-attribute (sub-match 2 empty) has no
endpoint, while the endpoint of any other match has as host the value of its HOST sub-attribute
(sub-match 3, with sub-match 2 spelling HOST). -/
theorem ExtractServers_hosts (text : String) :
    (∀ servers err, ExtractServers text = .done (servers, err) → ∀ s ∈ servers, s.Addr ≠ "") ∧
    (∀ m ∈ connectionAddressRegexp.FindAllStringSubmatch 9 text, AddressSlots m) ∧
    ((∀ m ∈ connectionAddressRegexp.FindAllStringSubmatch 9 text,
        PlainMatch m ∧ (matchPort m).toBool = true) →
      ExtractServers text =
        .done ((connectionAddressRegexp.FindAllStringSubmatch 9 text).filterMap matchEndpoint,
          none)) ∧
    (∀ m, AddressSlots m →
      (m.getD 2 "" = "" → matchEndpoint m = none) ∧
      (∀ s, matchEndpoint m = some s →
        ToUpper (m.getD 2 "") = "HOST" ∧ s.Addr = m.getD 3 "" ∧ s.Addr ≠ "" ∧
        s.Protocol = m.getD 9 "" ∧ matchPort m = .ok s.Port)) := by
  refine ⟨?_, FindAllStringSubmatch_slots text, ?_, ?_⟩
  · intro servers err h
    exact extractLoop_hosts _ [] servers err (by simp) h
  · intro h
    have := extractLoop_plain _ [] (FindAllStringSubmatch_slots text) (fun m hm => (h m hm).1)
      (fun m hm => exists_of_toBool _ (h m hm).2)
    simpa [ExtractServers] using this
  · intro m hm
    obtain ⟨whole, last, hk, hv, pk, pv, ck, cv, qk, qv, rfl, h1, h2, h3, h4⟩ := hm
    simp only [List.getD_cons_succ, List.getD_cons_zero]
    constructor
    · intro e
      rcases h1 with ⟨-, rfl⟩ | ⟨a1, -, -⟩
      · simp [matchEndpoint]
      · subst e
        exact absurd a1 (by decide)
    · intro s hs
      unfold matchEndpoint at hs
      simp only [List.getD_cons_succ, List.getD_cons_zero] at hs
      split at hs
      · cases hs
      · rename_i hne
        rcases h1 with ⟨-, rfl⟩ | ⟨a1, -, -⟩
        · exact absurd rfl hne
        · split at hs
          · rename_i p hp
            simp only [Option.some.injEq] at hs
            subst hs
            exact ⟨a1, rfl, hne, rfl, hp⟩
          · cases hs

/-- C14 as stated fails: the only address group of this text has no HOST sub-attribute, and it
makes `ExtractServers` return an error. -/
theorem ExtractServers_hosts_counterexample :
    connectionAddressRegexp.FindAllStringSubmatch 9 "(ADDRESS=(PORT=99999999999999999999))" =
      [["(ADDRESS=(PORT=99999999999999999999))", "(PORT=99999999999999999999)", "", "", "PORT",
        "99999999999999999999", "", "", "", ""]] ∧
    ExtractServers "(ADDRESS=(PORT=99999999999999999999))" =
      .done ([], some (.numError "99999999999999999999" .range)) := by
  decide

/-- C14 at a text of three address groups, the second without HOST: it contributes nothing. -/
theorem ExtractServers_hosts_witness :
    (∀ m ∈ connectionAddressRegexp.FindAllStringSubmatch 9
        "(ADDRESS=(HOST=a)(PORT=1))(ADDRESS=(PORT=2)(COMMUNITY=c))(ADDRESS=(HOST=b))",
      PlainMatch m ∧ (matchPort m).toBool = true) ∧
    (connectionAddressRegexp.FindAllStringSubmatch 9
        "(ADDRESS=(HOST=a)(PORT=1))(ADDRESS=(PORT=2)(COMMUNITY=c))(ADDRESS=(HOST=b))").length = 3 ∧
    (connectionAddressRegexp.FindAllStringSubmatch 9
        "(ADDRESS=(HOST=a)(PORT=1))(ADDRESS=(PORT=2)(COMMUNITY=c))(ADDRESS=(HOST=b))").filterMap
          matchEndpoint =
      [{ Protocol := "", Addr := "a", Port := 1 }, { Protocol := "", Addr := "b", Port := 1521 }] ∧
    ExtractServers "(ADDRESS=(HOST=a)(PORT=1))(ADDRESS=(PORT=2)(COMMUNITY=c))(ADDRESS=(HOST=b))" =
      .done ((connectionAddressRegexp.FindAllStringSubmatch 9
        "(ADDRESS=(HOST=a)(PORT=1))(ADDRESS=(PORT=2)(COMMUNITY=c))(ADDRESS=(HOST=b))").filterMap
          matchEndpoint, none) :=
  ⟨by decide, by decide, by decide,
    (ExtractServers_hosts
      "(ADDRESS=(HOST=a)(PORT=1))(ADDRESS=(PORT=2)(COMMUNITY=c))(ADDRESS=(HOST=b))").2.2.1
      (by decide)⟩

/-- C15, as the code has it. For every input text and every match of the address pattern in it
whose captured PORT value fails `strconv.Atoi`: the PORT sub-attribute took part in the match
(sub-match 4 spells PORT) and sub-match 5 is what fails to parse; whenever `ExtractServers`
returns, it returns no endpoint and an error; and when no earlier match has a COMMUNITY value
spelling a key or a PORT value that fails to parse, it returns the `strconv.Atoi` error of this
match, whatever follows it. -/
theorem ExtractServers_bad_port (text : String) (m : List String) (e : GoError)
    (hm : m ∈ connectionAddressRegexp.FindAllStringSubmatch 9 text)
    (he : matchPort m = .error e) :
    (ToUpper (m.getD 4 "") = "PORT" ∧ Atoi (m.getD 5 "") = .error e) ∧
    (∀ servers err, ExtractServers text = .done (servers, err) →
      servers = [] ∧ ∃ e1, err = some e1) ∧
    (∀ pre post, connectionAddressRegexp.FindAllStringSubmatch 9 text = pre ++ m :: post →
      (∀ x ∈ pre, PlainMatch x ∧ (matchPort x).toBool = true) →
      ExtractServers text = .done ([], some e)) := by
  have hs := FindAllStringSubmatch_slots text
  refine ⟨?_, ?_, ?_⟩
  · obtain ⟨whole, last, hk, hv, pk, pv, ck, cv, qk, qv, rfl, h1, h2, h3, h4⟩ := hs m hm
    simp only [matchPort, List.getD_cons_succ, List.getD_cons_zero] at he ⊢
    rcases h2 with ⟨rfl, rfl⟩ | ⟨a2, -, -⟩
    · simp at he
    · rw [if_neg (ne_empty_of_ToUpper _ _ a2 (by decide))] at he
      exact ⟨a2, he⟩
  · intro servers err h
    exact extractLoop_bad_port _ [] hs m hm e he servers err h
  · intro pre post hsplit hpre
    unfold ExtractServers
    rw [hsplit] at hs ⊢
    exact extractLoop_first_bad_port pre post m [] hs (fun x hx => (hpre x hx).1)
      (fun x hx => exists_of_toBool _ (hpre x hx).2) e he

/-- C15 as stated fails: the address group of this text carries the PORT value
`99999999999999999999`, which `strconv.Atoi` rejects, and `ExtractServers` returns an endpoint
and no error, because the pattern keeps the last PORT value of a group only. -/
theorem ExtractServers_bad_port_counterexample :
    ("(ADDRESS=(HOST=a)(PORT=99999999999999999999)(PORT=1))" : String) =
      "(ADDRESS=(HOST=a)" ++ String.mk (attributeText ['P', 'O', 'R', 'T']
        "99999999999999999999".data) ++ "(PORT=1))" ∧
    Atoi "99999999999999999999" = .error (.numError "99999999999999999999" .range) ∧
    ExtractServers "(ADDRESS=(HOST=a)(PORT=99999999999999999999)(PORT=1))" =
      .done ([{ Protocol := "", Addr := "a", Port := 1 }], none) :=
  ⟨by decide, rfl, by decide⟩

/-- C15 at a text whose second address group has a PORT value beyond the range of `int`, between
two valid groups. -/
theorem ExtractServers_bad_port_witness :
    ["(ADDRESS=(HOST=b)(PORT=99999999999999999999))", "(PORT=99999999999999999999)", "HOST", "b",
        "PORT", "99999999999999999999", "", "", "", ""] ∈
      connectionAddressRegexp.FindAllStringSubmatch 9
        "(ADDRESS=(HOST=a))(ADDRESS=(HOST=b)(PORT=99999999999999999999))(ADDRESS=(HOST=c))" ∧
    ExtractServers
        "(ADDRESS=(HOST=a))(ADDRESS=(HOST=b)(PORT=99999999999999999999))(ADDRESS=(HOST=c))" =
      .done ([], some (.numError "99999999999999999999" .range)) :=
  ⟨by decide,
    (ExtractServers_bad_port
      "(ADDRESS=(HOST=a))(ADDRESS=(HOST=b)(PORT=99999999999999999999))(ADDRESS=(HOST=c))"
      ["(ADDRESS=(HOST=b)(PORT=99999999999999999999))", "(PORT=99999999999999999999)", "HOST", "b",
        "PORT", "99999999999999999999", "", "", "", ""]
      (.numError "99999999999999999999" .range) (by decide) rfl).2.2
      [["(ADDRESS=(HOST=a))", "(HOST=a)", "HOST", "a", "", "", "", "", "", ""]]
      [["(ADDRESS=(HOST=c))", "(HOST=c)", "HOST", "c", "", "", "", "", "", ""]]
      (by decide) (by decide)⟩

/-- C16 does not hold of the code. The example of the claim parses alike in both cases, but with
the community value `host` the loop stores sub-match 8, the PROTOCOL keyword as written, as the
host: `PROTOCOL` for the upper-case text and `protocol` for the lower-case text. -/
theorem keyword_case_with_community :
    ExtractServers "(ADDRESS=(HOST=x)(PORT=1521))" =
      .done ([{ Protocol := "", Addr := "x", Port := 1521 }], none) ∧
    ExtractServers "(address=(host=x)(port=1521))" =
      .done ([{ Protocol := "", Addr := "x", Port := 1521 }], none) ∧
    ExtractServers "(ADDRESS=(COMMUNITY=host)(PROTOCOL=tcp))" =
      .done ([{ Protocol := "", Addr := "PROTOCOL", Port := 1521 }], none) ∧
    ExtractServers "(address=(community=host)(protocol=tcp))" =
      .done ([{ Protocol := "", Addr := "protocol", Port := 1521 }], none) := by
  refine ⟨by decide, by decide, by decide, by decide⟩

/-- C17, as the code has it. For every model and every descriptor text in which no matched
address group has a COMMUNITY value spelling HOST, PORT or PROTOCOL or a PORT value that fails
to parse, and in which `k >= 2` of the matched groups have the same host and the same port:
`UpdateDatabaseInfo` succeeds, `Servers` holds one endpoint for every matched group with a HOST,
in the order of the text, among them the `k` endpoints of those groups, which are pairwise equal
under `IsEqual`; added one by one to the empty model with `AddServer`, the same `k` endpoints
leave a list of length 1. -/
theorem UpdateDatabaseInfo_keeps_duplicates {W : Type} (info : DatabaseInfo W) (text : String)
    (ds : List (List String)) (host : String) (port : Int)
    (hplain : ∀ m ∈ connectionAddressRegexp.FindAllStringSubmatch 9 (normalizeText text),
      PlainMatch m ∧ (matchPort m).toBool = true)
    (hsub : ds.Sublist (connectionAddressRegexp.FindAllStringSubmatch 9 (normalizeText text)))
    (hk : 2 ≤ ds.length)
    (hsame : ∀ d ∈ ds, matchEndpoint d =
      some { Protocol := d.getD 9 "", Addr := host, Port := port }) :
    ∃ info1 : DatabaseInfo W,
      info.UpdateDatabaseInfo text = .done (info1, none) ∧
      info1.Servers =
        (connectionAddressRegexp.FindAllStringSubmatch 9 (normalizeText text)).filterMap
          matchEndpoint ∧
      (ds.filterMap matchEndpoint).Sublist info1.Servers ∧
      (ds.filterMap matchEndpoint).length = ds.length ∧
      (∀ a ∈ ds.filterMap matchEndpoint, a.Addr = host ∧ a.Port = port) ∧
      (∀ a ∈ ds.filterMap matchEndpoint, ∀ b ∈ ds.filterMap matchEndpoint,
        a.IsEqual b = true) ∧
      (addAll (DatabaseInfo.empty W) (ds.filterMap matchEndpoint)).Servers.length = 1 := by
  have hE : ExtractServers (normalizeText text) =
      .done ((connectionAddressRegexp.FindAllStringSubmatch 9 (normalizeText text)).filterMap
        matchEndpoint, none) := by
    have := extractLoop_plain _ [] (FindAllStringSubmatch_slots (normalizeText text))
      (fun m hm => (hplain m hm).1) (fun m hm => exists_of_toBool _ (hplain m hm).2)
    simpa [ExtractServers] using this
  have hfield : ∀ a ∈ ds.filterMap matchEndpoint, a.Addr = host ∧ a.Port = port := by
    intro a ha
    rw [List.mem_filterMap] at ha
    obtain ⟨d, hd, he⟩ := ha
    rw [hsame d hd] at he
    cases he
    exact ⟨rfl, rfl⟩
  have hpair : ∀ a ∈ ds.filterMap matchEndpoint, ∀ b ∈ ds.filterMap matchEndpoint,
      a.IsEqual b = true := by
    intro a ha b hb
    exact IsEqual_of_eq _ _ ((hfield a ha).1.trans (hfield b hb).1.symm)
      ((hfield a ha).2.trans (hfield b hb).2.symm)
  have hlen : (ds.filterMap matchEndpoint).length = ds.length :=
    filterMap_length_of_some _ _ (fun d hd => ⟨_, hsame d hd⟩)
  have hsubm : (ds.filterMap matchEndpoint).Sublist
      ((connectionAddressRegexp.FindAllStringSubmatch 9 (normalizeText text)).filterMap
        matchEndpoint) := hsub.filterMap _
  have hl : (connectionAddressRegexp.FindAllStringSubmatch 9 (normalizeText text)).filterMap
      matchEndpoint ≠ [] := by
    intro e
    rw [e] at hsubm
    have := List.Sublist.length_le hsubm
    rw [hlen, List.length_nil] at this
    omega
  refine ⟨_, (UpdateDatabaseInfo_cases info _).2.2.2 _ hl hE, rfl, hsubm, hlen, hfield, hpair,
    ?_⟩
  cases hfm : ds.filterMap matchEndpoint with
  | nil =>
    rw [hfm, List.length_nil] at hlen
    omega
  | cons c cs =>
    rw [addAll_empty_of_equal]
    · rfl
    · intro x hx
      exact hpair x (by rw [hfm]; exact List.mem_cons_of_mem _ hx) c
        (by rw [hfm]; exact List.mem_cons_self _ _)

/-- C17 as stated fails: this descriptor holds the same address group twice, and a third group
with a port beyond the range of `int` makes the update fail, `Servers` left empty. -/
theorem UpdateDatabaseInfo_keeps_duplicates_counterexample :
    ExtractServers "(ADDRESS=(HOST=a)(PORT=1))(ADDRESS=(HOST=a)(PORT=1))" =
      .done ([{ Protocol := "", Addr := "a", Port := 1 },
        { Protocol := "", Addr := "a", Port := 1 }], none) ∧
    (DatabaseInfo.empty Unit).UpdateDatabaseInfo
        "(ADDRESS=(HOST=a)(PORT=1))(ADDRESS=(HOST=a)(PORT=1))(ADDRESS=(HOST=b)(PORT=99999999999999999999))" =
      .done (DatabaseInfo.empty Unit, some (.numError "99999999999999999999" .range)) ∧
    (DatabaseInfo.empty Unit).Servers = [] := by
  decide

set_option maxRecDepth 100000 in
/-- C17, on a descriptor with a wrapper, white space, a line break and a COMMUNITY attribute
that holds the address group `db1`, 1522 twice, with different protocols, and a third group. -/
theorem UpdateDatabaseInfo_keeps_duplicates_witness :
    connectionAddressRegexp.FindAllStringSubmatch 9 (normalizeText
        "(DESCRIPTION=(ADDRESS = (PROTOCOL = tcp)(HOST = db1)\r\n(PORT = 1522))(ADDRESS=(HOST=db2))(ADDRESS=(COMMUNITY=c1)(HOST=db1)(PORT=1522)))") =
      [["(ADDRESS = (PROTOCOL = tcp)(HOST = db1)(PORT = 1522))", "(PORT = 1522)", "HOST", "db1",
          "PORT", "1522", "", "", "PROTOCOL", "tcp"],
        ["(ADDRESS=(HOST=db2))", "(HOST=db2)", "HOST", "db2", "", "", "", "", "", ""],
        ["(ADDRESS=(COMMUNITY=c1)(HOST=db1)(PORT=1522))", "(PORT=1522)", "HOST", "db1", "PORT",
          "1522", "COMMUNITY", "c1", "", ""]] ∧
    ∃ info1 : DatabaseInfo Unit,
      (DatabaseInfo.empty Unit).UpdateDatabaseInfo
        "(DESCRIPTION=(ADDRESS = (PROTOCOL = tcp)(HOST = db1)\r\n(PORT = 1522))(ADDRESS=(HOST=db2))(ADDRESS=(COMMUNITY=c1)(HOST=db1)(PORT=1522)))" =
          .done (info1, none) ∧
      info1.Servers = [{ Protocol := "tcp", Addr := "db1", Port := 1522 },
        { Protocol := "", Addr := "db2", Port := 1521 },
        { Protocol := "", Addr := "db1", Port := 1522 }] ∧
      (addAll (DatabaseInfo.empty Unit)
        [{ Protocol := "tcp", Addr := "db1", Port := 1522 },
          { Protocol := "", Addr := "db1", Port := 1522 }]).Servers.length = 1 :=
  ⟨by decide,
    (UpdateDatabaseInfo_keeps_duplicates (DatabaseInfo.empty Unit)
      "(DESCRIPTION=(ADDRESS = (PROTOCOL = tcp)(HOST = db1)\r\n(PORT = 1522))(ADDRESS=(HOST=db2))(ADDRESS=(COMMUNITY=c1)(HOST=db1)(PORT=1522)))"
      [["(ADDRESS = (PROTOCOL = tcp)(HOST = db1)(PORT = 1522))", "(PORT = 1522)", "HOST", "db1",
          "PORT", "1522", "", "", "PROTOCOL", "tcp"],
        ["(ADDRESS=(COMMUNITY=c1)(HOST=db1)(PORT=1522))", "(PORT=1522)", "HOST", "db1", "PORT",
          "1522", "COMMUNITY", "c1", "", ""]]
      "db1" 1522 (by decide) (by decide) (by decide) (by decide)).elim
      (fun info1 h => ⟨info1, h.1, h.2.1.trans (by decide), h.2.2.2.2.2.2⟩)⟩

/-- C18. `DBAPrivilegeFromString` is a total function; it returns the code of a privilege name
for every string whose upper case is that name, in particular for every string that differs from
the name in the case of ASCII letters only, and `NONE` for every other string, among them
`"NONE"` and the empty string; the codes are 0x20, 0x40, 0x00400000, 0x01000000, 0x02000000,
0x04000000, 0x08000000 and 0 for `NONE`, pairwise distinct. -/
theorem DBAPrivilegeFromString_spec :
    (∀ p ∈ privilegeNames, ∀ s : String, ToUpper s = p.1 → DBAPrivilegeFromString s = p.2) ∧
    (∀ p ∈ privilegeNames, ∀ s : String,
      s.data.map asciiLower = p.1.data.map asciiLower → DBAPrivilegeFromString s = p.2) ∧
    (∀ s : String, (∀ p ∈ privilegeNames, ToUpper s ≠ p.1) → DBAPrivilegeFromString s = NONE) ∧
    DBAPrivilegeFromString "NONE" = NONE ∧ DBAPrivilegeFromString "" = NONE ∧
    privilegeNames = [("SYSDBA", 0x20), ("SYSOPER", 0x40), ("SYSASM", 0x00400000),
      ("SYSBACKUP", 0x01000000), ("SYSDG", 0x02000000), ("SYSKM", 0x04000000),
      ("SYSRAC", 0x08000000)] ∧
    NONE = 0 ∧
    [NONE, SYSDBA, SYSOPER, SYSASM, SYSBACKUP, SYSDG, SYSKM, SYSRAC].Nodup := by
  refine ⟨DBAPrivilegeFromString_of_name, ?_, DBAPrivilegeFromString_default, by decide,
    by decide, by decide, by decide, by decide⟩
  intro p hp s h
  apply DBAPrivilegeFromString_of_name p hp
  rw [ToUpper_of_asciiLower s p.1 h]
  simp only [privilegeNames, List.mem_cons, List.mem_singleton, List.not_mem_nil, or_false] at hp
  rcases hp with rfl | rfl | rfl | rfl | rfl | rfl | rfl <;> decide

/-- C18, on mixed-case and lower-case names and on strings that are no privilege name. -/
theorem DBAPrivilegeFromString_spec_witness :
    DBAPrivilegeFromString "SysBackup" = 0x01000000 ∧ DBAPrivilegeFromString "sysdba" = 0x20 ∧
    DBAPrivilegeFromString "SYSTEM" = 0 ∧ DBAPrivilegeFromString "none" = 0 :=
  ⟨DBAPrivilegeFromString_spec.2.1 ("SYSBACKUP", SYSBACKUP) (by decide) "SysBackup" (by decide),
    by decide, by decide, by decide⟩

/-- C19 does not hold of the code. On `(ADDRESS=(COMMUNITY=host)(PROTOCOL=port))` the ten
sub-matches end with `host`, `PROTOCOL`, `port`: index 7 is taken for the key HOST, index 9 for
the key PORT, and the read `match[x]` after the inner `x++` has `x = 10 = len(match)`, so
`ExtractServers` panics, and `UpdateDatabaseInfo` with it.  On every text in which no match has
a COMMUNITY value spelling HOST, PORT or PROTOCOL, `ExtractServers` returns. -/
theorem submatch_index_out_of_range :
    connectionAddressRegexp.FindAllStringSubmatch 9 "(ADDRESS=(COMMUNITY=host)(PROTOCOL=port))" =
      [["(ADDRESS=(COMMUNITY=host)(PROTOCOL=port))", "(PROTOCOL=port)", "", "", "", "",
        "COMMUNITY", "host", "PROTOCOL", "port"]] ∧
    ExtractServers "(ADDRESS=(COMMUNITY=host)(PROTOCOL=port))" = .panicked 10 10 ∧
    (DatabaseInfo.empty Unit).UpdateDatabaseInfo "(ADDRESS=(COMMUNITY=host)(PROTOCOL=port))" =
      .panicked 10 10 ∧
    (∀ text : String, (∀ m ∈ connectionAddressRegexp.FindAllStringSubmatch 9 text, PlainMatch m) →
      ∃ res, ExtractServers text = .done res) := by
  refine ⟨by decide, by decide, by decide, ?_⟩
  intro text h
  exact extractLoop_plain_done _ [] (FindAllStringSubmatch_slots text) h

/-- C20. When no two endpoints at different positions of `Servers` are equal under `IsEqual`,
the same holds after `AddServer`, whatever the candidate; hence the list built from the empty
model by `AddServer` calls alone holds no two endpoints, at different positions, with the same
port and with hosts equal ignoring letter case: none with hosts that have, rune by rune, the
same upper case or the same simple case folding, so none with hosts that are a caseless match
of Unicode and none with hosts that differ in the case of ASCII letters only. -/
theorem AddServer_noDuplicates {W : Type} :
    (∀ (info : DatabaseInfo W) (c : ServerAddr),
      NoDuplicates info.Servers → NoDuplicates (info.AddServer c).Servers) ∧
    (∀ cs : List ServerAddr, NoDuplicates (addAll (DatabaseInfo.empty W) cs).Servers) ∧
    (∀ (cs : List ServerAddr) (i j : Nat) (a b : ServerAddr), i < j →
      (addAll (DatabaseInfo.empty W) cs).Servers.get? i = some a →
      (addAll (DatabaseInfo.empty W) cs).Servers.get? j = some b →
      ¬ (equalIgnoringCase a.Addr b.Addr ∧ a.Port = b.Port) ∧
      ¬ (a.Addr.data.map caseFold = b.Addr.data.map caseFold ∧ a.Port = b.Port) ∧
      ¬ (a.Addr.data.map asciiLower = b.Addr.data.map asciiLower ∧ a.Port = b.Port)) := by
  have h2 : ∀ cs : List ServerAddr, NoDuplicates (addAll (DatabaseInfo.empty W) cs).Servers :=
    fun cs => addAll_noDuplicates cs _ (by simp [NoDuplicates, DatabaseInfo.empty])
  refine ⟨AddServer_noDuplicates_step, h2, ?_⟩
  intro cs i j a b hij ha hb
  have hp := h2 cs
  unfold NoDuplicates at hp
  rw [List.pairwise_iff_get] at hp
  rw [List.get?_eq_some] at ha hb
  obtain ⟨hi, ha⟩ := ha
  obtain ⟨hj, hb⟩ := hb
  have hne := hp ⟨i, hi⟩ ⟨j, hj⟩ hij
  rw [ha, hb] at hne
  have key : ¬ (equalIgnoringCase a.Addr b.Addr ∧ a.Port = b.Port) := by
    intro hab
    rw [(IsEqual_iff a b).mpr hab] at hne
    cases hne
  exact ⟨key, fun h => key ⟨equalIgnoringCase_of_caseFold _ _ h.1, h.2⟩,
    fun h => key ⟨equalIgnoringCase_of_asciiLower _ _ h.1, h.2⟩⟩

/-- C20, at the model with two endpoints and on lists of candidates with repetitions, in ASCII
and in Cyrillic. -/
theorem AddServer_noDuplicates_witness :
    NoDuplicates exampleModel.Servers ∧
    NoDuplicates (exampleModel.AddServer { Protocol := "", Addr := "DB2", Port := 1522 }).Servers ∧
    (addAll (DatabaseInfo.empty Unit)
      [exampleServer, { Protocol := "", Addr := "DB1", Port := 1521 }, exampleServer2,
        exampleServer]).Servers = [exampleServer, exampleServer2] ∧
    (addAll (DatabaseInfo.empty Unit)
      [{ Protocol := "", Addr := "ж", Port := 1 }, { Protocol := "", Addr := "Ж", Port := 1 },
        { Protocol := "", Addr := "ж", Port := 2 }]).Servers =
      [{ Protocol := "", Addr := "ж", Port := 1 }, { Protocol := "", Addr := "ж", Port := 2 }] :=
  ⟨by decide,
    (AddServer_noDuplicates (W := Unit)).1 exampleModel _ (by decide), by decide, by decide⟩

end Configurations
